import Mathlib

/-!
# AIS decoder: bit-level decode engine

A shallow embedding of `02_C_Implementation/refined_ais_decoder_C.c` and the
properties of its decode path.

Conventions of the embedding:

* a NUL-terminated C string is the list of its characters before the NUL
  (`List Char`); `strlen` is `List.length`;
* `decode_ais` is the run of the source in which the arrays
  `payload[MAX_PAYLOAD_LENGTH]` and `binary_data[MAX_BINARY_LENGTH]` are large
  enough for the line, and `decode_ais_in_buffers` is the run with the arrays at
  their declared sizes: it ends in an out-of-bounds write when the payload has
  256 characters or more, and returns what `decode_ais` gives otherwise
  (`decode_ais_in_buffers_fits`, `decode_ais_in_buffers_none_iff`); the array
  `bit_string[65]` of `extract_bits` is not modelled (every window read by
  `decode_ais` has at most 30 bits);
* `int` and `int64_t` values are mathematical integers (`Int`), in the range
  where C arithmetic does not overflow; the narrowing casts `(int)` and
  `(uint32_t)` are the explicit functions `cast_int` and `cast_uint32`;
* `x << 1` and `x | y` are the `Int` shift and `Int.lor`; `(x >> j) & 1` is the
  parity of the arithmetic right shift;
* a function that writes through an output pointer returns the written value;
* text produced by `sprintf` from a `double` is kept as the call that produced
  it (`NumText`), not as digits.
-/

namespace AIS

/-! ## Machine integer casts -/

/-- The cast `(int)x` of a 64-bit value: reduction into `[-2^31, 2^31)`. -/
def cast_int (x : Int) : Int :=
  (x + 2147483648) % 4294967296 - 2147483648

/-- The cast `(uint32_t)x`: reduction modulo `2^32`. -/
def cast_uint32 (x : Int) : Int :=
  x % 4294967296

/-! ## Armor decoding -/

/-- Source `convert_ais_char`: `val = (int)c - 48; if (val > 40) val -= 8`. -/
def convert_ais_char (c : Char) : Int :=
  let val : Int := (c.toNat : Int) - 48
  if val > 40 then val - 8 else val

/-- The inner loop of `convert_payload_to_binary`:
`temp[5-j] = ((six_bit_val >> j) & 1) ? '1' : '0'` for `j = 5, 4, ..., 0`. -/
def six_bits (six_bit_val : Int) : List Char :=
  [5, 4, 3, 2, 1, 0].map fun (j : Nat) =>
    if (six_bit_val >>> j) % 2 ≠ 0 then '1' else '0'

/-- Source `convert_payload_to_binary`: the six characters of every payload
character are appended (`strcat`) to the output in order. -/
def convert_payload_to_binary : List Char → List Char
  | [] => []
  | c :: payload => six_bits (convert_ais_char c) ++ convert_payload_to_binary payload

/-! ## Bit field reader -/

/-- The loop body of `extract_bits`: `(result << 1) | (bit_string[i] - '0')`. -/
def shift_or (result : Int) (c : Char) : Int :=
  Int.lor (result <<< (1 : Int)) ((c.toNat : Int) - ('0'.toNat : Int))

/-- Source `extract_bits`: `-1` when `start_pos + bit_length > len`, otherwise
the window is copied (`strncpy`) and folded most significant bit first. -/
def extract_bits (binary_data : List Char) (start_pos bit_length : Int) : Int :=
  let len : Int := binary_data.length
  if start_pos + bit_length > len then -1
  else
    let bit_string := (binary_data.drop start_pos.toNat).take bit_length.toNat
    bit_string.foldl shift_or 0

/-- Source `extract_signed_bits`: the failure value `-1` is passed on; a value
with its top bit set has `1LL << bit_length` subtracted. -/
def extract_signed_bits (binary_data : List Char) (start_pos bit_length : Int) : Int :=
  let value := extract_bits binary_data start_pos bit_length
  if value = -1 then -1
  else if value ≥ (2 : Int) ^ (bit_length - 1).toNat then value - (2 : Int) ^ bit_length.toNat
  else value


/-! ## Sentence extractor -/

/-- The scanning loop of `get_payload_from_nmea`: `p` walks the sentence and
`comma_count` counts the commas passed; the first non-comma character met
while `comma_count == 5` starts the payload, which runs to the next comma or
to the end of the sentence. -/
def scan_payload : List Char → Int → Option (List Char)
  | [], _ => none
  | c :: rest, comma_count =>
    if c = ',' then scan_payload rest (comma_count + 1)
    else if comma_count = 5 then some ((c :: rest).takeWhile (fun d => d ≠ ','))
    else scan_payload rest comma_count

/-- Source `get_payload_from_nmea`: `none` is the return value `0`, `some payload`
is the return value `1` with `payload` written to the output buffer. -/
def get_payload_from_nmea (sentence : List Char) : Option (List Char) :=
  if sentence.take 6 ≠ ['!', 'A', 'I', 'V', 'D', 'M'] ∧
      sentence.take 6 ≠ ['!', 'A', 'I', 'V', 'D', 'O'] then none
  else scan_payload sentence 0

/-! ## Text field decoder -/

/-- The character appended by one round of the loop of `extract_text`. -/
def text_char (char_bits : Int) : Char :=
  let ascii_char : Int := cast_int (if char_bits < 32 then char_bits + 64 else char_bits)
  if ascii_char ≥ 32 ∧ ascii_char ≤ 126 then Char.ofNat ascii_char.toNat else ' '

/-- The loop of `extract_text`, with `remaining = num_chars - i` rounds left;
a failed read (`-1`) breaks out of the loop. -/
def extract_text_loop (binary_data : List Char) (start_pos : Int) : Nat → Int → List Char
  | 0, _ => []
  | remaining + 1, i =>
    let char_bits := extract_bits binary_data (start_pos + i * 6) 6
    if char_bits = -1 then []
    else text_char char_bits :: extract_text_loop binary_data start_pos remaining (i + 1)

/-- Source `extract_text`: the loop, then the trailing spaces are removed. -/
def extract_text (binary_data : List Char) (start_pos num_chars : Int) : List Char :=
  (extract_text_loop binary_data start_pos num_chars.toNat 0).rdropWhile (fun d => d = ' ')

/-! ## Decoded record -/

/-- Content of a numeric text field (`rot`, `sog`, `cog`, `longitude`,
`latitude`, `draught`). A literal is the string stored by `strcpy`; the other
constructors record the `sprintf` call that filled the field, whose digits are
produced by the C library from a `double`. -/
inductive NumText
  /-- Written by `strcpy(field, s)`. -/
  | lit (s : String)
  /-- Written by `sprintf(field, "%.1f", raw / divisor.0)`. -/
  | fixed1 (raw : Int) (divisor : Nat)
  /-- Written by `sprintf(field, "+%.1f", pow(raw / 4.733, 2))`. -/
  | rot_plus (raw : Int)
  /-- Written by `sprintf(field, "-%.1f", pow(fabs(raw) / 4.733, 2))`. -/
  | rot_minus (raw : Int)
  /-- Written by `sprintf(field, "%.7f", fabs(raw / divisor.0))`. -/
  | abs7 (raw : Int) (divisor : Nat)
  deriving DecidableEq, Repr

/-- Source `AISData` (extended decoder). -/
structure AISData where
  msg_type : Int
  repeat_ind : Int
  mmsi : Int
  nav_status : Int
  rot : NumText
  sog : NumText
  pos_accuracy : Int
  longitude : NumText
  lon_hem : String
  latitude : NumText
  lat_hem : String
  cog : NumText
  heading : Int
  utc_sec : Int
  sync : Int
  slot : Int
  raim : Int
  ship_name : List Char
  ship_type : Int
  callsign : List Char
  destination : List Char
  draught : NumText
  imo : Int
  dim_a : Int
  dim_b : Int
  dim_c : Int
  dim_d : Int
  ais_version : Int
  dte : Int
  altitude : Int
  aid_type : Int
  name_extension : List Char
  off_position : Int
  gnss : Int
  has_position : Int

/-- Source `init_ais_data`. -/
def init_ais_data : AISData where
  msg_type := 0
  repeat_ind := 0
  mmsi := 0
  nav_status := -1
  rot := .lit "0"
  sog := .lit "0.0"
  pos_accuracy := 0
  longitude := .lit "0"
  lon_hem := "E"
  latitude := .lit "0"
  lat_hem := "N"
  cog := .lit "0.0"
  heading := 511
  utc_sec := 60
  sync := 0
  slot := 0
  raim := 0
  ship_name := []
  ship_type := 0
  callsign := []
  destination := []
  draught := .lit "0"
  imo := 0
  dim_a := 0
  dim_b := 0
  dim_c := 0
  dim_d := 0
  ais_version := 0
  dte := 0
  altitude := 0
  aid_type := 0
  name_extension := []
  off_position := 0
  gnss := 0
  has_position := 0

/-! ## Value normalisation blocks of `decode_ais` -/

/-- Source `format_lat_lon`, called with `coordinate = raw / divisor.0`, whose
sign is the sign of `raw`. Returns `(coord_str, hem_str)`. -/
def format_lat_lon (raw : Int) (divisor : Nat) (is_lon : Bool) : NumText × String :=
  let hem_str :=
    if is_lon then (if raw ≥ 0 then "E" else "W")
    else (if raw ≥ 0 then "N" else "S")
  (.abs7 raw divisor, hem_str)

/-- The rate-of-turn block (source lines 265-280). -/
def rot_text (rot_raw : Int) : NumText :=
  if rot_raw = -128 then .lit "-128.0"
  else if rot_raw = -127 then .lit "-720.0"
  else if rot_raw = 127 then .lit "+127.0"
  else if rot_raw = 0 then .lit "+0.0"
  else if rot_raw > 0 then .rot_plus rot_raw
  else .rot_minus rot_raw

/-- The speed block for a 10-bit field: `1023` gives `"0.0"`, otherwise
`sprintf("%.1f", sog_raw / 10.0)`. -/
def sog_text (sog_raw : Int) : NumText :=
  if sog_raw = 1023 then .lit "0.0" else .fixed1 sog_raw 10

/-- The course block for a 12-bit field: `>= 3600` gives `"360.0"`, otherwise
`sprintf("%.1f", cog_raw / 10.0)`. -/
def cog_text (cog_raw : Int) : NumText :=
  if cog_raw ≥ 3600 then .lit "360.0" else .fixed1 cog_raw 10

/-- The longitude block `if (lon_raw != sentinel) { format_lat_lon(...);
data->has_position = 1; }`: the values of `longitude`, `lon_hem` and
`has_position` after the block, given their values `old` before it. -/
def longitude_block (old : NumText × String × Int) (lon_raw sentinel : Int) (divisor : Nat) :
    NumText × String × Int :=
  if lon_raw ≠ sentinel then
    ((format_lat_lon lon_raw divisor true).1, (format_lat_lon lon_raw divisor true).2, 1)
  else old

/-- The latitude block `if (lat_raw != sentinel) { format_lat_lon(...); }`: the
values of `latitude` and `lat_hem` after the block, given their values `old`
before it. -/
def latitude_block (old : NumText × String) (lat_raw sentinel : Int) (divisor : Nat) :
    NumText × String :=
  if lat_raw ≠ sentinel then format_lat_lon lat_raw divisor false else old

/-! ## Per-type layouts of `decode_ais`

Every branch assigns each field at most once, so a branch is written as one
record update listing its assignments in source order. -/

/-- Types 1-3, Class A position report (source lines 261-326). -/
def decode_class_a (binary_data : List Char) (data : AISData) : AISData :=
  let rot_raw := extract_signed_bits binary_data 42 8
  let sog_raw := extract_bits binary_data 50 10
  let lon_raw := extract_signed_bits binary_data 61 28
  let lat_raw := extract_signed_bits binary_data 89 27
  let cog_raw := extract_bits binary_data 116 12
  let hdg_raw := extract_bits binary_data 128 9
  let utc_raw := extract_bits binary_data 137 6
  { data with
    nav_status := cast_int (extract_bits binary_data 38 4)
    rot := rot_text rot_raw
    sog := sog_text sog_raw
    pos_accuracy := cast_int (extract_bits binary_data 60 1)
    longitude := (longitude_block (data.longitude, data.lon_hem, data.has_position) lon_raw 0x6791AC0 600000).1
    lon_hem := (longitude_block (data.longitude, data.lon_hem, data.has_position) lon_raw 0x6791AC0 600000).2.1
    has_position := (longitude_block (data.longitude, data.lon_hem, data.has_position) lon_raw 0x6791AC0 600000).2.2
    latitude := (latitude_block (data.latitude, data.lat_hem) lat_raw 0x3412140 600000).1
    lat_hem := (latitude_block (data.latitude, data.lat_hem) lat_raw 0x3412140 600000).2
    cog := cog_text cog_raw
    heading := if hdg_raw = 511 then 511 else cast_int hdg_raw
    utc_sec := if utc_raw ≥ 60 then 60 else cast_int utc_raw
    raim := cast_int (extract_bits binary_data 148 1)
    sync := cast_int (extract_bits binary_data 149 2)
    slot := cast_int (extract_bits binary_data 151 3) }

/-- Types 4 and 11, base station report and UTC/date response (source lines
329-345 and 410-426, the same statements). -/
def decode_base_station (binary_data : List Char) (data : AISData) : AISData :=
  let lon_raw := extract_signed_bits binary_data 79 28
  let lat_raw := extract_signed_bits binary_data 107 27
  { data with
    pos_accuracy := cast_int (extract_bits binary_data 78 1)
    longitude := (longitude_block (data.longitude, data.lon_hem, data.has_position) lon_raw 0x6791AC0 600000).1
    lon_hem := (longitude_block (data.longitude, data.lon_hem, data.has_position) lon_raw 0x6791AC0 600000).2.1
    has_position := (longitude_block (data.longitude, data.lon_hem, data.has_position) lon_raw 0x6791AC0 600000).2.2
    latitude := (latitude_block (data.latitude, data.lat_hem) lat_raw 0x3412140 600000).1
    lat_hem := (latitude_block (data.latitude, data.lat_hem) lat_raw 0x3412140 600000).2
    raim := cast_int (extract_bits binary_data 148 1) }

/-- Type 5, static and voyage related data (source lines 348-366). -/
def decode_static_voyage (binary_data : List Char) (data : AISData) : AISData :=
  let draught_raw := extract_bits binary_data 294 8
  { data with
    ais_version := cast_int (extract_bits binary_data 38 2)
    imo := cast_uint32 (extract_bits binary_data 40 30)
    callsign := extract_text binary_data 70 7
    ship_name := extract_text binary_data 112 20
    ship_type := cast_int (extract_bits binary_data 232 8)
    dim_a := cast_int (extract_bits binary_data 240 9)
    dim_b := cast_int (extract_bits binary_data 249 9)
    dim_c := cast_int (extract_bits binary_data 258 6)
    dim_d := cast_int (extract_bits binary_data 264 6)
    pos_accuracy := cast_int (extract_bits binary_data 270 4)
    draught := if draught_raw > 0 then .fixed1 draught_raw 10 else data.draught
    destination := extract_text binary_data 302 20
    dte := cast_int (extract_bits binary_data 422 1) }

/-- Type 9, SAR aircraft position (source lines 369-407). -/
def decode_sar_aircraft (binary_data : List Char) (data : AISData) : AISData :=
  let altitude_raw := extract_bits binary_data 38 12
  let sog_raw := extract_bits binary_data 50 10
  let lon_raw := extract_signed_bits binary_data 61 28
  let lat_raw := extract_signed_bits binary_data 89 27
  let cog_raw := extract_bits binary_data 116 12
  { data with
    altitude := if altitude_raw ≠ 4095 then cast_int altitude_raw else data.altitude
    sog := sog_text sog_raw
    pos_accuracy := cast_int (extract_bits binary_data 60 1)
    longitude := (longitude_block (data.longitude, data.lon_hem, data.has_position) lon_raw 0x6791AC0 600000).1
    lon_hem := (longitude_block (data.longitude, data.lon_hem, data.has_position) lon_raw 0x6791AC0 600000).2.1
    has_position := (longitude_block (data.longitude, data.lon_hem, data.has_position) lon_raw 0x6791AC0 600000).2.2
    latitude := (latitude_block (data.latitude, data.lat_hem) lat_raw 0x3412140 600000).1
    lat_hem := (latitude_block (data.latitude, data.lat_hem) lat_raw 0x3412140 600000).2
    cog := cog_text cog_raw
    utc_sec := cast_int (extract_bits binary_data 128 6)
    dte := cast_int (extract_bits binary_data 142 1)
    raim := cast_int (extract_bits binary_data 147 1) }

/-- Type 17, DGNSS broadcast binary message (source lines 429-442). -/
def decode_dgnss (binary_data : List Char) (data : AISData) : AISData :=
  let lon_raw := extract_signed_bits binary_data 40 18
  let lat_raw := extract_signed_bits binary_data 58 17
  { data with
    longitude := (longitude_block (data.longitude, data.lon_hem, data.has_position) lon_raw 0x1A838 600).1
    lon_hem := (longitude_block (data.longitude, data.lon_hem, data.has_position) lon_raw 0x1A838 600).2.1
    has_position := (longitude_block (data.longitude, data.lon_hem, data.has_position) lon_raw 0x1A838 600).2.2
    latitude := (latitude_block (data.latitude, data.lat_hem) lat_raw 0xD548 600).1
    lat_hem := (latitude_block (data.latitude, data.lat_hem) lat_raw 0xD548 600).2 }

/-- Type 18, Class B position report (source lines 445-484). -/
def decode_class_b (binary_data : List Char) (data : AISData) : AISData :=
  let sog_raw := extract_bits binary_data 46 10
  let lon_raw := extract_signed_bits binary_data 57 28
  let lat_raw := extract_signed_bits binary_data 85 27
  let cog_raw := extract_bits binary_data 112 12
  let hdg_raw := extract_bits binary_data 124 9
  let utc_raw := extract_bits binary_data 133 6
  { data with
    sog := sog_text sog_raw
    pos_accuracy := cast_int (extract_bits binary_data 56 1)
    longitude := (longitude_block (data.longitude, data.lon_hem, data.has_position) lon_raw 0x6791AC0 600000).1
    lon_hem := (longitude_block (data.longitude, data.lon_hem, data.has_position) lon_raw 0x6791AC0 600000).2.1
    has_position := (longitude_block (data.longitude, data.lon_hem, data.has_position) lon_raw 0x6791AC0 600000).2.2
    latitude := (latitude_block (data.latitude, data.lat_hem) lat_raw 0x3412140 600000).1
    lat_hem := (latitude_block (data.latitude, data.lat_hem) lat_raw 0x3412140 600000).2
    cog := cog_text cog_raw
    heading := if hdg_raw = 511 then 511 else cast_int hdg_raw
    utc_sec := if utc_raw ≥ 60 then 60 else cast_int utc_raw
    raim := cast_int (extract_bits binary_data 147 1)
    sync := cast_int (extract_bits binary_data 149 2)
    slot := cast_int (extract_bits binary_data 151 3) }

/-- Type 19, extended Class B (source lines 487-532). -/
def decode_class_b_extended (binary_data : List Char) (data : AISData) : AISData :=
  let sog_raw := extract_bits binary_data 46 10
  let lon_raw := extract_signed_bits binary_data 57 28
  let lat_raw := extract_signed_bits binary_data 85 27
  let cog_raw := extract_bits binary_data 112 12
  let hdg_raw := extract_bits binary_data 124 9
  let utc_raw := extract_bits binary_data 133 6
  { data with
    sog := sog_text sog_raw
    pos_accuracy := cast_int (extract_bits binary_data 56 1)
    longitude := (longitude_block (data.longitude, data.lon_hem, data.has_position) lon_raw 0x6791AC0 600000).1
    lon_hem := (longitude_block (data.longitude, data.lon_hem, data.has_position) lon_raw 0x6791AC0 600000).2.1
    has_position := (longitude_block (data.longitude, data.lon_hem, data.has_position) lon_raw 0x6791AC0 600000).2.2
    latitude := (latitude_block (data.latitude, data.lat_hem) lat_raw 0x3412140 600000).1
    lat_hem := (latitude_block (data.latitude, data.lat_hem) lat_raw 0x3412140 600000).2
    cog := cog_text cog_raw
    heading := if hdg_raw = 511 then 511 else cast_int hdg_raw
    utc_sec := if utc_raw ≥ 60 then 60 else cast_int utc_raw
    ship_name := extract_text binary_data 143 20
    ship_type := cast_int (extract_bits binary_data 263 8)
    dim_a := cast_int (extract_bits binary_data 271 9)
    dim_b := cast_int (extract_bits binary_data 280 9)
    dim_c := cast_int (extract_bits binary_data 289 6)
    dim_d := cast_int (extract_bits binary_data 295 6)
    raim := cast_int (extract_bits binary_data 305 1)
    dte := cast_int (extract_bits binary_data 306 1) }

/-- Type 21, aid to navigation (source lines 535-565). -/
def decode_aid_to_navigation (binary_data : List Char) (data : AISData) : AISData :=
  let lon_raw := extract_signed_bits binary_data 164 28
  let lat_raw := extract_signed_bits binary_data 192 27
  { data with
    aid_type := cast_int (extract_bits binary_data 38 5)
    ship_name := extract_text binary_data 43 20
    pos_accuracy := cast_int (extract_bits binary_data 163 1)
    longitude := (longitude_block (data.longitude, data.lon_hem, data.has_position) lon_raw 0x6791AC0 600000).1
    lon_hem := (longitude_block (data.longitude, data.lon_hem, data.has_position) lon_raw 0x6791AC0 600000).2.1
    has_position := (longitude_block (data.longitude, data.lon_hem, data.has_position) lon_raw 0x6791AC0 600000).2.2
    latitude := (latitude_block (data.latitude, data.lat_hem) lat_raw 0x3412140 600000).1
    lat_hem := (latitude_block (data.latitude, data.lat_hem) lat_raw 0x3412140 600000).2
    dim_a := cast_int (extract_bits binary_data 219 9)
    dim_b := cast_int (extract_bits binary_data 228 9)
    dim_c := cast_int (extract_bits binary_data 237 6)
    dim_d := cast_int (extract_bits binary_data 243 6)
    utc_sec := cast_int (extract_bits binary_data 253 6)
    off_position := cast_int (extract_bits binary_data 259 1)
    raim := cast_int (extract_bits binary_data 268 1)
    name_extension :=
      if (binary_data.length : Int) ≥ 360 then extract_text binary_data 272 14
      else data.name_extension }

/-- Type 24, static data report (source lines 568-582). -/
def decode_static_report (binary_data : List Char) (data : AISData) : AISData :=
  let part_num := cast_int (extract_bits binary_data 38 2)
  if part_num = 0 then
    { data with ship_name := extract_text binary_data 40 20 }
  else if part_num = 1 then
    { data with
      ship_type := cast_int (extract_bits binary_data 40 8)
      callsign := extract_text binary_data 90 7
      dim_a := cast_int (extract_bits binary_data 132 9)
      dim_b := cast_int (extract_bits binary_data 141 9)
      dim_c := cast_int (extract_bits binary_data 150 6)
      dim_d := cast_int (extract_bits binary_data 156 6) }
  else data

/-- Type 27, long range AIS (source lines 585-618). -/
def decode_long_range (binary_data : List Char) (data : AISData) : AISData :=
  let lon_raw := extract_signed_bits binary_data 44 18
  let lat_raw := extract_signed_bits binary_data 62 17
  let sog_raw := extract_bits binary_data 79 6
  let cog_raw := extract_bits binary_data 85 9
  { data with
    pos_accuracy := cast_int (extract_bits binary_data 38 1)
    raim := cast_int (extract_bits binary_data 39 1)
    nav_status := cast_int (extract_bits binary_data 40 4)
    longitude := (longitude_block (data.longitude, data.lon_hem, data.has_position) lon_raw 0x1A838 600).1
    lon_hem := (longitude_block (data.longitude, data.lon_hem, data.has_position) lon_raw 0x1A838 600).2.1
    has_position := (longitude_block (data.longitude, data.lon_hem, data.has_position) lon_raw 0x1A838 600).2.2
    latitude := (latitude_block (data.latitude, data.lat_hem) lat_raw 0xD548 600).1
    lat_hem := (latitude_block (data.latitude, data.lat_hem) lat_raw 0xD548 600).2
    sog := if sog_raw = 63 then .lit "0.0" else .fixed1 sog_raw 1
    cog := if cog_raw ≥ 360 then .lit "360.0" else .fixed1 cog_raw 1
    gnss := cast_int (extract_bits binary_data 94 1) }

/-- The `if / else if` chain of `decode_ais` (source lines 260-619): the first
branch whose type test and length test both hold is run; when none holds the
record is left as it is. -/
def decode_by_type (binary_data : List Char) (data : AISData) : AISData :=
  if (data.msg_type ≥ 1 ∧ data.msg_type ≤ 3) ∧ (binary_data.length : Int) ≥ 168 then
    decode_class_a binary_data data
  else if data.msg_type = 4 ∧ (binary_data.length : Int) ≥ 168 then
    decode_base_station binary_data data
  else if data.msg_type = 5 ∧ (binary_data.length : Int) ≥ 424 then
    decode_static_voyage binary_data data
  else if data.msg_type = 9 ∧ (binary_data.length : Int) ≥ 168 then
    decode_sar_aircraft binary_data data
  else if data.msg_type = 11 ∧ (binary_data.length : Int) ≥ 168 then
    decode_base_station binary_data data
  else if data.msg_type = 17 ∧ (binary_data.length : Int) ≥ 80 then
    decode_dgnss binary_data data
  else if data.msg_type = 18 ∧ (binary_data.length : Int) ≥ 168 then
    decode_class_b binary_data data
  else if data.msg_type = 19 ∧ (binary_data.length : Int) ≥ 312 then
    decode_class_b_extended binary_data data
  else if data.msg_type = 21 ∧ (binary_data.length : Int) ≥ 272 then
    decode_aid_to_navigation binary_data data
  else if data.msg_type = 24 ∧ (binary_data.length : Int) ≥ 168 then
    decode_static_report binary_data data
  else if data.msg_type = 27 ∧ (binary_data.length : Int) ≥ 96 then
    decode_long_range binary_data data
  else data

/-- The header assignments of `decode_ais` (source lines 250-252). -/
def read_header (binary_data : List Char) (data : AISData) : AISData :=
  { data with
    msg_type := cast_int (extract_bits binary_data 0 6)
    repeat_ind := cast_int (extract_bits binary_data 6 2)
    mmsi := cast_uint32 (extract_bits binary_data 8 30) }

/-- Source `decode_ais`: the returned pair is the `int` result (`1` success,
`0` failure) and the record left in `*data` at the return. The arrays `payload`
and `binary_data` are taken large enough for the line; `decode_ais_in_buffers`
has them at their declared sizes. -/
def decode_ais (nmea_sentence : List Char) : Int × AISData :=
  let data := init_ais_data
  match get_payload_from_nmea nmea_sentence with
  | none => (0, data)
  | some payload =>
    let binary_data := convert_payload_to_binary payload
    if binary_data.length < 38 then (0, data)
    else
      let data := read_header binary_data data
      if data.msg_type < 1 ∨ data.msg_type > 27 then (0, data)
      else (1, decode_by_type binary_data data)

/-- A bitstream: every character is `'0'` or `'1'`. -/
def IsBits (s : List Char) : Prop :=
  ∀ c ∈ s, c = '0' ∨ c = '1'

instance (s : List Char) : Decidable (IsBits s) := by
  unfold IsBits; infer_instance

/-- Numeric value of a bit character, `c - '0'`. -/
def bit_val (c : Char) : Int :=
  (c.toNat : Int) - 48

/-- The header fields `(msg_type, repeat_ind, mmsi)` of a record. -/
def header (d : AISData) : Int × Int × Int :=
  (d.msg_type, d.repeat_ind, d.mmsi)

/-! ## Text decoding as the specification words it -/

/-- Spec `decode_text`, the mapping of one six-bit code to a character: code `c`
becomes the character `c + 64` when `c < 32` and the character `c` otherwise. -/
def six_bit_ascii (c : Int) : Char :=
  Char.ofNat (if c < 32 then c + 64 else c).toNat

/-- Spec `decode_text`, the codes that are decoded: of the `num_chars`
consecutive 6-bit windows at `start`, `start + 6`, ..., the longest prefix whose
windows all fit in the stream, each read as an unsigned value. -/
def fitting_codes (s : List Char) (start num_chars : Nat) : List Int :=
  ((List.range num_chars).takeWhile (fun i => start + 6 * i + 6 ≤ s.length)).map
    (fun i => extract_bits s ((start + 6 * i : Nat) : Int) 6)

/-! ## Predicates and observations used by the statements -/

/-- The hemisphere letters of a record follow the sign of the raw signed
coordinates: `lon_hem` is `"W"` exactly for a negative longitude and `"E"`
otherwise, `lat_hem` is `"S"` exactly for a negative latitude and `"N"`
otherwise. -/
def hemispheres_follow_sign (d : AISData) (lon_raw lat_raw : Int) : Prop :=
  (d.lon_hem = "W" ↔ lon_raw < 0) ∧ (d.lon_hem = "E" ↔ 0 ≤ lon_raw) ∧
    (d.lat_hem = "S" ↔ lat_raw < 0) ∧ (d.lat_hem = "N" ↔ 0 ≤ lat_raw)

/-- The first character of a numeric text field, when the call that wrote the
field fixes it: the first character of a `strcpy` literal, and the character
that starts the formats `"+%.1f"` and `"-%.1f"`. For the formats `"%.1f"` and
`"%.7f"` the first character is produced by the C library (`none`). -/
def first_char : NumText → Option Char
  | .lit s => s.toList.head?
  | .fixed1 _ _ => none
  | .rot_plus _ => some '+'
  | .rot_minus _ => some '-'
  | .abs7 _ _ => none

/-! ## The minimal decoder `ais_decoder_C.c`

`convert_ais_char`, `extract_bits`, `extract_signed_bits`,
`convert_payload_to_binary`, `get_payload_from_nmea` and `format_lat_lon` of
`ais_decoder_C.c` are the same text as in `refined_ais_decoder_C.c`, so the
definitions above stand for both files. The record, its initialiser and
`decode_ais` differ and are embedded here. -/

namespace Minimal

/-- Source `AISData` of `ais_decoder_C.c` (lines 19-38). -/
structure AISData where
  msg_type : Int
  repeat_ind : Int
  mmsi : Int
  nav_status : Int
  rot : NumText
  sog : NumText
  pos_accuracy : Int
  longitude : NumText
  lon_hem : String
  latitude : NumText
  lat_hem : String
  cog : NumText
  heading : Int
  utc_sec : Int
  sync : Int
  slot : Int
  raim : Int
  has_position : Int

/-- Source `init_ais_data` of `ais_decoder_C.c` (lines 142-161). -/
def init_ais_data : AISData where
  msg_type := 0
  repeat_ind := 0
  mmsi := 0
  nav_status := -1
  rot := .lit "0"
  sog := .lit "0.0"
  pos_accuracy := 0
  longitude := .lit "0"
  lon_hem := "E"
  latitude := .lit "0"
  lat_hem := "N"
  cog := .lit "0.0"
  heading := 511
  utc_sec := 60
  sync := 0
  slot := 0
  raim := 0
  has_position := 0

/-- Types 1-3, Class A position report (`ais_decoder_C.c` lines 187-252). -/
def decode_class_a (binary_data : List Char) (data : AISData) : AISData :=
  let rot_raw := extract_signed_bits binary_data 42 8
  let sog_raw := extract_bits binary_data 50 10
  let lon_raw := extract_signed_bits binary_data 61 28
  let lat_raw := extract_signed_bits binary_data 89 27
  let cog_raw := extract_bits binary_data 116 12
  let hdg_raw := extract_bits binary_data 128 9
  let utc_raw := extract_bits binary_data 137 6
  { data with
    nav_status := cast_int (extract_bits binary_data 38 4)
    rot := rot_text rot_raw
    sog := sog_text sog_raw
    pos_accuracy := cast_int (extract_bits binary_data 60 1)
    longitude := (longitude_block (data.longitude, data.lon_hem, data.has_position) lon_raw 0x6791AC0 600000).1
    lon_hem := (longitude_block (data.longitude, data.lon_hem, data.has_position) lon_raw 0x6791AC0 600000).2.1
    has_position := (longitude_block (data.longitude, data.lon_hem, data.has_position) lon_raw 0x6791AC0 600000).2.2
    latitude := (latitude_block (data.latitude, data.lat_hem) lat_raw 0x3412140 600000).1
    lat_hem := (latitude_block (data.latitude, data.lat_hem) lat_raw 0x3412140 600000).2
    cog := cog_text cog_raw
    heading := if hdg_raw = 511 then 511 else cast_int hdg_raw
    utc_sec := if utc_raw ≥ 60 then 60 else cast_int utc_raw
    raim := cast_int (extract_bits binary_data 148 1)
    sync := cast_int (extract_bits binary_data 149 2)
    slot := cast_int (extract_bits binary_data 151 3) }

/-- Type 4, base station report (`ais_decoder_C.c` lines 255-271). -/
def decode_base_station (binary_data : List Char) (data : AISData) : AISData :=
  let lon_raw := extract_signed_bits binary_data 79 28
  let lat_raw := extract_signed_bits binary_data 107 27
  { data with
    pos_accuracy := cast_int (extract_bits binary_data 78 1)
    longitude := (longitude_block (data.longitude, data.lon_hem, data.has_position) lon_raw 0x6791AC0 600000).1
    lon_hem := (longitude_block (data.longitude, data.lon_hem, data.has_position) lon_raw 0x6791AC0 600000).2.1
    has_position := (longitude_block (data.longitude, data.lon_hem, data.has_position) lon_raw 0x6791AC0 600000).2.2
    latitude := (latitude_block (data.latitude, data.lat_hem) lat_raw 0x3412140 600000).1
    lat_hem := (latitude_block (data.latitude, data.lat_hem) lat_raw 0x3412140 600000).2
    raim := cast_int (extract_bits binary_data 148 1) }

/-- The `if / else if` of `decode_ais` in `ais_decoder_C.c` (lines 186-272). -/
def decode_by_type (binary_data : List Char) (data : AISData) : AISData :=
  if (data.msg_type ≥ 1 ∧ data.msg_type ≤ 3) ∧ (binary_data.length : Int) ≥ 168 then
    decode_class_a binary_data data
  else if data.msg_type = 4 ∧ (binary_data.length : Int) ≥ 168 then
    decode_base_station binary_data data
  else data

/-- The header assignments of `decode_ais` in `ais_decoder_C.c` (lines 181-183). -/
def read_header (binary_data : List Char) (data : AISData) : AISData :=
  { data with
    msg_type := cast_int (extract_bits binary_data 0 6)
    repeat_ind := cast_int (extract_bits binary_data 6 2)
    mmsi := cast_uint32 (extract_bits binary_data 8 30) }

/-- Source `decode_ais` of `ais_decoder_C.c` (lines 164-275): there is no test
of the type range; after the header the layouts are tried and `1` is returned. -/
def decode_ais (nmea_sentence : List Char) : Int × AISData :=
  let data := init_ais_data
  match get_payload_from_nmea nmea_sentence with
  | none => (0, data)
  | some payload =>
    let binary_data := convert_payload_to_binary payload
    if binary_data.length < 38 then (0, data)
    else
      let data := read_header binary_data data
      (1, decode_by_type binary_data data)

end Minimal

/-- The 18 fields of the extended record that the minimal record also has,
under the same names. -/
def to_minimal (d : AISData) : Minimal.AISData where
  msg_type := d.msg_type
  repeat_ind := d.repeat_ind
  mmsi := d.mmsi
  nav_status := d.nav_status
  rot := d.rot
  sog := d.sog
  pos_accuracy := d.pos_accuracy
  longitude := d.longitude
  lon_hem := d.lon_hem
  latitude := d.latitude
  lat_hem := d.lat_hem
  cog := d.cog
  heading := d.heading
  utc_sec := d.utc_sec
  sync := d.sync
  slot := d.slot
  raim := d.raim
  has_position := d.has_position

/-! ## The record passed to `decode_ais` by the caller -/

/-- Source `init_ais_data`, as the update it makes to the record it is given:
one assignment (or `strcpy`) per member, 35 in all. -/
def init_ais_data_from (data : AISData) : AISData :=
  { data with
    msg_type := 0
    repeat_ind := 0
    mmsi := 0
    nav_status := -1
    rot := .lit "0"
    sog := .lit "0.0"
    pos_accuracy := 0
    longitude := .lit "0"
    lon_hem := "E"
    latitude := .lit "0"
    lat_hem := "N"
    cog := .lit "0.0"
    heading := 511
    utc_sec := 60
    sync := 0
    slot := 0
    raim := 0
    ship_name := []
    ship_type := 0
    callsign := []
    destination := []
    draught := .lit "0"
    imo := 0
    dim_a := 0
    dim_b := 0
    dim_c := 0
    dim_d := 0
    ais_version := 0
    dte := 0
    altitude := 0
    aid_type := 0
    name_extension := []
    off_position := 0
    gnss := 0
    has_position := 0 }

/-- Source `decode_ais` with the content `data0` of `*data` at the call made
explicit: the first statement is `init_ais_data(data)`. -/
def decode_ais_from (data0 : AISData) (nmea_sentence : List Char) : Int × AISData :=
  let data := init_ais_data_from data0
  match get_payload_from_nmea nmea_sentence with
  | none => (0, data)
  | some payload =>
    let binary_data := convert_payload_to_binary payload
    if binary_data.length < 38 then (0, data)
    else
      let data := read_header binary_data data
      if data.msg_type < 1 ∨ data.msg_type > 27 then (0, data)
      else (1, decode_by_type binary_data data)

/-- The terminating byte of a C string. -/
def nul : Char := Char.ofNat 0

/-- Source `extract_text` on the bytes of its `output` array: `output[0] = '\0'`,
every round of the loop appends one character and a NUL (`strcat`), and the
trimming loop overwrites each trailing space by a NUL. The bytes after the last
NUL written by `strcat` keep their earlier content. -/
def extract_text_bytes (binary_data : List Char) (start_pos num_chars : Int)
    (output : List Char) : List Char :=
  let appended := extract_text_loop binary_data start_pos num_chars.toNat 0
  let kept := appended.rdropWhile (fun d => d = ' ')
  kept ++ List.replicate (appended.length - kept.length + 1) nul ++
    output.drop (appended.length + 1)

/-- The bytes of the array `data->ship_name` after `decode_ais(nmea_sentence, data)`,
given its bytes before the call. `init_ais_data` assigns element 0 only
(`data->ship_name[0] = '\0'`); the layouts of types 5, 19, 21 and 24 (part A) pass
the array to `extract_text`; no other statement of `decode_ais` writes to it. -/
def ship_name_bytes (bytes0 : List Char) (nmea_sentence : List Char) : List Char :=
  let bytes := bytes0.set 0 nul
  match get_payload_from_nmea nmea_sentence with
  | none => bytes
  | some payload =>
    let binary_data := convert_payload_to_binary payload
    if binary_data.length < 38 then bytes
    else
      let msg_type := cast_int (extract_bits binary_data 0 6)
      if msg_type < 1 ∨ msg_type > 27 then bytes
      else if msg_type = 5 ∧ (binary_data.length : Int) ≥ 424 then
        extract_text_bytes binary_data 112 20 bytes
      else if msg_type = 19 ∧ (binary_data.length : Int) ≥ 312 then
        extract_text_bytes binary_data 143 20 bytes
      else if msg_type = 21 ∧ (binary_data.length : Int) ≥ 272 then
        extract_text_bytes binary_data 43 20 bytes
      else if msg_type = 24 ∧ (binary_data.length : Int) ≥ 168 then
        if cast_int (extract_bits binary_data 38 2) = 0 then
          extract_text_bytes binary_data 40 20 bytes
        else bytes
      else bytes

/-- The C string held in an array: the bytes before the first NUL. -/
def c_string (bytes : List Char) : List Char :=
  bytes.takeWhile (fun d => d ≠ nul)

/-! ## The decode path with the failure of the bit reader made explicit

The functions below repeat `extract_bits`, `extract_signed_bits`, `extract_text`
and the layouts of `decode_ais` statement by statement, with one change: the
return of `extract_bits` taken when `start_pos + bit_length > len` is `none`
instead of `-1`, and a `none` ends the run. A run that ends in `some` has taken
that return at no read. -/

/-- Source `extract_bits`; `none` is the return of the test
`start_pos + bit_length > len`. -/
def extract_bits_checked (binary_data : List Char) (start_pos bit_length : Int) : Option Int :=
  let len : Int := binary_data.length
  if start_pos + bit_length > len then none
  else
    let bit_string := (binary_data.drop start_pos.toNat).take bit_length.toNat
    some (bit_string.foldl shift_or 0)

/-- Sequencing of checked reads, `r` then the statements `k` that follow it: a
read that took the out-of-bounds return ends the run. -/
@[noinline] def and_then {α β : Type} (r : Option α) (k : α → Option β) : Option β :=
  match r with
  | none => none
  | some v => k v

/-- Source `extract_signed_bits` over `extract_bits_checked`. -/
def extract_signed_bits_checked (binary_data : List Char) (start_pos bit_length : Int) :
    Option Int :=
  match extract_bits_checked binary_data start_pos bit_length with
  | none => none
  | some value =>
    if value = -1 then some (-1)
    else if value ≥ (2 : Int) ^ (bit_length - 1).toNat then
      some (value - (2 : Int) ^ bit_length.toNat)
    else some value

/-- The loop of `extract_text` over `extract_bits_checked`. -/
def extract_text_loop_checked (binary_data : List Char) (start_pos : Int) :
    Nat → Int → Option (List Char)
  | 0, _ => some []
  | remaining + 1, i =>
    match extract_bits_checked binary_data (start_pos + i * 6) 6 with
    | none => none
    | some char_bits =>
      if char_bits = -1 then some []
      else
        (extract_text_loop_checked binary_data start_pos remaining (i + 1)).map
          (fun rest => text_char char_bits :: rest)

/-- Source `extract_text` over `extract_bits_checked`. -/
def extract_text_checked (binary_data : List Char) (start_pos num_chars : Int) :
    Option (List Char) :=
  (extract_text_loop_checked binary_data start_pos num_chars.toNat 0).map
    (fun text => text.rdropWhile (fun d => d = ' '))

/-- Types 1-3 over the checked reader (source lines 261-326). -/
def decode_class_a_checked (binary_data : List Char) (data : AISData) : Option AISData :=
  and_then (extract_bits_checked binary_data 38 4) fun nav_status =>
  and_then (extract_signed_bits_checked binary_data 42 8) fun rot_raw =>
  and_then (extract_bits_checked binary_data 50 10) fun sog_raw =>
  and_then (extract_bits_checked binary_data 60 1) fun pos_accuracy =>
  and_then (extract_signed_bits_checked binary_data 61 28) fun lon_raw =>
  and_then (extract_signed_bits_checked binary_data 89 27) fun lat_raw =>
  and_then (extract_bits_checked binary_data 116 12) fun cog_raw =>
  and_then (extract_bits_checked binary_data 128 9) fun hdg_raw =>
  and_then (extract_bits_checked binary_data 137 6) fun utc_raw =>
  and_then (extract_bits_checked binary_data 148 1) fun raim =>
  and_then (extract_bits_checked binary_data 149 2) fun sync =>
  and_then (extract_bits_checked binary_data 151 3) fun slot =>
  some { data with
    nav_status := cast_int nav_status
    rot := rot_text rot_raw
    sog := sog_text sog_raw
    pos_accuracy := cast_int pos_accuracy
    longitude := (longitude_block (data.longitude, data.lon_hem, data.has_position) lon_raw 0x6791AC0 600000).1
    lon_hem := (longitude_block (data.longitude, data.lon_hem, data.has_position) lon_raw 0x6791AC0 600000).2.1
    has_position := (longitude_block (data.longitude, data.lon_hem, data.has_position) lon_raw 0x6791AC0 600000).2.2
    latitude := (latitude_block (data.latitude, data.lat_hem) lat_raw 0x3412140 600000).1
    lat_hem := (latitude_block (data.latitude, data.lat_hem) lat_raw 0x3412140 600000).2
    cog := cog_text cog_raw
    heading := if hdg_raw = 511 then 511 else cast_int hdg_raw
    utc_sec := if utc_raw ≥ 60 then 60 else cast_int utc_raw
    raim := cast_int raim
    sync := cast_int sync
    slot := cast_int slot }

/-- Types 4 and 11 over the checked reader (source lines 329-345, 410-426). -/
def decode_base_station_checked (binary_data : List Char) (data : AISData) :
    Option AISData :=
  and_then (extract_bits_checked binary_data 78 1) fun pos_accuracy =>
  and_then (extract_signed_bits_checked binary_data 79 28) fun lon_raw =>
  and_then (extract_signed_bits_checked binary_data 107 27) fun lat_raw =>
  and_then (extract_bits_checked binary_data 148 1) fun raim =>
  some { data with
    pos_accuracy := cast_int pos_accuracy
    longitude := (longitude_block (data.longitude, data.lon_hem, data.has_position) lon_raw 0x6791AC0 600000).1
    lon_hem := (longitude_block (data.longitude, data.lon_hem, data.has_position) lon_raw 0x6791AC0 600000).2.1
    has_position := (longitude_block (data.longitude, data.lon_hem, data.has_position) lon_raw 0x6791AC0 600000).2.2
    latitude := (latitude_block (data.latitude, data.lat_hem) lat_raw 0x3412140 600000).1
    lat_hem := (latitude_block (data.latitude, data.lat_hem) lat_raw 0x3412140 600000).2
    raim := cast_int raim }

/-- Type 5 over the checked reader (source lines 348-366). -/
def decode_static_voyage_checked (binary_data : List Char) (data : AISData) :
    Option AISData :=
  and_then (extract_bits_checked binary_data 38 2) fun ais_version =>
  and_then (extract_bits_checked binary_data 40 30) fun imo =>
  and_then (extract_text_checked binary_data 70 7) fun callsign =>
  and_then (extract_text_checked binary_data 112 20) fun ship_name =>
  and_then (extract_bits_checked binary_data 232 8) fun ship_type =>
  and_then (extract_bits_checked binary_data 240 9) fun dim_a =>
  and_then (extract_bits_checked binary_data 249 9) fun dim_b =>
  and_then (extract_bits_checked binary_data 258 6) fun dim_c =>
  and_then (extract_bits_checked binary_data 264 6) fun dim_d =>
  and_then (extract_bits_checked binary_data 270 4) fun pos_accuracy =>
  and_then (extract_bits_checked binary_data 294 8) fun draught_raw =>
  and_then (extract_text_checked binary_data 302 20) fun destination =>
  and_then (extract_bits_checked binary_data 422 1) fun dte =>
  some { data with
    ais_version := cast_int ais_version
    imo := cast_uint32 imo
    callsign := callsign
    ship_name := ship_name
    ship_type := cast_int ship_type
    dim_a := cast_int dim_a
    dim_b := cast_int dim_b
    dim_c := cast_int dim_c
    dim_d := cast_int dim_d
    pos_accuracy := cast_int pos_accuracy
    draught := if draught_raw > 0 then .fixed1 draught_raw 10 else data.draught
    destination := destination
    dte := cast_int dte }

/-- Type 9 over the checked reader (source lines 369-407). -/
def decode_sar_aircraft_checked (binary_data : List Char) (data : AISData) :
    Option AISData :=
  and_then (extract_bits_checked binary_data 38 12) fun altitude_raw =>
  and_then (extract_bits_checked binary_data 50 10) fun sog_raw =>
  and_then (extract_bits_checked binary_data 60 1) fun pos_accuracy =>
  and_then (extract_signed_bits_checked binary_data 61 28) fun lon_raw =>
  and_then (extract_signed_bits_checked binary_data 89 27) fun lat_raw =>
  and_then (extract_bits_checked binary_data 116 12) fun cog_raw =>
  and_then (extract_bits_checked binary_data 128 6) fun utc_sec =>
  and_then (extract_bits_checked binary_data 142 1) fun dte =>
  and_then (extract_bits_checked binary_data 147 1) fun raim =>
  some { data with
    altitude := if altitude_raw ≠ 4095 then cast_int altitude_raw else data.altitude
    sog := sog_text sog_raw
    pos_accuracy := cast_int pos_accuracy
    longitude := (longitude_block (data.longitude, data.lon_hem, data.has_position) lon_raw 0x6791AC0 600000).1
    lon_hem := (longitude_block (data.longitude, data.lon_hem, data.has_position) lon_raw 0x6791AC0 600000).2.1
    has_position := (longitude_block (data.longitude, data.lon_hem, data.has_position) lon_raw 0x6791AC0 600000).2.2
    latitude := (latitude_block (data.latitude, data.lat_hem) lat_raw 0x3412140 600000).1
    lat_hem := (latitude_block (data.latitude, data.lat_hem) lat_raw 0x3412140 600000).2
    cog := cog_text cog_raw
    utc_sec := cast_int utc_sec
    dte := cast_int dte
    raim := cast_int raim }

/-- Type 17 over the checked reader (source lines 429-442). -/
def decode_dgnss_checked (binary_data : List Char) (data : AISData) : Option AISData :=
  and_then (extract_signed_bits_checked binary_data 40 18) fun lon_raw =>
  and_then (extract_signed_bits_checked binary_data 58 17) fun lat_raw =>
  some { data with
    longitude := (longitude_block (data.longitude, data.lon_hem, data.has_position) lon_raw 0x1A838 600).1
    lon_hem := (longitude_block (data.longitude, data.lon_hem, data.has_position) lon_raw 0x1A838 600).2.1
    has_position := (longitude_block (data.longitude, data.lon_hem, data.has_position) lon_raw 0x1A838 600).2.2
    latitude := (latitude_block (data.latitude, data.lat_hem) lat_raw 0xD548 600).1
    lat_hem := (latitude_block (data.latitude, data.lat_hem) lat_raw 0xD548 600).2 }

/-- Type 18 over the checked reader (source lines 445-484). -/
def decode_class_b_checked (binary_data : List Char) (data : AISData) : Option AISData :=
  and_then (extract_bits_checked binary_data 46 10) fun sog_raw =>
  and_then (extract_bits_checked binary_data 56 1) fun pos_accuracy =>
  and_then (extract_signed_bits_checked binary_data 57 28) fun lon_raw =>
  and_then (extract_signed_bits_checked binary_data 85 27) fun lat_raw =>
  and_then (extract_bits_checked binary_data 112 12) fun cog_raw =>
  and_then (extract_bits_checked binary_data 124 9) fun hdg_raw =>
  and_then (extract_bits_checked binary_data 133 6) fun utc_raw =>
  and_then (extract_bits_checked binary_data 147 1) fun raim =>
  and_then (extract_bits_checked binary_data 149 2) fun sync =>
  and_then (extract_bits_checked binary_data 151 3) fun slot =>
  some { data with
    sog := sog_text sog_raw
    pos_accuracy := cast_int pos_accuracy
    longitude := (longitude_block (data.longitude, data.lon_hem, data.has_position) lon_raw 0x6791AC0 600000).1
    lon_hem := (longitude_block (data.longitude, data.lon_hem, data.has_position) lon_raw 0x6791AC0 600000).2.1
    has_position := (longitude_block (data.longitude, data.lon_hem, data.has_position) lon_raw 0x6791AC0 600000).2.2
    latitude := (latitude_block (data.latitude, data.lat_hem) lat_raw 0x3412140 600000).1
    lat_hem := (latitude_block (data.latitude, data.lat_hem) lat_raw 0x3412140 600000).2
    cog := cog_text cog_raw
    heading := if hdg_raw = 511 then 511 else cast_int hdg_raw
    utc_sec := if utc_raw ≥ 60 then 60 else cast_int utc_raw
    raim := cast_int raim
    sync := cast_int sync
    slot := cast_int slot }

/-- Type 19 over the checked reader (source lines 487-532). -/
def decode_class_b_extended_checked (binary_data : List Char) (data : AISData) :
    Option AISData :=
  and_then (extract_bits_checked binary_data 46 10) fun sog_raw =>
  and_then (extract_bits_checked binary_data 56 1) fun pos_accuracy =>
  and_then (extract_signed_bits_checked binary_data 57 28) fun lon_raw =>
  and_then (extract_signed_bits_checked binary_data 85 27) fun lat_raw =>
  and_then (extract_bits_checked binary_data 112 12) fun cog_raw =>
  and_then (extract_bits_checked binary_data 124 9) fun hdg_raw =>
  and_then (extract_bits_checked binary_data 133 6) fun utc_raw =>
  and_then (extract_text_checked binary_data 143 20) fun ship_name =>
  and_then (extract_bits_checked binary_data 263 8) fun ship_type =>
  and_then (extract_bits_checked binary_data 271 9) fun dim_a =>
  and_then (extract_bits_checked binary_data 280 9) fun dim_b =>
  and_then (extract_bits_checked binary_data 289 6) fun dim_c =>
  and_then (extract_bits_checked binary_data 295 6) fun dim_d =>
  and_then (extract_bits_checked binary_data 305 1) fun raim =>
  and_then (extract_bits_checked binary_data 306 1) fun dte =>
  some { data with
    sog := sog_text sog_raw
    pos_accuracy := cast_int pos_accuracy
    longitude := (longitude_block (data.longitude, data.lon_hem, data.has_position) lon_raw 0x6791AC0 600000).1
    lon_hem := (longitude_block (data.longitude, data.lon_hem, data.has_position) lon_raw 0x6791AC0 600000).2.1
    has_position := (longitude_block (data.longitude, data.lon_hem, data.has_position) lon_raw 0x6791AC0 600000).2.2
    latitude := (latitude_block (data.latitude, data.lat_hem) lat_raw 0x3412140 600000).1
    lat_hem := (latitude_block (data.latitude, data.lat_hem) lat_raw 0x3412140 600000).2
    cog := cog_text cog_raw
    heading := if hdg_raw = 511 then 511 else cast_int hdg_raw
    utc_sec := if utc_raw ≥ 60 then 60 else cast_int utc_raw
    ship_name := ship_name
    ship_type := cast_int ship_type
    dim_a := cast_int dim_a
    dim_b := cast_int dim_b
    dim_c := cast_int dim_c
    dim_d := cast_int dim_d
    raim := cast_int raim
    dte := cast_int dte }

/-- Type 21 over the checked reader (source lines 535-565); the name extension
is read only when the bitstream has at least 360 bits. -/
def decode_aid_to_navigation_checked (binary_data : List Char) (data : AISData) :
    Option AISData :=
  and_then (extract_bits_checked binary_data 38 5) fun aid_type =>
  and_then (extract_text_checked binary_data 43 20) fun ship_name =>
  and_then (extract_bits_checked binary_data 163 1) fun pos_accuracy =>
  and_then (extract_signed_bits_checked binary_data 164 28) fun lon_raw =>
  and_then (extract_signed_bits_checked binary_data 192 27) fun lat_raw =>
  and_then (extract_bits_checked binary_data 219 9) fun dim_a =>
  and_then (extract_bits_checked binary_data 228 9) fun dim_b =>
  and_then (extract_bits_checked binary_data 237 6) fun dim_c =>
  and_then (extract_bits_checked binary_data 243 6) fun dim_d =>
  and_then (extract_bits_checked binary_data 253 6) fun utc_sec =>
  and_then (extract_bits_checked binary_data 259 1) fun off_position =>
  and_then (extract_bits_checked binary_data 268 1) fun raim =>
  and_then
      (if (binary_data.length : Int) ≥ 360 then extract_text_checked binary_data 272 14
        else some data.name_extension) fun name_extension =>
  some { data with
    aid_type := cast_int aid_type
    ship_name := ship_name
    pos_accuracy := cast_int pos_accuracy
    longitude := (longitude_block (data.longitude, data.lon_hem, data.has_position) lon_raw 0x6791AC0 600000).1
    lon_hem := (longitude_block (data.longitude, data.lon_hem, data.has_position) lon_raw 0x6791AC0 600000).2.1
    has_position := (longitude_block (data.longitude, data.lon_hem, data.has_position) lon_raw 0x6791AC0 600000).2.2
    latitude := (latitude_block (data.latitude, data.lat_hem) lat_raw 0x3412140 600000).1
    lat_hem := (latitude_block (data.latitude, data.lat_hem) lat_raw 0x3412140 600000).2
    dim_a := cast_int dim_a
    dim_b := cast_int dim_b
    dim_c := cast_int dim_c
    dim_d := cast_int dim_d
    utc_sec := cast_int utc_sec
    off_position := cast_int off_position
    raim := cast_int raim
    name_extension := name_extension }

/-- Type 24 over the checked reader (source lines 568-582). -/
def decode_static_report_checked (binary_data : List Char) (data : AISData) :
    Option AISData :=
  and_then (extract_bits_checked binary_data 38 2) fun part_raw =>
  let part_num := cast_int part_raw
  if part_num = 0 then
    and_then (extract_text_checked binary_data 40 20) fun ship_name =>
    some { data with ship_name := ship_name }
  else if part_num = 1 then
    and_then (extract_bits_checked binary_data 40 8) fun ship_type =>
    and_then (extract_text_checked binary_data 90 7) fun callsign =>
    and_then (extract_bits_checked binary_data 132 9) fun dim_a =>
    and_then (extract_bits_checked binary_data 141 9) fun dim_b =>
    and_then (extract_bits_checked binary_data 150 6) fun dim_c =>
    and_then (extract_bits_checked binary_data 156 6) fun dim_d =>
    some { data with
      ship_type := cast_int ship_type
      callsign := callsign
      dim_a := cast_int dim_a
      dim_b := cast_int dim_b
      dim_c := cast_int dim_c
      dim_d := cast_int dim_d }
  else some data

/-- Type 27 over the checked reader (source lines 585-618). -/
def decode_long_range_checked (binary_data : List Char) (data : AISData) :
    Option AISData :=
  and_then (extract_bits_checked binary_data 38 1) fun pos_accuracy =>
  and_then (extract_bits_checked binary_data 39 1) fun raim =>
  and_then (extract_bits_checked binary_data 40 4) fun nav_status =>
  and_then (extract_signed_bits_checked binary_data 44 18) fun lon_raw =>
  and_then (extract_signed_bits_checked binary_data 62 17) fun lat_raw =>
  and_then (extract_bits_checked binary_data 79 6) fun sog_raw =>
  and_then (extract_bits_checked binary_data 85 9) fun cog_raw =>
  and_then (extract_bits_checked binary_data 94 1) fun gnss =>
  some { data with
    pos_accuracy := cast_int pos_accuracy
    raim := cast_int raim
    nav_status := cast_int nav_status
    longitude := (longitude_block (data.longitude, data.lon_hem, data.has_position) lon_raw 0x1A838 600).1
    lon_hem := (longitude_block (data.longitude, data.lon_hem, data.has_position) lon_raw 0x1A838 600).2.1
    has_position := (longitude_block (data.longitude, data.lon_hem, data.has_position) lon_raw 0x1A838 600).2.2
    latitude := (latitude_block (data.latitude, data.lat_hem) lat_raw 0xD548 600).1
    lat_hem := (latitude_block (data.latitude, data.lat_hem) lat_raw 0xD548 600).2
    sog := if sog_raw = 63 then .lit "0.0" else .fixed1 sog_raw 1
    cog := if cog_raw ≥ 360 then .lit "360.0" else .fixed1 cog_raw 1
    gnss := cast_int gnss }

/-- The `if / else if` chain of `decode_ais` over the checked layouts; a type
without layout, or a bitstream below the layout's minimum, reads nothing. -/
def decode_by_type_checked (binary_data : List Char) (data : AISData) : Option AISData :=
  if (data.msg_type ≥ 1 ∧ data.msg_type ≤ 3) ∧ (binary_data.length : Int) ≥ 168 then
    decode_class_a_checked binary_data data
  else if data.msg_type = 4 ∧ (binary_data.length : Int) ≥ 168 then
    decode_base_station_checked binary_data data
  else if data.msg_type = 5 ∧ (binary_data.length : Int) ≥ 424 then
    decode_static_voyage_checked binary_data data
  else if data.msg_type = 9 ∧ (binary_data.length : Int) ≥ 168 then
    decode_sar_aircraft_checked binary_data data
  else if data.msg_type = 11 ∧ (binary_data.length : Int) ≥ 168 then
    decode_base_station_checked binary_data data
  else if data.msg_type = 17 ∧ (binary_data.length : Int) ≥ 80 then
    decode_dgnss_checked binary_data data
  else if data.msg_type = 18 ∧ (binary_data.length : Int) ≥ 168 then
    decode_class_b_checked binary_data data
  else if data.msg_type = 19 ∧ (binary_data.length : Int) ≥ 312 then
    decode_class_b_extended_checked binary_data data
  else if data.msg_type = 21 ∧ (binary_data.length : Int) ≥ 272 then
    decode_aid_to_navigation_checked binary_data data
  else if data.msg_type = 24 ∧ (binary_data.length : Int) ≥ 168 then
    decode_static_report_checked binary_data data
  else if data.msg_type = 27 ∧ (binary_data.length : Int) ≥ 96 then
    decode_long_range_checked binary_data data
  else some data

/-- The header assignments of `decode_ais` over the checked reader. -/
def read_header_checked (binary_data : List Char) (data : AISData) : Option AISData :=
  and_then (extract_bits_checked binary_data 0 6) fun msg_type =>
  and_then (extract_bits_checked binary_data 6 2) fun repeat_ind =>
  and_then (extract_bits_checked binary_data 8 30) fun mmsi =>
  some { data with
    msg_type := cast_int msg_type
    repeat_ind := cast_int repeat_ind
    mmsi := cast_uint32 mmsi }

/-- Source `decode_ais` over the checked reader: `none` when some read of the
run took the out-of-bounds return of `extract_bits`, otherwise `some` of the
returned flag and record. -/
def decode_ais_checked (nmea_sentence : List Char) : Option (Int × AISData) :=
  let data := init_ais_data
  match get_payload_from_nmea nmea_sentence with
  | none => some (0, data)
  | some payload =>
    let binary_data := convert_payload_to_binary payload
    if binary_data.length < 38 then some (0, data)
    else
      match read_header_checked binary_data data with
      | none => none
      | some data =>
        if data.msg_type < 1 ∨ data.msg_type > 27 then some (0, data)
        else
          match decode_by_type_checked binary_data data with
          | none => none
          | some data => some (1, data)

/-! ## Armor alphabet and the printable test of `extract_text` -/

/-- The 64 valid armor characters: codes 48..87 (`'0'` to `'W'`) and codes
96..119 (the backquote to `'w'`). -/
def is_armor_char (c : Char) : Prop :=
  (48 ≤ c.toNat ∧ c.toNat ≤ 87) ∨ (96 ≤ c.toNat ∧ c.toNat ≤ 119)

instance (c : Char) : Decidable (is_armor_char c) := by
  unfold is_armor_char; infer_instance

/-- The loop of `extract_text` with its branch `strcat(output, " ")` made
explicit: a round whose `ascii_char` fails the test
`ascii_char >= 32 && ascii_char <= 126` ends the run with `none`; every other
statement is as in the source. -/
def extract_text_loop_strict (binary_data : List Char) (start_pos : Int) :
    Nat → Int → Option (List Char)
  | 0, _ => some []
  | remaining + 1, i =>
    let char_bits := extract_bits binary_data (start_pos + i * 6) 6
    if char_bits = -1 then some []
    else
      let ascii_char : Int := cast_int (if char_bits < 32 then char_bits + 64 else char_bits)
      if ascii_char ≥ 32 ∧ ascii_char ≤ 126 then
        (extract_text_loop_strict binary_data start_pos remaining (i + 1)).map
          (fun rest => Char.ofNat ascii_char.toNat :: rest)
      else none

/-- Source `extract_text` over `extract_text_loop_strict`. -/
def extract_text_strict (binary_data : List Char) (start_pos num_chars : Int) :
    Option (List Char) :=
  (extract_text_loop_strict binary_data start_pos num_chars.toNat 0).map
    (fun text => text.rdropWhile (fun d => d = ' '))

/-! ## The arrays of `decode_ais` -/

/-- Source `#define MAX_PAYLOAD_LENGTH 256`, the size of the array `payload` of
`decode_ais`. -/
def MAX_PAYLOAD_LENGTH : Nat := 256

/-- Source `#define MAX_BINARY_LENGTH 1536`, the size of the array `binary_data`
of `decode_ais`. -/
def MAX_BINARY_LENGTH : Nat := 1536

/-- Source `decode_ais` with its arrays `payload[MAX_PAYLOAD_LENGTH]` and
`binary_data[MAX_BINARY_LENGTH]` at their declared sizes.
`get_payload_from_nmea` copies the payload field and a NUL into `payload`
(`strncpy`, then `payload[len] = '\0'`), and `convert_payload_to_binary` appends
six characters per payload character and a NUL to `binary_data` (`strcat`);
neither copy tests the size of its target. `none` is a run in which a copy
writes past the end of its array, after which the C program has no defined
behaviour; `some` is a run that returns, with the flag and the record. -/
def decode_ais_in_buffers (nmea_sentence : List Char) : Option (Int × AISData) :=
  let data := init_ais_data
  match get_payload_from_nmea nmea_sentence with
  | none => some (0, data)
  | some payload =>
    if payload.length + 1 > MAX_PAYLOAD_LENGTH then none
    else
      let binary_data := convert_payload_to_binary payload
      if binary_data.length + 1 > MAX_BINARY_LENGTH then none
      else if binary_data.length < 38 then some (0, data)
      else
        let data := read_header binary_data data
        if data.msg_type < 1 ∨ data.msg_type > 27 then some (0, data)
        else some (1, decode_by_type binary_data data)

/-- A payload of 1000 characters: `first`, then 999 times `'0'`. -/
def over_long_payload (first : Char) : List Char :=
  first :: List.replicate 999 '0'

/-- The sentence `!AIVDM,1,1,,A,<payload>,0*00` with the payload
`over_long_payload first`; it has 1019 characters, below `MAX_LINE_LENGTH`. -/
def over_long_line (first : Char) : List Char :=
  "!AIVDM,1,1,,A,".toList ++ over_long_payload first ++ ",0*00".toList

/-! ## Lemmas on the bit reader -/

theorem lor_shift_bit (r : Int) (hr : 0 ≤ r) (b : Int) (hb : b = 0 ∨ b = 1) :
    Int.lor (r <<< (1 : Int)) b = 2 * r + b := by
  obtain ⟨n, rfl⟩ := Int.eq_ofNat_of_zero_le hr
  have hs : ((n : Int) <<< (1 : Int)) = ((2 * n : Nat) : Int) := by
    have := Int.shiftLeft_eq_mul_pow (n : Int) 1
    simp at this
    rw [this]; push_cast; ring
  rw [hs]
  rcases hb with rfl | rfl
  · show ((2 * n ||| 0 : Nat) : Int) = _
    simp
  · show ((2 * n ||| 1 : Nat) : Int) = _
    have h := Nat.mul_add_lt_is_or (i := 1) (b := 1) (by decide) n
    simp at h
    rw [← h]; push_cast; ring

theorem bit_val_of_bit {c : Char} (h : c = '0' ∨ c = '1') : bit_val c = 0 ∨ bit_val c = 1 := by
  rcases h with rfl | rfl
  · left; decide
  · right; decide

theorem shift_or_bit (r : Int) (hr : 0 ≤ r) {c : Char} (h : c = '0' ∨ c = '1') :
    shift_or r c = 2 * r + bit_val c :=
  lor_shift_bit r hr _ (bit_val_of_bit h)

theorem foldl_shift_or_bounds (l : List Char) (hl : IsBits l) (acc : Int) (hacc : 0 ≤ acc) :
    acc * 2 ^ l.length ≤ l.foldl shift_or acc ∧
      l.foldl shift_or acc < (acc + 1) * 2 ^ l.length := by
  induction l generalizing acc with
  | nil => simp
  | cons c l ih =>
    have hc : c = '0' ∨ c = '1' := hl c (List.mem_cons_self _ _)
    have hl2 : IsBits l := fun d hd => hl d (List.mem_cons_of_mem _ hd)
    have hb := bit_val_of_bit hc
    have hstep := shift_or_bit acc hacc hc
    have hnn : 0 ≤ 2 * acc + bit_val c := by rcases hb with h | h <;> rw [h] <;> omega
    obtain ⟨h1, h2⟩ := ih hl2 (2 * acc + bit_val c) hnn
    have hp : (0 : Int) < 2 ^ l.length := by positivity
    simp only [List.foldl_cons, List.length_cons, hstep, pow_succ]
    constructor
    · calc acc * (2 ^ l.length * 2) = (2 * acc) * 2 ^ l.length := by ring
        _ ≤ (2 * acc + bit_val c) * 2 ^ l.length := by
            apply mul_le_mul_of_nonneg_right _ hp.le
            rcases hb with h | h <;> rw [h] <;> omega
        _ ≤ _ := h1
    · calc _ < (2 * acc + bit_val c + 1) * 2 ^ l.length := h2
        _ ≤ (2 * acc + 2) * 2 ^ l.length := by
            apply mul_le_mul_of_nonneg_right _ hp.le
            rcases hb with h | h <;> rw [h] <;> omega
        _ = (acc + 1) * (2 ^ l.length * 2) := by ring

theorem foldl_shift_or_sum (l : List Char) (hl : IsBits l) (acc : Int) (hacc : 0 ≤ acc) :
    l.foldl shift_or acc = acc * 2 ^ l.length +
      ∑ i in Finset.range l.length, bit_val (l.getD i '0') * 2 ^ (l.length - 1 - i) := by
  induction l generalizing acc with
  | nil => simp
  | cons c l ih =>
    have hc : c = '0' ∨ c = '1' := hl c (List.mem_cons_self _ _)
    have hl2 : IsBits l := fun d hd => hl d (List.mem_cons_of_mem _ hd)
    have hb := bit_val_of_bit hc
    have hnn : 0 ≤ 2 * acc + bit_val c := by rcases hb with h | h <;> rw [h] <;> omega
    simp only [List.foldl_cons, List.length_cons, shift_or_bit acc hacc hc]
    rw [ih hl2 _ hnn, Finset.sum_range_succ']
    simp only [List.getD_cons_succ, List.getD_cons_zero, Nat.add_sub_cancel, Nat.sub_zero]
    have hsum : ∀ i ∈ Finset.range l.length,
        bit_val (l.getD i '0') * 2 ^ (l.length - (i + 1)) =
          bit_val (l.getD i '0') * 2 ^ (l.length - 1 - i) := by
      intro i _
      congr 2
      omega
    rw [Finset.sum_congr rfl hsum, pow_succ]
    ring

theorem isBits_window {s : List Char} (hs : IsBits s) (a n : Nat) :
    IsBits ((s.drop a).take n) :=
  fun c hc => hs c (List.mem_of_mem_drop (List.mem_of_mem_take hc))

theorem length_window (s : List Char) (a n : Nat) (h : a + n ≤ s.length) :
    ((s.drop a).take n).length = n := by
  simp [List.length_take, List.length_drop]; omega

theorem getD_window (s : List Char) (a n i : Nat) (hi : i < n) :
    ((s.drop a).take n).getD i '0' = s.getD (a + i) '0' := by
  simp [List.getD_eq_getElem?_getD, List.getElem?_take, hi, List.getElem?_drop]

/-- In-bounds reading of a window, with natural-number arguments. -/
theorem extract_bits_window (s : List Char) (hs : IsBits s) (a n : Nat)
    (h : a + n ≤ s.length) :
    extract_bits s a n =
        ∑ i in Finset.range n, bit_val (s.getD (a + i) '0') * 2 ^ (n - 1 - i) ∧
      0 ≤ extract_bits s a n ∧ extract_bits s a n < 2 ^ n := by
  have hcond : ¬ ((a : Int) + (n : Int) > ((s.length : Nat) : Int)) := by
    have : ((a + n : Nat) : Int) ≤ (s.length : Int) := by exact_mod_cast h
    push_cast at this; omega
  have hdef : extract_bits s a n = ((s.drop a).take n).foldl shift_or 0 := by
    simp only [extract_bits, hcond, if_false, Int.toNat_ofNat]
  have hw := isBits_window hs a n
  have hlen := length_window s a n h
  have hsum := foldl_shift_or_sum _ hw 0 le_rfl
  have hbd := foldl_shift_or_bounds _ hw 0 le_rfl
  rw [hlen] at hsum hbd
  rw [hdef]
  refine ⟨?_, ?_, ?_⟩
  · rw [hsum, zero_mul, zero_add]
    apply Finset.sum_congr rfl
    intro i hi
    rw [getD_window s a n i (Finset.mem_range.mp hi)]
  · simpa using hbd.1
  · simpa using hbd.2

theorem extract_bits_out_of_bounds (s : List Char) (start len : Int)
    (h : start + len > (s.length : Int)) : extract_bits s start len = -1 := by
  simp only [extract_bits, h, if_true]

/-! ## Lemmas on the armor decoder -/

theorem length_six_bits (v : Int) : (six_bits v).length = 6 := rfl

theorem isBits_six_bits (v : Int) : IsBits (six_bits v) := by
  intro c hc
  simp only [six_bits, List.map_cons, List.map_nil, List.mem_cons, List.mem_singleton,
    List.not_mem_nil, or_false] at hc
  rcases hc with h | h | h | h | h | h <;> rw [h] <;> split <;> simp

theorem length_convert_payload (payload : List Char) :
    (convert_payload_to_binary payload).length = 6 * payload.length := by
  induction payload with
  | nil => rfl
  | cons c payload ih =>
    simp only [convert_payload_to_binary, List.length_append, length_six_bits, ih,
      List.length_cons]
    ring

theorem isBits_convert_payload (payload : List Char) :
    IsBits (convert_payload_to_binary payload) := by
  induction payload with
  | nil => intro c hc; simp [convert_payload_to_binary] at hc
  | cons c payload ih =>
    intro d hd
    simp only [convert_payload_to_binary, List.mem_append] at hd
    rcases hd with hd | hd
    · exact isBits_six_bits _ d hd
    · exact ih d hd

theorem drop_convert_payload (payload : List Char) (i : Nat) :
    (convert_payload_to_binary payload).drop (6 * i) =
      convert_payload_to_binary (payload.drop i) := by
  induction payload generalizing i with
  | nil => simp [convert_payload_to_binary]
  | cons c payload ih =>
    cases i with
    | zero => simp
    | succ i =>
      have h6 : 6 * (i + 1) = (six_bits (convert_ais_char c)).length + 6 * i := by
        rw [length_six_bits]; ring
      simp only [convert_payload_to_binary, List.drop_succ_cons, h6, List.drop_append, ih]

theorem foldl_six_bits (v : Int) (h0 : 0 ≤ v) (h1 : v < 64) :
    (six_bits v).foldl shift_or 0 = v := by
  interval_cases v <;> decide

theorem convert_ais_char_range (c : Char)
    (h : (48 ≤ c.toNat ∧ c.toNat ≤ 87) ∨ (96 ≤ c.toNat ∧ c.toNat ≤ 119)) :
    0 ≤ convert_ais_char c ∧ convert_ais_char c < 64 := by
  unfold convert_ais_char
  simp only
  split <;> omega

/-! ## Lemmas on the sentence extractor -/

theorem scan_payload_few_commas (l : List Char) (n : Int)
    (h : n + (l.count ',' : Int) < 5) : scan_payload l n = none := by
  induction l generalizing n with
  | nil => rfl
  | cons c l ih =>
    by_cases hc : c = ','
    · subst hc
      rw [List.count_cons_self] at h
      simp only [scan_payload, if_true]
      exact ih _ (by push_cast at h; omega)
    · have hcnt : (c :: l).count ',' = l.count ',' := List.count_cons_of_ne (Ne.symm hc) l
      rw [hcnt] at h
      have hn : n ≠ 5 := by omega
      simp only [scan_payload, hc, hn, if_false]
      exact ih _ h

theorem scan_payload_past_field (l : List Char) (n : Int) (h : 5 < n) :
    scan_payload l n = none := by
  induction l generalizing n with
  | nil => rfl
  | cons c l ih =>
    by_cases hc : c = ','
    · simp only [scan_payload, hc, if_true]
      exact ih _ (by omega)
    · have hn : n ≠ 5 := by omega
      simp only [scan_payload, hc, hn, if_false]
      exact ih _ h

theorem scan_payload_skip (pre tail : List Char) (n : Int)
    (h : n + (pre.count ',' : Int) = 4) :
    scan_payload (pre ++ ',' :: tail) n = scan_payload tail 5 := by
  induction pre generalizing n with
  | nil =>
    have hn : n = 4 := by simpa using h
    subst hn
    simp [scan_payload]
  | cons c pre ih =>
    by_cases hc : c = ','
    · subst hc
      rw [List.count_cons_self] at h
      simp only [List.cons_append, scan_payload, if_true]
      exact ih _ (by push_cast at h; omega)
    · have hcnt : (c :: pre).count ',' = pre.count ',' := List.count_cons_of_ne (Ne.symm hc) pre
      rw [hcnt] at h
      have hn : n ≠ 5 := by omega
      simp only [List.cons_append, scan_payload, hc, hn, if_false]
      exact ih _ h

theorem takeWhile_field (payload rest : List Char) (hp : ',' ∉ payload)
    (hr : rest = [] ∨ rest.head? = some ',') :
    (payload ++ rest).takeWhile (fun d => d ≠ ',') = payload := by
  induction payload with
  | nil =>
    rcases hr with rfl | hr
    · rfl
    · cases rest with
      | nil => rfl
      | cons r rest =>
        simp only [List.head?_cons, Option.some.injEq] at hr
        subst hr
        simp
  | cons c payload ih =>
    have hc : c ≠ ',' := fun h => hp (h ▸ List.mem_cons_self _ _)
    have hp2 : ',' ∉ payload := fun h => hp (List.mem_cons_of_mem _ h)
    simpa [List.takeWhile_cons, hc] using ih hp2

theorem scan_payload_field (payload rest : List Char) (hne : payload ≠ [])
    (hp : ',' ∉ payload) (hr : rest = [] ∨ rest.head? = some ',') :
    scan_payload (payload ++ rest) 5 = some payload := by
  cases payload with
  | nil => exact absurd rfl hne
  | cons c payload =>
    have hc : c ≠ ',' := fun h => hp (h ▸ List.mem_cons_self _ _)
    have htw := takeWhile_field (c :: payload) rest hp hr
    simp only [List.cons_append] at htw ⊢
    simp only [scan_payload, hc, if_false, if_true, htw]

theorem scan_payload_empty_field (rest : List Char)
    (hr : rest = [] ∨ rest.head? = some ',') : scan_payload rest 5 = none := by
  cases rest with
  | nil => rfl
  | cons r rest =>
    rcases hr with hr | hr
    · cases hr
    · simp only [List.head?_cons, Option.some.injEq] at hr
      subst hr
      simp only [scan_payload, if_true]
      exact scan_payload_past_field _ _ (by norm_num)

theorem take_six_eq_iff_prefix (tag line : List Char) (h : tag.length = 6) :
    line.take 6 = tag ↔ tag <+: line := by
  rw [List.prefix_iff_eq_take, h]
  exact eq_comm

theorem take_six_AIVDM (line : List Char) :
    line.take 6 = ['!', 'A', 'I', 'V', 'D', 'M'] ↔ "!AIVDM".toList <+: line :=
  take_six_eq_iff_prefix ['!', 'A', 'I', 'V', 'D', 'M'] line rfl

theorem take_six_AIVDO (line : List Char) :
    line.take 6 = ['!', 'A', 'I', 'V', 'D', 'O'] ↔ "!AIVDO".toList <+: line :=
  take_six_eq_iff_prefix ['!', 'A', 'I', 'V', 'D', 'O'] line rfl

/-! ## Lemmas on `decode_ais` -/

theorem decode_ais_no_payload (line : List Char) (h : get_payload_from_nmea line = none) :
    decode_ais line = (0, init_ais_data) := by
  simp only [decode_ais, h]

theorem cast_int_of_range (x : Int) (h0 : -2147483648 ≤ x) (h1 : x < 2147483648) :
    cast_int x = x := by
  unfold cast_int; omega

theorem cast_uint32_of_range (x : Int) (h0 : 0 ≤ x) (h1 : x < 4294967296) :
    cast_uint32 x = x := by
  unfold cast_uint32; omega

/-! ## Frame lemmas: the layouts keep the header -/

theorem header_decode_class_a (b : List Char) (d : AISData) :
    header (decode_class_a b d) = header d := by
  simp only [header, decode_class_a]

theorem header_decode_base_station (b : List Char) (d : AISData) :
    header (decode_base_station b d) = header d := by
  simp only [header, decode_base_station]

theorem header_decode_static_voyage (b : List Char) (d : AISData) :
    header (decode_static_voyage b d) = header d := by
  simp only [header, decode_static_voyage]

theorem header_decode_sar_aircraft (b : List Char) (d : AISData) :
    header (decode_sar_aircraft b d) = header d := by
  simp only [header, decode_sar_aircraft]

theorem header_decode_dgnss (b : List Char) (d : AISData) :
    header (decode_dgnss b d) = header d := by
  simp only [header, decode_dgnss]

theorem header_decode_class_b (b : List Char) (d : AISData) :
    header (decode_class_b b d) = header d := by
  simp only [header, decode_class_b]

theorem header_decode_class_b_extended (b : List Char) (d : AISData) :
    header (decode_class_b_extended b d) = header d := by
  simp only [header, decode_class_b_extended]

theorem header_decode_aid_to_navigation (b : List Char) (d : AISData) :
    header (decode_aid_to_navigation b d) = header d := by
  simp only [header, decode_aid_to_navigation]

theorem header_decode_static_report (b : List Char) (d : AISData) :
    header (decode_static_report b d) = header d := by
  simp only [decode_static_report, header, apply_ite AISData.msg_type,
    apply_ite AISData.repeat_ind, apply_ite AISData.mmsi, ite_self]

theorem header_decode_long_range (b : List Char) (d : AISData) :
    header (decode_long_range b d) = header d := by
  simp only [header, decode_long_range]

theorem header_decode_by_type (b : List Char) (d : AISData) :
    header (decode_by_type b d) = header d := by
  simp only [decode_by_type, apply_ite header, header_decode_class_a,
    header_decode_base_station, header_decode_static_voyage, header_decode_sar_aircraft,
    header_decode_dgnss, header_decode_class_b, header_decode_class_b_extended,
    header_decode_aid_to_navigation, header_decode_static_report, header_decode_long_range,
    ite_self]

theorem decode_ais_some (line payload : List Char)
    (hp : get_payload_from_nmea line = some payload)
    (hlen : ¬ (convert_payload_to_binary payload).length < 38) :
    decode_ais line =
      if (read_header (convert_payload_to_binary payload) init_ais_data).msg_type < 1 ∨
          (read_header (convert_payload_to_binary payload) init_ais_data).msg_type > 27 then
        (0, read_header (convert_payload_to_binary payload) init_ais_data)
      else
        (1, decode_by_type (convert_payload_to_binary payload)
          (read_header (convert_payload_to_binary payload) init_ais_data)) := by
  simp only [decode_ais, hp, hlen, if_false]

theorem decode_ais_short_stream (line payload : List Char)
    (hp : get_payload_from_nmea line = some payload)
    (hlen : (convert_payload_to_binary payload).length < 38) :
    decode_ais line = (0, init_ais_data) := by
  simp only [decode_ais, hp, hlen, if_true]

/-- The three header windows of a bitstream of at least 38 bits are read
without failure and survive the casts. -/
theorem header_windows (s : List Char) (hs : IsBits s) (h38 : 38 ≤ s.length) :
    (0 ≤ extract_bits s 0 6 ∧ extract_bits s 0 6 < 64) ∧
      (0 ≤ extract_bits s 6 2 ∧ extract_bits s 6 2 < 4) ∧
      (0 ≤ extract_bits s 8 30 ∧ extract_bits s 8 30 < 1073741824) := by
  have h1 := extract_bits_window s hs 0 6 (by omega)
  have h2 := extract_bits_window s hs 6 2 (by omega)
  have h3 := extract_bits_window s hs 8 30 (by omega)
  simp only [Nat.cast_ofNat, Nat.cast_zero] at h1 h2 h3
  refine ⟨⟨h1.2.1, ?_⟩, ⟨h2.2.1, ?_⟩, ⟨h3.2.1, ?_⟩⟩
  · have := h1.2.2; norm_num at this; exact this
  · have := h2.2.2; norm_num at this; exact this
  · have := h3.2.2; norm_num at this; exact this

theorem header_read_header (s : List Char) (hs : IsBits s) (h38 : 38 ≤ s.length)
    (d : AISData) :
    header (read_header s d) = (extract_bits s 0 6, extract_bits s 6 2, extract_bits s 8 30) := by
  obtain ⟨⟨a0, a1⟩, ⟨b0, b1⟩, ⟨c0, c1⟩⟩ := header_windows s hs h38
  simp only [header, read_header]
  rw [cast_int_of_range _ (by omega) (by omega), cast_int_of_range _ (by omega) (by omega),
    cast_uint32_of_range _ c0 (by omega)]

/-! ## Claims on the entry point `decode_ais` -/

/-- C1: on every line for which `decode_ais` returns success, the header of the
record is the header windows of the bitstream built from the line's payload:
`msg_type` is the unsigned bits 0-5 and lies in `[1, 27]`, `repeat_ind` is the
unsigned bits 6-7 and lies in `[0, 3]`, `mmsi` is the unsigned bits 8-37 and is
below `2 ^ 30`; and whenever bits 0-5 give a type outside `[1, 27]`,
`decode_ais` returns failure. -/
theorem decode_ais_header (line : List Char) :
    ((decode_ais line).1 = 1 →
      ∃ payload, get_payload_from_nmea line = some payload ∧
        (decode_ais line).2.msg_type = extract_bits (convert_payload_to_binary payload) 0 6 ∧
        1 ≤ (decode_ais line).2.msg_type ∧ (decode_ais line).2.msg_type ≤ 27 ∧
        (decode_ais line).2.repeat_ind = extract_bits (convert_payload_to_binary payload) 6 2 ∧
        0 ≤ (decode_ais line).2.repeat_ind ∧ (decode_ais line).2.repeat_ind ≤ 3 ∧
        (decode_ais line).2.mmsi = extract_bits (convert_payload_to_binary payload) 8 30 ∧
        0 ≤ (decode_ais line).2.mmsi ∧ (decode_ais line).2.mmsi < 2 ^ 30) ∧
      (∀ payload, get_payload_from_nmea line = some payload →
        (extract_bits (convert_payload_to_binary payload) 0 6 < 1 ∨
          27 < extract_bits (convert_payload_to_binary payload) 0 6) →
        (decode_ais line).1 = 0) := by
  cases hp : get_payload_from_nmea line with
  | none =>
    rw [decode_ais_no_payload line hp]
    exact ⟨fun h => absurd h (by decide), fun payload h => by cases h⟩
  | some payload =>
    by_cases hlen : (convert_payload_to_binary payload).length < 38
    · rw [decode_ais_short_stream line payload hp hlen]
      exact ⟨fun h => absurd h (by decide), fun _ _ _ => rfl⟩
    · have hs := isBits_convert_payload payload
      have hh := header_read_header _ hs (by omega) init_ais_data
      obtain ⟨⟨a0, a1⟩, ⟨b0, b1⟩, ⟨c0, c1⟩⟩ := header_windows _ hs (Nat.le_of_not_lt hlen)
      have hd := header_decode_by_type (convert_payload_to_binary payload)
        (read_header (convert_payload_to_binary payload) init_ais_data)
      rw [hh] at hd
      simp only [header, Prod.mk.injEq] at hh hd
      rw [decode_ais_some line payload hp hlen, hh.1]
      by_cases hty : extract_bits (convert_payload_to_binary payload) 0 6 < 1 ∨
          extract_bits (convert_payload_to_binary payload) 0 6 > 27
      · rw [if_pos hty]
        refine ⟨fun h => by simp at h, fun q hq _ => rfl⟩
      · rw [if_neg hty]
        refine ⟨fun _ => ⟨payload, rfl, ?_⟩, fun q hq hout => ?_⟩
        · simp only [hd.1, hd.2.1, hd.2.2]
          refine ⟨trivial, ?_, ?_, trivial, b0, ?_, trivial, c0, ?_⟩ <;> omega
        · cases hq
          exact absurd (by omega) hty

theorem decode_ais_header_witness :
    ∃ payload, get_payload_from_nmea "!AIVDM,1,1,,A,38IFDN0Ohj7JvbN0fABtpbJ401w@,0*69".toList =
        some payload ∧
      (decode_ais "!AIVDM,1,1,,A,38IFDN0Ohj7JvbN0fABtpbJ401w@,0*69".toList).2.msg_type =
        extract_bits (convert_payload_to_binary payload) 0 6 ∧
      1 ≤ (decode_ais "!AIVDM,1,1,,A,38IFDN0Ohj7JvbN0fABtpbJ401w@,0*69".toList).2.msg_type ∧
      (decode_ais "!AIVDM,1,1,,A,38IFDN0Ohj7JvbN0fABtpbJ401w@,0*69".toList).2.msg_type ≤ 27 ∧
      (decode_ais "!AIVDM,1,1,,A,38IFDN0Ohj7JvbN0fABtpbJ401w@,0*69".toList).2.repeat_ind =
        extract_bits (convert_payload_to_binary payload) 6 2 ∧
      0 ≤ (decode_ais "!AIVDM,1,1,,A,38IFDN0Ohj7JvbN0fABtpbJ401w@,0*69".toList).2.repeat_ind ∧
      (decode_ais "!AIVDM,1,1,,A,38IFDN0Ohj7JvbN0fABtpbJ401w@,0*69".toList).2.repeat_ind ≤ 3 ∧
      (decode_ais "!AIVDM,1,1,,A,38IFDN0Ohj7JvbN0fABtpbJ401w@,0*69".toList).2.mmsi =
        extract_bits (convert_payload_to_binary payload) 8 30 ∧
      0 ≤ (decode_ais "!AIVDM,1,1,,A,38IFDN0Ohj7JvbN0fABtpbJ401w@,0*69".toList).2.mmsi ∧
      (decode_ais "!AIVDM,1,1,,A,38IFDN0Ohj7JvbN0fABtpbJ401w@,0*69".toList).2.mmsi < 2 ^ 30 :=
  (decode_ais_header "!AIVDM,1,1,,A,38IFDN0Ohj7JvbN0fABtpbJ401w@,0*69".toList).1
    (by set_option maxRecDepth 100000 in decide)

/-- C3: for every line whose extracted payload gives a bitstream of fewer than
38 bits, which is the case exactly when the payload has at most 6 characters,
`decode_ais` returns failure. -/
theorem decode_ais_short_payload (line payload : List Char)
    (hp : get_payload_from_nmea line = some payload) :
    ((convert_payload_to_binary payload).length < 38 ↔ payload.length ≤ 6) ∧
      ((convert_payload_to_binary payload).length < 38 → (decode_ais line).1 = 0) := by
  constructor
  · rw [length_convert_payload]; omega
  · intro hlen
    rw [decode_ais_short_stream line payload hp hlen]

theorem decode_ais_short_payload_witness :
    ((convert_payload_to_binary "15M67F".toList).length < 38 ↔ "15M67F".toList.length ≤ 6) ∧
      ((convert_payload_to_binary "15M67F".toList).length < 38 →
        (decode_ais "!AIVDM,1,1,,A,15M67F,0*00".toList).1 = 0) :=
  decode_ais_short_payload "!AIVDM,1,1,,A,15M67F,0*00".toList "15M67F".toList (by decide)

theorem decode_by_type_below_minimum (b : List Char) (d : AISData)
    (h : (((1 ≤ d.msg_type ∧ d.msg_type ≤ 4) ∨ d.msg_type = 9 ∨ d.msg_type = 11 ∨
          d.msg_type = 18 ∨ d.msg_type = 24) ∧ (b.length : Int) < 168) ∨
        (d.msg_type = 5 ∧ (b.length : Int) < 424) ∨
        (d.msg_type = 17 ∧ (b.length : Int) < 80) ∨
        (d.msg_type = 19 ∧ (b.length : Int) < 312) ∨
        (d.msg_type = 21 ∧ (b.length : Int) < 272) ∨
        (d.msg_type = 27 ∧ (b.length : Int) < 96)) :
    decode_by_type b d = d := by
  unfold decode_by_type
  iterate 11 rw [if_neg (by omega)]

theorem read_header_eq (s : List Char) (hs : IsBits s) (h38 : 38 ≤ s.length) (d : AISData) :
    read_header s d =
      { d with
        msg_type := extract_bits s 0 6
        repeat_ind := extract_bits s 6 2
        mmsi := extract_bits s 8 30 } := by
  obtain ⟨⟨a0, a1⟩, ⟨b0, b1⟩, ⟨c0, c1⟩⟩ := header_windows s hs h38
  simp only [read_header]
  rw [cast_int_of_range _ (by omega) (by omega), cast_int_of_range _ (by omega) (by omega),
    cast_uint32_of_range _ c0 (by omega)]

/-- C2, as the code has it: for every line whose bitstream has at least 38
bits and whose message type has a field layout (1-5, 9, 11, 17, 18, 19, 21, 24,
27), if the bitstream is shorter than that type's minimum length (168 for 1-4,
9, 11, 18, 24; 424 for 5; 80 for 17; 312 for 19; 272 for 21; 96 for 27) then
`decode_ais` returns success, and the record it produces holds the three header
fields read from the bitstream and the `init_ais_data` default in every other
field. -/
theorem decode_ais_below_layout_minimum (line payload : List Char)
    (hp : get_payload_from_nmea line = some payload)
    (h38 : 38 ≤ (convert_payload_to_binary payload).length)
    (hshort :
      (((1 ≤ extract_bits (convert_payload_to_binary payload) 0 6 ∧
            extract_bits (convert_payload_to_binary payload) 0 6 ≤ 4) ∨
          extract_bits (convert_payload_to_binary payload) 0 6 = 9 ∨
          extract_bits (convert_payload_to_binary payload) 0 6 = 11 ∨
          extract_bits (convert_payload_to_binary payload) 0 6 = 18 ∨
          extract_bits (convert_payload_to_binary payload) 0 6 = 24) ∧
        (convert_payload_to_binary payload).length < 168) ∨
      (extract_bits (convert_payload_to_binary payload) 0 6 = 5 ∧
        (convert_payload_to_binary payload).length < 424) ∨
      (extract_bits (convert_payload_to_binary payload) 0 6 = 17 ∧
        (convert_payload_to_binary payload).length < 80) ∨
      (extract_bits (convert_payload_to_binary payload) 0 6 = 19 ∧
        (convert_payload_to_binary payload).length < 312) ∨
      (extract_bits (convert_payload_to_binary payload) 0 6 = 21 ∧
        (convert_payload_to_binary payload).length < 272) ∨
      (extract_bits (convert_payload_to_binary payload) 0 6 = 27 ∧
        (convert_payload_to_binary payload).length < 96)) :
    decode_ais line =
      (1, { init_ais_data with
            msg_type := extract_bits (convert_payload_to_binary payload) 0 6
            repeat_ind := extract_bits (convert_payload_to_binary payload) 6 2
            mmsi := extract_bits (convert_payload_to_binary payload) 8 30 }) := by
  have hs := isBits_convert_payload payload
  have hrh := read_header_eq _ hs h38 init_ais_data
  rw [decode_ais_some line payload hp (by omega), hrh]
  have hty : ¬ (extract_bits (convert_payload_to_binary payload) 0 6 < 1 ∨
      extract_bits (convert_payload_to_binary payload) 0 6 > 27) := by omega
  rw [if_neg hty, decode_by_type_below_minimum]
  dsimp only
  omega

theorem decode_ais_below_layout_minimum_witness :
    decode_ais "!AIVDM,1,1,,A,1000000,0*00".toList =
      (1, { init_ais_data with
            msg_type := extract_bits (convert_payload_to_binary "1000000".toList) 0 6
            repeat_ind := extract_bits (convert_payload_to_binary "1000000".toList) 6 2
            mmsi := extract_bits (convert_payload_to_binary "1000000".toList) 8 30 }) :=
  decode_ais_below_layout_minimum "!AIVDM,1,1,,A,1000000,0*00".toList "1000000".toList
    (by decide) (by decide) (Or.inl (by decide))

/-- C2 as stated fails: the payload of `!AIVDM,1,1,,A,1000000,0*00` gives a
bitstream of 42 bits (at least 38, fewer than 168) with message type 1, and
`decode_ais` returns success, not failure. -/
theorem decode_ais_truncated_counterexample :
    get_payload_from_nmea "!AIVDM,1,1,,A,1000000,0*00".toList = some "1000000".toList ∧
      (convert_payload_to_binary "1000000".toList).length = 42 ∧
      extract_bits (convert_payload_to_binary "1000000".toList) 0 6 = 1 ∧
      (decode_ais "!AIVDM,1,1,,A,1000000,0*00".toList).1 = 1 := by
  decide

/-! ## Claims on the sentence extractor -/

/-- C4: for every line that does not begin with the exact prefix `!AIVDM` or
`!AIVDO`, and for every line with fewer than five commas (fewer than six
comma-delimited fields), `get_payload_from_nmea` returns no payload and
`decode_ais` returns failure. -/
theorem get_payload_from_nmea_rejects (line : List Char)
    (h : (¬ "!AIVDM".toList <+: line ∧ ¬ "!AIVDO".toList <+: line) ∨ line.count ',' < 5) :
    get_payload_from_nmea line = none ∧ (decode_ais line).1 = 0 := by
  have hnone : get_payload_from_nmea line = none := by
    unfold get_payload_from_nmea
    rcases h with ⟨hm, ho⟩ | hc
    · have h1 : line.take 6 ≠ ['!', 'A', 'I', 'V', 'D', 'M'] := fun e =>
        hm ((take_six_AIVDM line).mp e)
      have h2 : line.take 6 ≠ ['!', 'A', 'I', 'V', 'D', 'O'] := fun e =>
        ho ((take_six_AIVDO line).mp e)
      rw [if_pos ⟨h1, h2⟩]
    · split
      · rfl
      · exact scan_payload_few_commas line 0 (by omega)
  exact ⟨hnone, by rw [decode_ais_no_payload line hnone]⟩

theorem get_payload_from_nmea_rejects_witness :
    get_payload_from_nmea "$GPGGA,1,1,,A,15M,0*00".toList = none ∧
      (decode_ais "$GPGGA,1,1,,A,15M,0*00".toList).1 = 0 :=
  get_payload_from_nmea_rejects "$GPGGA,1,1,,A,15M,0*00".toList (Or.inl (by decide))

/-- C5, as the code has it: for a line that begins with `!AIVDM` or `!AIVDO`
and has at least six comma-delimited fields, `get_payload_from_nmea` returns
exactly the sixth field (the text after the fifth comma up to, but not
including, the sixth comma or the end of the line) when that field is not
empty, and returns no payload when that field is empty. -/
theorem get_payload_from_nmea_sixth_field (pre payload rest : List Char)
    (htag : "!AIVDM".toList <+: pre ++ ',' :: (payload ++ rest) ∨
      "!AIVDO".toList <+: pre ++ ',' :: (payload ++ rest))
    (hpre : pre.count ',' = 4) (hpay : ',' ∉ payload)
    (hrest : rest = [] ∨ rest.head? = some ',') :
    (payload ≠ [] → get_payload_from_nmea (pre ++ ',' :: (payload ++ rest)) = some payload) ∧
      (payload = [] → get_payload_from_nmea (pre ++ ',' :: (payload ++ rest)) = none) := by
  have hscan : get_payload_from_nmea (pre ++ ',' :: (payload ++ rest)) =
      scan_payload (payload ++ rest) 5 := by
    unfold get_payload_from_nmea
    have hno : ¬ ((pre ++ ',' :: (payload ++ rest)).take 6 ≠ ['!', 'A', 'I', 'V', 'D', 'M'] ∧
        (pre ++ ',' :: (payload ++ rest)).take 6 ≠ ['!', 'A', 'I', 'V', 'D', 'O']) := by
      rintro ⟨h1, h2⟩
      rcases htag with ht | ht
      · exact h1 ((take_six_AIVDM _).mpr ht)
      · exact h2 ((take_six_AIVDO _).mpr ht)
    rw [if_neg hno]
    exact scan_payload_skip pre (payload ++ rest) 0 (by rw [hpre]; norm_num)
  rw [hscan]
  constructor
  · intro hne
    exact scan_payload_field payload rest hne hpay hrest
  · intro he
    subst he
    exact scan_payload_empty_field rest hrest

theorem get_payload_from_nmea_sixth_field_witness :
    ("38I".toList ≠ [] →
        get_payload_from_nmea ("!AIVDM,1,1,,A".toList ++ ',' :: ("38I".toList ++ ",0*69".toList)) =
          some "38I".toList) ∧
      ("38I".toList = [] →
        get_payload_from_nmea ("!AIVDM,1,1,,A".toList ++ ',' :: ("38I".toList ++ ",0*69".toList)) =
          none) :=
  get_payload_from_nmea_sixth_field "!AIVDM,1,1,,A".toList "38I".toList ",0*69".toList
    (Or.inl (by decide)) (by decide) (by decide) (Or.inr (by decide))

/-- C5 as stated fails: the line `!AIVDM,1,1,,A,,0*00` begins with the tag and
has seven comma-delimited fields, its sixth field is empty, and
`get_payload_from_nmea` does not return that (empty) field: it returns no
payload. -/
theorem get_payload_from_nmea_empty_field_counterexample :
    "!AIVDM,1,1,,A,,0*00".toList = "!AIVDM,1,1,,A".toList ++ ',' :: ([] ++ ",0*00".toList) ∧
      "!AIVDM".toList <+: "!AIVDM,1,1,,A,,0*00".toList ∧
      ("!AIVDM,1,1,,A".toList).count ',' = 4 ∧
      get_payload_from_nmea "!AIVDM,1,1,,A,,0*00".toList ≠ some [] := by
  decide

/-! ## Claims on the bit reader and the armor decoder -/

/-- C6: for every payload string, whatever its characters,
`convert_payload_to_binary` produces a bitstream whose length is exactly six
times the payload length and whose every element is `'0'` or `'1'`. -/
theorem convert_payload_to_binary_length_and_bits (payload : List Char) :
    (convert_payload_to_binary payload).length = 6 * payload.length ∧
      IsBits (convert_payload_to_binary payload) :=
  ⟨length_convert_payload payload, isBits_convert_payload payload⟩

/-- C7: for a payload of valid armor characters (codes 48..87 and 96..119) and
an index `i` below its length, the 6 unsigned bits read by `extract_bits` at
offset `6 * i` of `convert_payload_to_binary payload` are
`convert_ais_char payload[i]`, and `convert_ais_char c` is `code c - 48`,
less a further 8 when that difference exceeds 40. -/
theorem extract_bits_convert_payload (payload : List Char)
    (hvalid : ∀ c ∈ payload,
      (48 ≤ c.toNat ∧ c.toNat ≤ 87) ∨ (96 ≤ c.toNat ∧ c.toNat ≤ 119))
    (i : Nat) (hi : i < payload.length) :
    extract_bits (convert_payload_to_binary payload) (6 * (i : Int)) 6 =
        convert_ais_char payload[i] ∧
      convert_ais_char payload[i] =
        (if (payload[i].toNat : Int) - 48 > 40 then (payload[i].toNat : Int) - 48 - 8
          else (payload[i].toNat : Int) - 48) := by
  refine ⟨?_, rfl⟩
  have hc := hvalid payload[i] (List.getElem_mem _)
  obtain ⟨v0, v1⟩ := convert_ais_char_range _ hc
  have hlen := length_convert_payload payload
  have hcond : ¬ (6 * (i : Int) + 6 > ((convert_payload_to_binary payload).length : Int)) := by
    rw [hlen]; push_cast; omega
  have hdrop : payload.drop i = payload[i] :: payload.drop (i + 1) :=
    List.drop_eq_getElem_cons hi
  have h6 : (6 * (i : Int)).toNat = 6 * i := by omega
  have h6b : (6 : Int).toNat = 6 := rfl
  simp only [extract_bits, hcond, if_false, h6, h6b, drop_convert_payload, hdrop,
    convert_payload_to_binary]
  rw [List.take_left' (length_six_bits _)]
  exact foldl_six_bits _ v0 v1

theorem extract_bits_convert_payload_witness :
    extract_bits (convert_payload_to_binary ['3', '8', 'w']) (6 * ((2 : Nat) : Int)) 6 =
        convert_ais_char ['3', '8', 'w'][2] ∧
      convert_ais_char ['3', '8', 'w'][2] =
        (if (['3', '8', 'w'][2].toNat : Int) - 48 > 40
          then (['3', '8', 'w'][2].toNat : Int) - 48 - 8
          else (['3', '8', 'w'][2].toNat : Int) - 48) :=
  extract_bits_convert_payload ['3', '8', 'w'] (by decide) 2 (by decide)

/-- C8: on a bitstream of `'0'`/`'1'` characters, for `start ≥ 0` and
`0 ≤ length ≤ 63` (natural numbers here), `extract_bits` returns the failure
value `-1` if and only if `start + length` exceeds the stream length; it
succeeds when `start + length` equals the stream length and fails when it
equals the stream length plus one. -/
theorem extract_bits_fails_iff (s : List Char) (hs : IsBits s) (start length : Nat)
    (_hlen : length ≤ 63) :
    (extract_bits s start length = -1 ↔ start + length > s.length) ∧
      (start + length = s.length → extract_bits s start length ≠ -1) ∧
      (start + length = s.length + 1 → extract_bits s start length = -1) := by
  have hiff : extract_bits s start length = -1 ↔ start + length > s.length := by
    constructor
    · intro h
      by_contra hn
      have := (extract_bits_window s hs start length (by omega)).2.1
      omega
    · intro h
      apply extract_bits_out_of_bounds
      have : ((s.length : Nat) : Int) < ((start + length : Nat) : Int) := by exact_mod_cast h
      push_cast at this; omega
  refine ⟨hiff, ?_, ?_⟩
  · intro h hf
    have := hiff.mp hf
    omega
  · intro h
    exact hiff.mpr (by omega)

theorem extract_bits_fails_iff_witness :
    (extract_bits ['1', '0', '1'] (1 : Nat) (2 : Nat) = -1 ↔ 1 + 2 > ['1', '0', '1'].length) ∧
      (1 + 2 = ['1', '0', '1'].length → extract_bits ['1', '0', '1'] (1 : Nat) (2 : Nat) ≠ -1) ∧
      (1 + 2 = ['1', '0', '1'].length + 1 →
        extract_bits ['1', '0', '1'] (1 : Nat) (2 : Nat) = -1) :=
  extract_bits_fails_iff ['1', '0', '1'] (by decide) 1 2 (by decide)

/-- C9: on a bitstream, for an in-bounds window (`start ≥ 0`,
`0 ≤ length ≤ 63`, `start + length ≤` stream length), `extract_bits` returns
the sum over `i < length` of `bit[start + i] * 2 ^ (length - 1 - i)`, the window
read most significant bit first, and that value is `≥ 0` and `< 2 ^ length`. -/
theorem extract_bits_value (s : List Char) (hs : IsBits s) (start length : Nat)
    (_hlen : length ≤ 63) (hfit : start + length ≤ s.length) :
    extract_bits s start length =
        ∑ i in Finset.range length,
          bit_val (s.getD (start + i) '0') * 2 ^ (length - 1 - i) ∧
      0 ≤ extract_bits s start length ∧ extract_bits s start length < 2 ^ length :=
  extract_bits_window s hs start length hfit

theorem extract_bits_value_witness :
    extract_bits ['0', '1', '1', '0', '1'] (1 : Nat) (3 : Nat) =
        ∑ i in Finset.range 3,
          bit_val (['0', '1', '1', '0', '1'].getD (1 + i) '0') * 2 ^ (3 - 1 - i) ∧
      0 ≤ extract_bits ['0', '1', '1', '0', '1'] (1 : Nat) (3 : Nat) ∧
      extract_bits ['0', '1', '1', '0', '1'] (1 : Nat) (3 : Nat) < 2 ^ 3 :=
  extract_bits_value ['0', '1', '1', '0', '1'] (by decide) 1 3 (by decide) (by decide)

/-- C10: on a bitstream, for an in-bounds window with `1 ≤ length ≤ 62`,
`extract_signed_bits` returns the two's-complement reading of the window: with
`u = extract_bits s start length` the result is `u` when `u < 2 ^ (length - 1)`
and `u - 2 ^ length` otherwise; it lies in
`[-2 ^ (length - 1), 2 ^ (length - 1) - 1]` and is congruent to `u` modulo
`2 ^ length`. -/
theorem extract_signed_bits_twos_complement (s : List Char) (hs : IsBits s)
    (start length : Nat) (h1 : 1 ≤ length) (h62 : length ≤ 62)
    (hfit : start + length ≤ s.length) :
    (extract_bits s start length < 2 ^ (length - 1) →
        extract_signed_bits s start length = extract_bits s start length) ∧
      (2 ^ (length - 1) ≤ extract_bits s start length →
        extract_signed_bits s start length = extract_bits s start length - 2 ^ length) ∧
      -(2 ^ (length - 1)) ≤ extract_signed_bits s start length ∧
      extract_signed_bits s start length ≤ 2 ^ (length - 1) - 1 ∧
      extract_signed_bits s start length ≡ extract_bits s start length [ZMOD 2 ^ length] := by
  obtain ⟨-, u0, u1⟩ := extract_bits_window s hs start length hfit
  have hne : extract_bits s start length ≠ -1 := by omega
  have hexp : ((length : Int) - 1).toNat = length - 1 := by omega
  have hpow : (2 : Int) ^ length = 2 * 2 ^ (length - 1) := by
    rw [← pow_succ']; congr 1; omega
  have hdef : extract_signed_bits s start length =
      if extract_bits s start length ≥ 2 ^ (length - 1)
        then extract_bits s start length - 2 ^ length else extract_bits s start length := by
    simp only [extract_signed_bits, hne, if_false, hexp, Int.toNat_ofNat]
  have hpos : (0 : Int) < 2 ^ (length - 1) := by positivity
  by_cases hge : extract_bits s start length ≥ 2 ^ (length - 1)
  · rw [hdef, if_pos hge]
    refine ⟨fun h => absurd hge (not_le.mpr h), fun _ => rfl, by omega, by omega, ?_⟩
    exact (Int.modEq_iff_dvd.mpr ⟨1, by ring⟩)
  · rw [hdef, if_neg hge]
    refine ⟨fun _ => rfl, fun h => absurd h hge, by omega, by omega, Int.ModEq.refl _⟩

theorem extract_signed_bits_twos_complement_witness :
    (extract_bits ['1', '1', '0'] (0 : Nat) (3 : Nat) < 2 ^ (3 - 1) →
        extract_signed_bits ['1', '1', '0'] (0 : Nat) (3 : Nat) =
          extract_bits ['1', '1', '0'] (0 : Nat) (3 : Nat)) ∧
      (2 ^ (3 - 1) ≤ extract_bits ['1', '1', '0'] (0 : Nat) (3 : Nat) →
        extract_signed_bits ['1', '1', '0'] (0 : Nat) (3 : Nat) =
          extract_bits ['1', '1', '0'] (0 : Nat) (3 : Nat) - 2 ^ 3) ∧
      -(2 ^ (3 - 1)) ≤ extract_signed_bits ['1', '1', '0'] (0 : Nat) (3 : Nat) ∧
      extract_signed_bits ['1', '1', '0'] (0 : Nat) (3 : Nat) ≤ 2 ^ (3 - 1) - 1 ∧
      extract_signed_bits ['1', '1', '0'] (0 : Nat) (3 : Nat) ≡
        extract_bits ['1', '1', '0'] (0 : Nat) (3 : Nat) [ZMOD 2 ^ 3] :=
  extract_signed_bits_twos_complement ['1', '1', '0'] (by decide) 0 3 (by decide) (by decide)
    (by decide)

/-! ## Further lemmas on the windows of a bitstream -/

/-- Reading of a window given by integers, in bounds: the value is within the
window's range. -/
theorem extract_bits_range (s : List Char) (hs : IsBits s) (a n : Int) (ha : 0 ≤ a)
    (hn : 0 ≤ n) (hfit : a + n ≤ (s.length : Int)) :
    0 ≤ extract_bits s a n ∧ extract_bits s a n < 2 ^ n.toNat := by
  have h := extract_bits_window s hs a.toNat n.toNat (by omega)
  rw [Int.toNat_of_nonneg ha, Int.toNat_of_nonneg hn] at h
  exact h.2

/-- The cast `(int)` leaves an in-bounds window of at most 31 bits unchanged. -/
theorem cast_int_extract_bits (s : List Char) (hs : IsBits s) (a n : Int) (ha : 0 ≤ a)
    (hn : 0 ≤ n) (hn31 : n ≤ 31) (hfit : a + n ≤ (s.length : Int)) :
    cast_int (extract_bits s a n) = extract_bits s a n := by
  obtain ⟨h0, h1⟩ := extract_bits_range s hs a n ha hn hfit
  have hle : (2 : Int) ^ n.toNat ≤ 2 ^ 31 := pow_le_pow_right₀ (by norm_num) (by omega)
  exact cast_int_of_range _ (by omega) (by omega)

theorem extract_bits_first_char (c : Char) (rest : List Char)
    (h0 : 0 ≤ convert_ais_char c) (h64 : convert_ais_char c < 64) :
    extract_bits (convert_payload_to_binary (c :: rest)) 0 6 = convert_ais_char c := by
  have hlen := length_convert_payload (c :: rest)
  have hcond : ¬ ((0 : Int) + 6 > ((convert_payload_to_binary (c :: rest)).length : Int)) := by
    rw [hlen, List.length_cons]; push_cast; omega
  have h6 : (6 : Int).toNat = 6 := rfl
  have hz : (0 : Int).toNat = 0 := rfl
  unfold extract_bits
  simp only [hcond, if_false, h6, hz, List.drop_zero]
  rw [convert_payload_to_binary, List.take_left' (length_six_bits _)]
  exact foldl_six_bits _ h0 h64

/-! ## `decode_ais` and the sizes of its arrays -/

/-- Within the sizes of the two arrays, the run of `decode_ais` returns the pair
given by `decode_ais`. -/
theorem decode_ais_in_buffers_fits (line payload : List Char)
    (hp : get_payload_from_nmea line = some payload)
    (hcap : payload.length < MAX_PAYLOAD_LENGTH) :
    decode_ais_in_buffers line = some (decode_ais line) := by
  have h1 : ¬ (payload.length + 1 > MAX_PAYLOAD_LENGTH) := by omega
  have h2 : ¬ ((convert_payload_to_binary payload).length + 1 > MAX_BINARY_LENGTH) := by
    rw [length_convert_payload]
    unfold MAX_PAYLOAD_LENGTH at hcap
    unfold MAX_BINARY_LENGTH
    omega
  simp only [decode_ais_in_buffers, decode_ais, hp, h1, h2, if_false]
  by_cases hlen : (convert_payload_to_binary payload).length < 38
  · simp only [hlen, if_true]
  · simp only [hlen, if_false]
    split <;> rfl

theorem decode_ais_in_buffers_no_payload (line : List Char)
    (hp : get_payload_from_nmea line = none) :
    decode_ais_in_buffers line = some (decode_ais line) := by
  simp only [decode_ais_in_buffers, decode_ais, hp]

/-- A payload that does not fit the array `payload` with its NUL ends the run
in an out-of-bounds write. -/
theorem decode_ais_in_buffers_overflow (line payload : List Char)
    (hp : get_payload_from_nmea line = some payload)
    (hcap : MAX_PAYLOAD_LENGTH ≤ payload.length) :
    decode_ais_in_buffers line = none := by
  have h1 : payload.length + 1 > MAX_PAYLOAD_LENGTH := by omega
  simp only [decode_ais_in_buffers, hp, h1, if_true]

/-- The run of `decode_ais` ends in an out-of-bounds write exactly when the line
has a payload of `MAX_PAYLOAD_LENGTH` characters or more. -/
theorem decode_ais_in_buffers_none_iff (line : List Char) :
    decode_ais_in_buffers line = none ↔
      ∃ payload, get_payload_from_nmea line = some payload ∧
        MAX_PAYLOAD_LENGTH ≤ payload.length := by
  constructor
  · intro h
    cases hp : get_payload_from_nmea line with
    | none => rw [decode_ais_in_buffers_no_payload line hp] at h; cases h
    | some payload =>
      refine ⟨payload, rfl, ?_⟩
      by_contra hlt
      rw [decode_ais_in_buffers_fits line payload hp (by omega)] at h
      cases h
  · rintro ⟨payload, hp, hcap⟩
    exact decode_ais_in_buffers_overflow line payload hp hcap

theorem get_payload_over_long_line (first : Char) (hf : first ≠ ',') :
    get_payload_from_nmea (over_long_line first) = some (over_long_payload first) := by
  have hscan : get_payload_from_nmea (over_long_line first) =
      scan_payload (over_long_payload first ++ ",0*00".toList) 5 := by
    unfold get_payload_from_nmea over_long_line
    rw [if_neg (by
      rintro ⟨h1, -⟩
      exact h1 rfl)]
    have e : "!AIVDM,1,1,,A,".toList ++ over_long_payload first ++ ",0*00".toList =
        "!AIVDM,1,1,,A".toList ++ ',' :: (over_long_payload first ++ ",0*00".toList) := by
      simp
    rw [e]
    exact scan_payload_skip _ _ 0 (by decide)
  rw [hscan]
  apply scan_payload_field
  · exact List.cons_ne_nil _ _
  · intro hmem
    unfold over_long_payload at hmem
    rcases List.mem_cons.1 hmem with h | h
    · exact hf h.symm
    · have := List.eq_of_mem_replicate h
      exact absurd this (by decide)
  · exact Or.inr (by decide)

theorem length_over_long_payload (first : Char) : (over_long_payload first).length = 1000 := by
  unfold over_long_payload
  rw [List.length_cons, List.length_replicate]

/-- An over-long line is a line of the type coded by its first payload
character, with 6000 bits, on which the run of `decode_ais` overflows. -/
theorem over_long_line_facts (first : Char) (hf : first ≠ ',')
    (h0 : 0 ≤ convert_ais_char first) (h64 : convert_ais_char first < 64) :
    get_payload_from_nmea (over_long_line first) = some (over_long_payload first) ∧
      (over_long_payload first).length = 1000 ∧
      (convert_payload_to_binary (over_long_payload first)).length = 6000 ∧
      extract_bits (convert_payload_to_binary (over_long_payload first)) 0 6 =
        convert_ais_char first ∧
      decode_ais_in_buffers (over_long_line first) = none := by
  have hp := get_payload_over_long_line first hf
  have hl := length_over_long_payload first
  refine ⟨hp, hl, by rw [length_convert_payload, hl], ?_, ?_⟩
  · exact extract_bits_first_char first _ h0 h64
  · exact decode_ais_in_buffers_overflow _ _ hp (by rw [hl]; decide)

/-! ## Lemmas on the text field decoder -/

theorem text_char_eq_six_bit_ascii (c : Int) (h0 : 0 ≤ c) (h64 : c < 64) :
    text_char c = six_bit_ascii c := by
  unfold text_char six_bit_ascii
  have hcast : cast_int (if c < 32 then c + 64 else c) = if c < 32 then c + 64 else c := by
    apply cast_int_of_range <;> split <;> omega
  simp only [hcast]
  rw [if_pos]
  constructor <;> split <;> omega

theorem six_bit_ascii_comma (c : Int) (h0 : 0 ≤ c) (h64 : c < 64)
    (h : six_bit_ascii c = ',') : c = 44 := by
  revert h
  interval_cases c <;> decide

/-- One round of the loop of `extract_text`, at round `k` of a bitstream. -/
theorem extract_text_loop_succ (s : List Char) (hs : IsBits s) (start remaining k : Nat) :
    extract_text_loop s start (remaining + 1) k =
      if start + 6 * k + 6 ≤ s.length then
        six_bit_ascii (extract_bits s ((start + 6 * k : Nat) : Int) 6) ::
          extract_text_loop s start remaining ((k + 1 : Nat) : Int)
      else [] := by
  have e : ((start + 6 * k : Nat) : Int) = (start : Int) + (k : Int) * 6 := by
    push_cast; ring
  have e1 : (((k + 1 : Nat) : Int)) = (k : Int) + 1 := by push_cast; rfl
  rw [extract_text_loop, e, e1]
  by_cases hfit : start + 6 * k + 6 ≤ s.length
  · have hr := extract_bits_range s hs ((start : Int) + (k : Int) * 6) 6 (by omega)
      (by norm_num) (by omega)
    have hne : extract_bits s ((start : Int) + (k : Int) * 6) 6 ≠ -1 := by omega
    have h64 : extract_bits s ((start : Int) + (k : Int) * 6) 6 < 64 := by
      have := hr.2; norm_num at this; exact this
    simp only [hne, if_false, hfit, if_true, text_char_eq_six_bit_ascii _ hr.1 h64]
  · have hout := extract_bits_out_of_bounds s ((start : Int) + (k : Int) * 6) 6 (by omega)
    simp only [hout, if_true, hfit, if_false]

theorem extract_text_loop_eq (s : List Char) (hs : IsBits s) (start remaining k : Nat) :
    extract_text_loop s start remaining k =
      (((List.range' k remaining).takeWhile (fun i => start + 6 * i + 6 ≤ s.length)).map
        (fun i => extract_bits s ((start + 6 * i : Nat) : Int) 6)).map six_bit_ascii := by
  induction remaining generalizing k with
  | zero => simp [extract_text_loop]
  | succ remaining ih =>
    rw [extract_text_loop_succ s hs, List.range'_succ, List.takeWhile_cons]
    by_cases hfit : start + 6 * k + 6 ≤ s.length
    · rw [if_pos hfit, if_pos (by simpa using hfit), ih (k + 1)]
      rfl
    · rw [if_neg hfit, if_neg (by simpa using hfit)]
      rfl

theorem extract_text_eq (s : List Char) (hs : IsBits s) (start num_chars : Nat) :
    extract_text s start num_chars =
      ((fitting_codes s start num_chars).map six_bit_ascii).rdropWhile (fun d => d = ' ') := by
  have h := extract_text_loop_eq s hs start num_chars 0
  rw [Nat.cast_zero] at h
  rw [extract_text, Int.toNat_ofNat, h, fitting_codes, List.range_eq_range']

theorem rdropWhile_spaces (l : List Char) :
    ∃ k, l = l.rdropWhile (fun d => d = ' ') ++ List.replicate k ' ' := by
  induction l using List.reverseRecOn with
  | nil => exact ⟨0, rfl⟩
  | append_singleton l a ih =>
    obtain ⟨k, hk⟩ := ih
    by_cases ha : a = ' '
    · refine ⟨k + 1, ?_⟩
      rw [List.rdropWhile_concat_pos _ _ _ (by simpa using ha), List.replicate_succ',
        ← List.append_assoc, ← hk, ha]
    · refine ⟨0, ?_⟩
      rw [List.rdropWhile_concat_neg _ _ _ (by simpa using ha)]
      simp

theorem rdropWhile_spaces_getLast (l : List Char) :
    (l.rdropWhile (fun d => d = ' ')).getLast? ≠ some ' ' := by
  intro h
  have hne : l.rdropWhile (fun d => d = ' ') ≠ [] := by
    intro e; rw [e] at h; cases h
  have hlast := List.rdropWhile_last_not (fun d => decide (d = ' ')) l hne
  rw [List.getLast?_eq_getLast _ hne, Option.some.injEq] at h
  rw [h] at hlast
  exact hlast (by decide)

theorem fitting_codes_range (s : List Char) (hs : IsBits s) (start num_chars : Nat) (c : Int)
    (hc : c ∈ fitting_codes s start num_chars) : 0 ≤ c ∧ c < 64 := by
  unfold fitting_codes at hc
  obtain ⟨i, hi, rfl⟩ := List.mem_map.mp hc
  have hfit : start + 6 * i + 6 ≤ s.length := by simpa using List.mem_takeWhile_imp hi
  have hr := extract_bits_range s hs ((start + 6 * i : Nat) : Int) 6 (by omega)
    (by norm_num) (by push_cast; omega)
  refine ⟨hr.1, ?_⟩
  have := hr.2; norm_num at this; exact this

theorem extract_text_trim (s : List Char) (hs : IsBits s) (start num_chars : Nat) :
    ∃ k, (fitting_codes s start num_chars).map six_bit_ascii =
      extract_text s start num_chars ++ List.replicate k ' ' := by
  rw [extract_text_eq s hs]
  exact rdropWhile_spaces _

/-! ## Lemmas on the dispatch of `decode_ais` -/

theorem decode_by_type_no_layout (b : List Char) (d : AISData)
    (h : d.msg_type = 6 ∨ d.msg_type = 7 ∨ d.msg_type = 8 ∨ d.msg_type = 10 ∨
      d.msg_type = 12 ∨ d.msg_type = 13 ∨ d.msg_type = 14 ∨ d.msg_type = 15 ∨
      d.msg_type = 16 ∨ d.msg_type = 20 ∨ d.msg_type = 22 ∨ d.msg_type = 23 ∨
      d.msg_type = 25 ∨ d.msg_type = 26) :
    decode_by_type b d = d := by
  unfold decode_by_type
  iterate 11 rw [if_neg (by omega)]

/-- What `decode_ais` returns once the payload is extracted, the bitstream has
at least 38 bits and the type is in `[1, 27]`. -/
theorem decode_ais_valid_type (line payload : List Char)
    (hp : get_payload_from_nmea line = some payload)
    (h38 : 38 ≤ (convert_payload_to_binary payload).length)
    (h1 : 1 ≤ extract_bits (convert_payload_to_binary payload) 0 6)
    (h27 : extract_bits (convert_payload_to_binary payload) 0 6 ≤ 27) :
    decode_ais line =
      (1, decode_by_type (convert_payload_to_binary payload)
        { init_ais_data with
          msg_type := extract_bits (convert_payload_to_binary payload) 0 6
          repeat_ind := extract_bits (convert_payload_to_binary payload) 6 2
          mmsi := extract_bits (convert_payload_to_binary payload) 8 30 }) := by
  have hs := isBits_convert_payload payload
  have hrh := read_header_eq _ hs h38 init_ais_data
  rw [decode_ais_some line payload hp (by omega), hrh]
  have hty : ¬ (extract_bits (convert_payload_to_binary payload) 0 6 < 1 ∨
      extract_bits (convert_payload_to_binary payload) 0 6 > 27) := by omega
  rw [if_neg hty]

theorem decode_by_type_static_report (b : List Char) (d : AISData) (h : d.msg_type = 24)
    (hlen : (b.length : Int) ≥ 168) : decode_by_type b d = decode_static_report b d := by
  unfold decode_by_type
  iterate 9 rw [if_neg (by omega)]
  rw [if_pos ⟨h, hlen⟩]

theorem decode_static_report_part_a (b : List Char) (d : AISData)
    (h : cast_int (extract_bits b 38 2) = 0) :
    decode_static_report b d = { d with ship_name := extract_text b 40 20 } := by
  simp only [decode_static_report, h, if_true]

theorem decode_static_report_part_b (b : List Char) (d : AISData)
    (h : cast_int (extract_bits b 38 2) = 1) :
    decode_static_report b d =
      { d with
        ship_type := cast_int (extract_bits b 40 8)
        callsign := extract_text b 90 7
        dim_a := cast_int (extract_bits b 132 9)
        dim_b := cast_int (extract_bits b 141 9)
        dim_c := cast_int (extract_bits b 150 6)
        dim_d := cast_int (extract_bits b 156 6) } := by
  simp only [decode_static_report, h, if_true, one_ne_zero, if_false]

theorem decode_by_type_class_a (b : List Char) (d : AISData)
    (h : 1 ≤ d.msg_type ∧ d.msg_type ≤ 3) (hlen : (b.length : Int) ≥ 168) :
    decode_by_type b d = decode_class_a b d := by
  unfold decode_by_type
  rw [if_pos ⟨h, hlen⟩]

theorem longitude_block_has_position (old : NumText × String × Int) (lon_raw sentinel : Int)
    (divisor : Nat) :
    (longitude_block old lon_raw sentinel divisor).2.2 =
      if lon_raw ≠ sentinel then 1 else old.2.2 := by
  unfold longitude_block
  split <;> rfl

/-- The value of `has_position` after the `if / else if` chain, for a record
that enters it with `has_position = 0`. -/
theorem has_position_decode_by_type (b : List Char) (d : AISData) (h0 : d.has_position = 0) :
    (decode_by_type b d).has_position =
      if (d.msg_type ≥ 1 ∧ d.msg_type ≤ 3) ∧ (b.length : Int) ≥ 168 then
        (if extract_signed_bits b 61 28 ≠ 0x6791AC0 then 1 else 0)
      else if d.msg_type = 4 ∧ (b.length : Int) ≥ 168 then
        (if extract_signed_bits b 79 28 ≠ 0x6791AC0 then 1 else 0)
      else if d.msg_type = 5 ∧ (b.length : Int) ≥ 424 then 0
      else if d.msg_type = 9 ∧ (b.length : Int) ≥ 168 then
        (if extract_signed_bits b 61 28 ≠ 0x6791AC0 then 1 else 0)
      else if d.msg_type = 11 ∧ (b.length : Int) ≥ 168 then
        (if extract_signed_bits b 79 28 ≠ 0x6791AC0 then 1 else 0)
      else if d.msg_type = 17 ∧ (b.length : Int) ≥ 80 then
        (if extract_signed_bits b 40 18 ≠ 0x1A838 then 1 else 0)
      else if d.msg_type = 18 ∧ (b.length : Int) ≥ 168 then
        (if extract_signed_bits b 57 28 ≠ 0x6791AC0 then 1 else 0)
      else if d.msg_type = 19 ∧ (b.length : Int) ≥ 312 then
        (if extract_signed_bits b 57 28 ≠ 0x6791AC0 then 1 else 0)
      else if d.msg_type = 21 ∧ (b.length : Int) ≥ 272 then
        (if extract_signed_bits b 164 28 ≠ 0x6791AC0 then 1 else 0)
      else if d.msg_type = 24 ∧ (b.length : Int) ≥ 168 then 0
      else if d.msg_type = 27 ∧ (b.length : Int) ≥ 96 then
        (if extract_signed_bits b 44 18 ≠ 0x1A838 then 1 else 0)
      else 0 := by
  have ha : (decode_class_a b d).has_position =
      if extract_signed_bits b 61 28 ≠ 0x6791AC0 then 1 else 0 := by
    simp only [decode_class_a, longitude_block_has_position, h0]
  have hb : (decode_base_station b d).has_position =
      if extract_signed_bits b 79 28 ≠ 0x6791AC0 then 1 else 0 := by
    simp only [decode_base_station, longitude_block_has_position, h0]
  have hv : (decode_static_voyage b d).has_position = 0 := by
    simp only [decode_static_voyage, h0]
  have hsar : (decode_sar_aircraft b d).has_position =
      if extract_signed_bits b 61 28 ≠ 0x6791AC0 then 1 else 0 := by
    simp only [decode_sar_aircraft, longitude_block_has_position, h0]
  have hdg : (decode_dgnss b d).has_position =
      if extract_signed_bits b 40 18 ≠ 0x1A838 then 1 else 0 := by
    simp only [decode_dgnss, longitude_block_has_position, h0]
  have hcb : (decode_class_b b d).has_position =
      if extract_signed_bits b 57 28 ≠ 0x6791AC0 then 1 else 0 := by
    simp only [decode_class_b, longitude_block_has_position, h0]
  have hcbe : (decode_class_b_extended b d).has_position =
      if extract_signed_bits b 57 28 ≠ 0x6791AC0 then 1 else 0 := by
    simp only [decode_class_b_extended, longitude_block_has_position, h0]
  have haton : (decode_aid_to_navigation b d).has_position =
      if extract_signed_bits b 164 28 ≠ 0x6791AC0 then 1 else 0 := by
    simp only [decode_aid_to_navigation, longitude_block_has_position, h0]
  have hsr : (decode_static_report b d).has_position = 0 := by
    simp only [decode_static_report, apply_ite AISData.has_position, h0, ite_self]
  have hlr : (decode_long_range b d).has_position =
      if extract_signed_bits b 44 18 ≠ 0x1A838 then 1 else 0 := by
    simp only [decode_long_range, longitude_block_has_position, h0]
  simp only [decode_by_type, apply_ite AISData.has_position, ha, hb, hv, hsar, hdg, hcb, hcbe,
    haton, hsr, hlr, h0]

theorem flag_eq_one_iff (c : Prop) [Decidable c] : (if c then (1 : Int) else 0) = 1 ↔ c := by
  by_cases h : c
  · simp [h]
  · simp [h]

/-- The value computed by the chain of position blocks is 1 exactly for a
position layout that is entered with a longitude other than the sentinel. -/
theorem has_position_cases (t r1 r2 r3 r4 r5 r6 n : Int) :
    ((if (t ≥ 1 ∧ t ≤ 3) ∧ n ≥ 168 then (if r1 ≠ 0x6791AC0 then 1 else 0)
      else if t = 4 ∧ n ≥ 168 then (if r2 ≠ 0x6791AC0 then 1 else 0)
      else if t = 5 ∧ n ≥ 424 then 0
      else if t = 9 ∧ n ≥ 168 then (if r1 ≠ 0x6791AC0 then 1 else 0)
      else if t = 11 ∧ n ≥ 168 then (if r2 ≠ 0x6791AC0 then 1 else 0)
      else if t = 17 ∧ n ≥ 80 then (if r5 ≠ 0x1A838 then 1 else 0)
      else if t = 18 ∧ n ≥ 168 then (if r3 ≠ 0x6791AC0 then 1 else 0)
      else if t = 19 ∧ n ≥ 312 then (if r3 ≠ 0x6791AC0 then 1 else 0)
      else if t = 21 ∧ n ≥ 272 then (if r4 ≠ 0x6791AC0 then 1 else 0)
      else if t = 24 ∧ n ≥ 168 then 0
      else if t = 27 ∧ n ≥ 96 then (if r6 ≠ 0x1A838 then 1 else 0)
      else (0 : Int)) = 1 ↔
      ((((1 ≤ t ∧ t ≤ 3) ∨ t = 9) ∧ 168 ≤ n ∧ r1 ≠ 0x6791AC0) ∨
        ((t = 4 ∨ t = 11) ∧ 168 ≤ n ∧ r2 ≠ 0x6791AC0) ∨
        (t = 18 ∧ 168 ≤ n ∧ r3 ≠ 0x6791AC0) ∨
        (t = 19 ∧ 312 ≤ n ∧ r3 ≠ 0x6791AC0) ∨
        (t = 21 ∧ 272 ≤ n ∧ r4 ≠ 0x6791AC0) ∨
        (t = 17 ∧ 80 ≤ n ∧ r5 ≠ 0x1A838) ∨
        (t = 27 ∧ 96 ≤ n ∧ r6 ≠ 0x1A838))) := by
  constructor
  · intro h
    by_cases g1 : (t ≥ 1 ∧ t ≤ 3) ∧ n ≥ 168
    · rw [if_pos g1, flag_eq_one_iff] at h
      exact Or.inl ⟨Or.inl g1.1, g1.2, h⟩
    rw [if_neg g1] at h
    by_cases g2 : t = 4 ∧ n ≥ 168
    · rw [if_pos g2, flag_eq_one_iff] at h
      exact Or.inr (Or.inl ⟨Or.inl g2.1, g2.2, h⟩)
    rw [if_neg g2] at h
    by_cases g3 : t = 5 ∧ n ≥ 424
    · rw [if_pos g3] at h; exact absurd h (by decide)
    rw [if_neg g3] at h
    by_cases g4 : t = 9 ∧ n ≥ 168
    · rw [if_pos g4, flag_eq_one_iff] at h
      exact Or.inl ⟨Or.inr g4.1, g4.2, h⟩
    rw [if_neg g4] at h
    by_cases g5 : t = 11 ∧ n ≥ 168
    · rw [if_pos g5, flag_eq_one_iff] at h
      exact Or.inr (Or.inl ⟨Or.inr g5.1, g5.2, h⟩)
    rw [if_neg g5] at h
    by_cases g6 : t = 17 ∧ n ≥ 80
    · rw [if_pos g6, flag_eq_one_iff] at h
      exact Or.inr (Or.inr (Or.inr (Or.inr (Or.inr (Or.inl ⟨g6.1, g6.2, h⟩)))))
    rw [if_neg g6] at h
    by_cases g7 : t = 18 ∧ n ≥ 168
    · rw [if_pos g7, flag_eq_one_iff] at h
      exact Or.inr (Or.inr (Or.inl ⟨g7.1, g7.2, h⟩))
    rw [if_neg g7] at h
    by_cases g8 : t = 19 ∧ n ≥ 312
    · rw [if_pos g8, flag_eq_one_iff] at h
      exact Or.inr (Or.inr (Or.inr (Or.inl ⟨g8.1, g8.2, h⟩)))
    rw [if_neg g8] at h
    by_cases g9 : t = 21 ∧ n ≥ 272
    · rw [if_pos g9, flag_eq_one_iff] at h
      exact Or.inr (Or.inr (Or.inr (Or.inr (Or.inl ⟨g9.1, g9.2, h⟩))))
    rw [if_neg g9] at h
    by_cases g10 : t = 24 ∧ n ≥ 168
    · rw [if_pos g10] at h; exact absurd h (by decide)
    rw [if_neg g10] at h
    by_cases g11 : t = 27 ∧ n ≥ 96
    · rw [if_pos g11, flag_eq_one_iff] at h
      exact Or.inr (Or.inr (Or.inr (Or.inr (Or.inr (Or.inr ⟨g11.1, g11.2, h⟩)))))
    rw [if_neg g11] at h
    exact absurd h (by decide)
  · rintro (⟨ht | ht, hn, c⟩ | ⟨ht | ht, hn, c⟩ | ⟨ht, hn, c⟩ | ⟨ht, hn, c⟩ | ⟨ht, hn, c⟩ |
      ⟨ht, hn, c⟩ | ⟨ht, hn, c⟩)
    · rw [if_pos ⟨ht, hn⟩, if_pos c]
    · iterate 3 rw [if_neg (fun g => by omega)]
      rw [if_pos ⟨ht, hn⟩, if_pos c]
    · iterate 1 rw [if_neg (fun g => by omega)]
      rw [if_pos ⟨ht, hn⟩, if_pos c]
    · iterate 4 rw [if_neg (fun g => by omega)]
      rw [if_pos ⟨ht, hn⟩, if_pos c]
    · iterate 6 rw [if_neg (fun g => by omega)]
      rw [if_pos ⟨ht, hn⟩, if_pos c]
    · iterate 7 rw [if_neg (fun g => by omega)]
      rw [if_pos ⟨ht, hn⟩, if_pos c]
    · iterate 8 rw [if_neg (fun g => by omega)]
      rw [if_pos ⟨ht, hn⟩, if_pos c]
    · iterate 5 rw [if_neg (fun g => by omega)]
      rw [if_pos ⟨ht, hn⟩, if_pos c]
    · iterate 10 rw [if_neg (fun g => by omega)]
      rw [if_pos ⟨ht, hn⟩, if_pos c]

theorem zero_or_one_ite (c : Prop) [Decidable c] (a b : Int) (ha : a = 0 ∨ a = 1)
    (hb : b = 0 ∨ b = 1) : (if c then a else b) = 0 ∨ (if c then a else b) = 1 := by
  by_cases h : c
  · rw [if_pos h]; exact ha
  · rw [if_neg h]; exact hb

theorem has_position_flag (t r1 r2 r3 r4 r5 r6 n : Int) :
    (fun v : Int => v = 0 ∨ v = 1)
      (if (t ≥ 1 ∧ t ≤ 3) ∧ n ≥ 168 then (if r1 ≠ 0x6791AC0 then 1 else 0)
      else if t = 4 ∧ n ≥ 168 then (if r2 ≠ 0x6791AC0 then 1 else 0)
      else if t = 5 ∧ n ≥ 424 then 0
      else if t = 9 ∧ n ≥ 168 then (if r1 ≠ 0x6791AC0 then 1 else 0)
      else if t = 11 ∧ n ≥ 168 then (if r2 ≠ 0x6791AC0 then 1 else 0)
      else if t = 17 ∧ n ≥ 80 then (if r5 ≠ 0x1A838 then 1 else 0)
      else if t = 18 ∧ n ≥ 168 then (if r3 ≠ 0x6791AC0 then 1 else 0)
      else if t = 19 ∧ n ≥ 312 then (if r3 ≠ 0x6791AC0 then 1 else 0)
      else if t = 21 ∧ n ≥ 272 then (if r4 ≠ 0x6791AC0 then 1 else 0)
      else if t = 24 ∧ n ≥ 168 then 0
      else if t = 27 ∧ n ≥ 96 then (if r6 ≠ 0x1A838 then 1 else 0)
      else (0 : Int)) := by
  show _ ∨ _
  repeat' apply zero_or_one_ite
  all_goals first | exact Or.inl rfl | exact Or.inr rfl

/-! ## Claims on the signed reader and the text decoder -/

/-- In-bounds form of `extract_signed_bits` with natural-number arguments. -/
theorem extract_signed_bits_in_bounds (s : List Char) (hs : IsBits s) (start length : Nat)
    (h1 : 1 ≤ length) (hfit : start + length ≤ s.length) :
    extract_signed_bits s start length =
      if extract_bits s start length ≥ 2 ^ (length - 1)
        then extract_bits s start length - 2 ^ length else extract_bits s start length := by
  obtain ⟨-, u0, -⟩ := extract_bits_window s hs start length hfit
  have hne : extract_bits s start length ≠ -1 := by omega
  have hexp : ((length : Int) - 1).toNat = length - 1 := by omega
  simp only [extract_signed_bits, hne, if_false, hexp, Int.toNat_ofNat]

theorem extract_signed_bits_out_of_bounds (s : List Char) (start length : Int)
    (h : start + length > (s.length : Int)) : extract_signed_bits s start length = -1 := by
  simp only [extract_signed_bits, extract_bits_out_of_bounds s start length h, if_true]

/-- C11, as the code has it: on a bitstream, for `start ≥ 0` and
`1 ≤ length ≤ 62`, `extract_signed_bits` returns the failure value `-1` whenever
`start + length` exceeds the stream length; for an in-bounds window it returns
`-1` exactly when every bit of the window is 1 (the unsigned reading is
`2 ^ length - 1`, whose two's-complement value is `-1`), so the value `-1` does
not tell a failed read from a successful one. -/
theorem extract_signed_bits_failure_value (s : List Char) (hs : IsBits s)
    (start length : Nat) (h1 : 1 ≤ length) (_h62 : length ≤ 62) :
    (start + length > s.length → extract_signed_bits s start length = -1) ∧
      (start + length ≤ s.length →
        (extract_signed_bits s start length = -1 ↔
          extract_bits s start length = 2 ^ length - 1)) := by
  constructor
  · intro h
    apply extract_signed_bits_out_of_bounds
    have : ((s.length : Nat) : Int) < ((start + length : Nat) : Int) := by exact_mod_cast h
    push_cast at this; omega
  · intro hfit
    obtain ⟨-, u0, u1⟩ := extract_bits_window s hs start length hfit
    have hpow : (2 : Int) ^ length = 2 * 2 ^ (length - 1) := by
      rw [← pow_succ']; congr 1; omega
    have hpos : (0 : Int) < 2 ^ (length - 1) := by positivity
    rw [extract_signed_bits_in_bounds s hs start length h1 hfit]
    split <;> constructor <;> intro h <;> omega

theorem extract_signed_bits_failure_value_witness :
    (0 + 8 > ['1', '1', '1', '1', '1', '1', '1', '1'].length →
        extract_signed_bits ['1', '1', '1', '1', '1', '1', '1', '1'] (0 : Nat) (8 : Nat) = -1) ∧
      (0 + 8 ≤ ['1', '1', '1', '1', '1', '1', '1', '1'].length →
        (extract_signed_bits ['1', '1', '1', '1', '1', '1', '1', '1'] (0 : Nat) (8 : Nat) = -1 ↔
          extract_bits ['1', '1', '1', '1', '1', '1', '1', '1'] (0 : Nat) (8 : Nat) =
            2 ^ 8 - 1)) :=
  extract_signed_bits_failure_value ['1', '1', '1', '1', '1', '1', '1', '1'] (by decide) 0 8
    (by decide) (by decide)

/-- C11 as stated fails: the window `[0:8]` of the 8-bit stream `11111111` is
in bounds (`0 + 8 ≤ 8`) and `extract_signed_bits` returns `-1` on it, the same
value it returns for a window that does not fit. -/
theorem extract_signed_bits_all_ones_counterexample :
    IsBits ['1', '1', '1', '1', '1', '1', '1', '1'] ∧
      ¬ (0 + 8 > ['1', '1', '1', '1', '1', '1', '1', '1'].length) ∧
      extract_signed_bits ['1', '1', '1', '1', '1', '1', '1', '1'] 0 8 = -1 ∧
      extract_signed_bits ['1', '1', '1', '1', '1', '1', '1', '1'] 1 8 = -1 := by
  decide

/-- C12: on a bitstream, for `start ≥ 0` and `num_chars ≥ 0`, `extract_text`
returns this string: take the longest prefix of the `num_chars` consecutive
6-bit codes at `start`, `start + 6`, ... whose windows all fit in the stream
(`fitting_codes`), map each code `c` to the character `c + 64` when `c < 32` and
to the character `c` otherwise (`six_bit_ascii`; code 0 becomes `'@'`, code 32 a
space), then remove the trailing spaces and nothing else: the mapped string is
the result followed by spaces only, and the result does not end in a space.
Interior spaces are kept (codes mapping to `AB  CD   ` give `AB  CD`), and
all-space or empty input gives the empty string. -/
theorem extract_text_decodes_and_trims :
    (∀ (s : List Char), IsBits s → ∀ start num_chars : Nat,
      (∃ k, (fitting_codes s start num_chars).map six_bit_ascii =
        extract_text s start num_chars ++ List.replicate k ' ') ∧
      (extract_text s start num_chars).getLast? ≠ some ' ') ∧
    six_bit_ascii 0 = '@' ∧ six_bit_ascii 32 = ' ' ∧
    (fitting_codes "000001000010100000100000000011000100100000100000100000".toList 0 9).map
        six_bit_ascii = "AB  CD   ".toList ∧
    extract_text "000001000010100000100000000011000100100000100000100000".toList 0 9 =
      "AB  CD".toList ∧
    extract_text "100000100000100000".toList 0 3 = [] ∧
    (∀ (s : List Char) (start : Nat), extract_text s start 0 = []) ∧
    (∀ start num_chars : Nat, extract_text [] start num_chars = []) := by
  refine ⟨fun s hs start num_chars => ⟨extract_text_trim s hs start num_chars, ?_⟩,
    by decide, by decide, by decide, by decide, by decide, fun s start => rfl,
    fun start num_chars => ?_⟩
  · rw [extract_text_eq s hs]
    exact rdropWhile_spaces_getLast _
  · rw [extract_text_eq [] (by decide)]
    cases num_chars with
    | zero => rfl
    | succ n => simp [fitting_codes, List.range_succ_eq_map, List.takeWhile_cons]

theorem extract_text_decodes_and_trims_witness :
    (∃ k, (fitting_codes "000001100000000010100000".toList 0 4).map six_bit_ascii =
        extract_text "000001100000000010100000".toList 0 4 ++ List.replicate k ' ') ∧
      (extract_text "000001100000000010100000".toList 0 4).getLast? ≠ some ' ' :=
  extract_text_decodes_and_trims.1 "000001100000000010100000".toList (by decide) 0 4

/-- C13, as the code has it: on a bitstream, the text returned by `extract_text`
contains a comma exactly when one of the 6-bit codes it decodes is 44 (binary
`101100`, the six-bit code of `','`); a text field decoded from codes other
than 44 contains no comma. -/
theorem extract_text_comma_iff (s : List Char) (hs : IsBits s) (start num_chars : Nat) :
    ',' ∈ extract_text s start num_chars ↔ (44 : Int) ∈ fitting_codes s start num_chars := by
  obtain ⟨k, hk⟩ := extract_text_trim s hs start num_chars
  constructor
  · intro h
    have hm : ',' ∈ (fitting_codes s start num_chars).map six_bit_ascii := by
      rw [hk]; exact List.mem_append_left _ h
    obtain ⟨c, hc, hcc⟩ := List.mem_map.mp hm
    obtain ⟨c0, c64⟩ := fitting_codes_range s hs start num_chars c hc
    rw [← six_bit_ascii_comma c c0 c64 hcc]
    exact hc
  · intro h
    have hm : ',' ∈ (fitting_codes s start num_chars).map six_bit_ascii :=
      List.mem_map.mpr ⟨44, h, by decide⟩
    rw [hk] at hm
    rcases List.mem_append.mp hm with h1 | h2
    · exact h1
    · exact absurd (List.eq_of_mem_replicate h2) (by decide)

theorem extract_text_comma_iff_witness :
    ',' ∈ extract_text "000001101100000010".toList (0 : Nat) (3 : Nat) ↔
      (44 : Int) ∈ fitting_codes "000001101100000010".toList 0 3 :=
  extract_text_comma_iff "000001101100000010".toList (by decide) 0 3

/-- C13 as stated fails: the 18-bit stream `000001 101100 000010` (codes 1, 44,
2) is a bitstream and `extract_text` decodes it to `A,B`, which contains a
comma. -/
theorem extract_text_comma_counterexample :
    IsBits "000001101100000010".toList ∧
      extract_text "000001101100000010".toList 0 3 = "A,B".toList ∧
      ',' ∈ extract_text "000001101100000010".toList 0 3 := by
  decide

/-! ## Claims on the layouts of `decode_ais` -/

theorem longitude_block_values (raw sentinel : Int) (divisor : Nat) :
    longitude_block (init_ais_data.longitude, init_ais_data.lon_hem, init_ais_data.has_position)
        raw sentinel divisor =
      if raw ≠ sentinel then (.abs7 raw divisor, if raw ≥ 0 then "E" else "W", 1)
      else (.lit "0", "E", 0) := by
  unfold longitude_block format_lat_lon
  by_cases h : raw ≠ sentinel
  · rw [if_pos h, if_pos h]; rfl
  · rw [if_neg h, if_neg h]; rfl

theorem latitude_block_values (raw sentinel : Int) (divisor : Nat) :
    latitude_block (init_ais_data.latitude, init_ais_data.lat_hem) raw sentinel divisor =
      if raw ≠ sentinel then (.abs7 raw divisor, if raw ≥ 0 then "N" else "S")
      else (.lit "0", "N") := by
  unfold latitude_block format_lat_lon
  by_cases h : raw ≠ sentinel
  · rw [if_pos h, if_pos h]; rfl
  · rw [if_neg h, if_neg h]; rfl

/-- C14, as amended: for every line whose payload fits the array `payload` of
`decode_ais` (fewer than `MAX_PAYLOAD_LENGTH` = 256 characters), whose message
type is 1, 2 or 3 and whose bitstream has at least 168 bits, the run of
`decode_ais` returns, with success, and the record has `nav_status` = unsigned
bits `[38:4]`, `pos_accuracy` = bit `[60:1]`, `heading` = bits `[128:9]`,
`utc_sec` = min(bits `[137:6]`, 60), `raim` = bit `[148:1]`, `sync` = bits
`[149:2]`, `slot` = bits `[151:3]`. Rate of turn, speed, longitude, latitude and
course are derived from the windows `r = [42:8 signed]`, `s = [50:10]`,
`lon = [61:28 signed]`, `lat = [89:27 signed]` and `c = [116:12]`: `rot` is the
literal `"-128.0"`, `"-720.0"`, `"+127.0"`, `"+0.0"` for `r` = -128, -127, 127,
0 and otherwise `sprintf("+%.1f", pow(r / 4.733, 2))` for `r > 0` and
`sprintf("-%.1f", pow(fabs(r) / 4.733, 2))` for `r < 0`; `sog` is `"0.0"` for
`s = 1023` and otherwise `sprintf("%.1f", s / 10.0)`; `cog` is `"360.0"` for
`c ≥ 3600` and otherwise `sprintf("%.1f", c / 10.0)`; when `lon` differs from
`0x6791AC0`, `longitude` is `sprintf("%.7f", fabs(lon / 600000.0))`, `lon_hem` is
`"E"` for `lon ≥ 0` and `"W"` otherwise, and `has_position` is 1, otherwise the
three keep their defaults `"0"`, `"E"`, 0; when `lat` differs from `0x3412140`,
`latitude` is `sprintf("%.7f", fabs(lat / 600000.0))` and `lat_hem` is `"N"` for
`lat ≥ 0` and `"S"` otherwise, otherwise the two keep their defaults `"0"`,
`"N"`. -/
theorem decode_ais_class_a (line payload : List Char)
    (hp : get_payload_from_nmea line = some payload)
    (hcap : payload.length < MAX_PAYLOAD_LENGTH)
    (h168 : 168 ≤ (convert_payload_to_binary payload).length)
    (hty : 1 ≤ extract_bits (convert_payload_to_binary payload) 0 6 ∧
      extract_bits (convert_payload_to_binary payload) 0 6 ≤ 3) :
    decode_ais_in_buffers line = some (decode_ais line) ∧
      (decode_ais line).1 = 1 ∧
      (decode_ais line).2.nav_status = extract_bits (convert_payload_to_binary payload) 38 4 ∧
      (decode_ais line).2.pos_accuracy = extract_bits (convert_payload_to_binary payload) 60 1 ∧
      (decode_ais line).2.heading = extract_bits (convert_payload_to_binary payload) 128 9 ∧
      (decode_ais line).2.utc_sec =
        min (extract_bits (convert_payload_to_binary payload) 137 6) 60 ∧
      (decode_ais line).2.raim = extract_bits (convert_payload_to_binary payload) 148 1 ∧
      (decode_ais line).2.sync = extract_bits (convert_payload_to_binary payload) 149 2 ∧
      (decode_ais line).2.slot = extract_bits (convert_payload_to_binary payload) 151 3 ∧
      (decode_ais line).2.rot =
        (if extract_signed_bits (convert_payload_to_binary payload) 42 8 = -128 then
          .lit "-128.0"
        else if extract_signed_bits (convert_payload_to_binary payload) 42 8 = -127 then
          .lit "-720.0"
        else if extract_signed_bits (convert_payload_to_binary payload) 42 8 = 127 then
          .lit "+127.0"
        else if extract_signed_bits (convert_payload_to_binary payload) 42 8 = 0 then
          .lit "+0.0"
        else if extract_signed_bits (convert_payload_to_binary payload) 42 8 > 0 then
          .rot_plus (extract_signed_bits (convert_payload_to_binary payload) 42 8)
        else .rot_minus (extract_signed_bits (convert_payload_to_binary payload) 42 8)) ∧
      (decode_ais line).2.sog =
        (if extract_bits (convert_payload_to_binary payload) 50 10 = 1023 then .lit "0.0"
        else .fixed1 (extract_bits (convert_payload_to_binary payload) 50 10) 10) ∧
      ((decode_ais line).2.longitude, (decode_ais line).2.lon_hem,
          (decode_ais line).2.has_position) =
        (if extract_signed_bits (convert_payload_to_binary payload) 61 28 ≠ 0x6791AC0 then
          (.abs7 (extract_signed_bits (convert_payload_to_binary payload) 61 28) 600000,
            if extract_signed_bits (convert_payload_to_binary payload) 61 28 ≥ 0 then "E"
            else "W", 1)
        else (.lit "0", "E", 0)) ∧
      ((decode_ais line).2.latitude, (decode_ais line).2.lat_hem) =
        (if extract_signed_bits (convert_payload_to_binary payload) 89 27 ≠ 0x3412140 then
          (.abs7 (extract_signed_bits (convert_payload_to_binary payload) 89 27) 600000,
            if extract_signed_bits (convert_payload_to_binary payload) 89 27 ≥ 0 then "N"
            else "S")
        else (.lit "0", "N")) ∧
      (decode_ais line).2.cog =
        (if extract_bits (convert_payload_to_binary payload) 116 12 ≥ 3600 then .lit "360.0"
        else .fixed1 (extract_bits (convert_payload_to_binary payload) 116 12) 10) := by
  refine ⟨decode_ais_in_buffers_fits line payload hp hcap, ?_⟩
  have hs := isBits_convert_payload payload
  have hl : (168 : Int) ≤ ((convert_payload_to_binary payload).length : Int) := by
    exact_mod_cast h168
  have hc : ∀ a n : Int, 0 ≤ a → 0 ≤ n → n ≤ 31 → a + n ≤ 168 →
      cast_int (extract_bits (convert_payload_to_binary payload) a n) =
        extract_bits (convert_payload_to_binary payload) a n :=
    fun a n ha hn hn31 hfit => cast_int_extract_bits _ hs a n ha hn hn31 (by omega)
  rw [decode_ais_valid_type line payload hp (by omega) (by omega) (by omega),
    decode_by_type_class_a _ _ hty hl]
  simp only [decode_class_a]
  rw [hc 38 4 (by norm_num) (by norm_num) (by norm_num) (by norm_num),
    hc 60 1 (by norm_num) (by norm_num) (by norm_num) (by norm_num),
    hc 128 9 (by norm_num) (by norm_num) (by norm_num) (by norm_num),
    hc 137 6 (by norm_num) (by norm_num) (by norm_num) (by norm_num),
    hc 148 1 (by norm_num) (by norm_num) (by norm_num) (by norm_num),
    hc 149 2 (by norm_num) (by norm_num) (by norm_num) (by norm_num),
    hc 151 3 (by norm_num) (by norm_num) (by norm_num) (by norm_num)]
  refine ⟨trivial, rfl, rfl, ?_, ?_, rfl, rfl, rfl, rfl, rfl, ?_, ?_, rfl⟩
  · split <;> simp_all
  · rw [min_def]; split <;> split <;> omega
  · rw [← longitude_block_values]
  · rw [← latitude_block_values]

theorem decode_ais_class_a_witness :
    decode_ais_in_buffers "!AIVDM,1,1,,A,38IFDN0Ohj7JvbN0fABtpbJ401w@,0*69".toList =
        some (decode_ais "!AIVDM,1,1,,A,38IFDN0Ohj7JvbN0fABtpbJ401w@,0*69".toList) ∧
      (decode_ais "!AIVDM,1,1,,A,38IFDN0Ohj7JvbN0fABtpbJ401w@,0*69".toList).1 = 1 ∧
      (decode_ais "!AIVDM,1,1,,A,38IFDN0Ohj7JvbN0fABtpbJ401w@,0*69".toList).2.nav_status =
        extract_bits (convert_payload_to_binary "38IFDN0Ohj7JvbN0fABtpbJ401w@".toList) 38 4 ∧
      (decode_ais "!AIVDM,1,1,,A,38IFDN0Ohj7JvbN0fABtpbJ401w@,0*69".toList).2.pos_accuracy =
        extract_bits (convert_payload_to_binary "38IFDN0Ohj7JvbN0fABtpbJ401w@".toList) 60 1 := by
  have h := decode_ais_class_a "!AIVDM,1,1,,A,38IFDN0Ohj7JvbN0fABtpbJ401w@,0*69".toList
    "38IFDN0Ohj7JvbN0fABtpbJ401w@".toList (by decide) (by decide)
    (by set_option maxRecDepth 100000 in decide) (by set_option maxRecDepth 100000 in decide)
  exact ⟨h.1, h.2.1, h.2.2.1, h.2.2.2.1⟩

/-- C14 fails as worded: the line `!AIVDM,1,1,,A,1000...0,0*00` whose payload is
`'1'` followed by 999 times `'0'` is a type 1 line with 6000 bits, and the run
of `decode_ais` does not return success on it: copying the 1000 payload
characters into `payload[256]` writes past the end of the array. -/
theorem decode_ais_class_a_capacity_counterexample :
    get_payload_from_nmea (over_long_line '1') = some (over_long_payload '1') ∧
      (over_long_payload '1').length = 1000 ∧
      (convert_payload_to_binary (over_long_payload '1')).length = 6000 ∧
      extract_bits (convert_payload_to_binary (over_long_payload '1')) 0 6 = 1 ∧
      decode_ais_in_buffers (over_long_line '1') = none := by
  have h := over_long_line_facts '1' (by decide) (by decide) (by decide)
  rw [show convert_ais_char '1' = 1 from by decide] at h
  exact h

/-- C15, as amended: for every line whose payload fits the array `payload` of
`decode_ais` (fewer than `MAX_PAYLOAD_LENGTH` = 256 characters), whose bitstream
has at least 38 bits and whose message type is one of 6, 7, 8, 10, 12, 13, 14,
15, 16, 20, 22, 23, 25, 26, the run of `decode_ais` returns, with success, and
every field of the record other than `msg_type`, `repeat_ind` and `mmsi` has
the value set by `init_ais_data`. -/
theorem decode_ais_no_layout (line payload : List Char)
    (hp : get_payload_from_nmea line = some payload)
    (hcap : payload.length < MAX_PAYLOAD_LENGTH)
    (h38 : 38 ≤ (convert_payload_to_binary payload).length)
    (hty : extract_bits (convert_payload_to_binary payload) 0 6 ∈
      ([6, 7, 8, 10, 12, 13, 14, 15, 16, 20, 22, 23, 25, 26] : List Int)) :
    decode_ais_in_buffers line = some (decode_ais line) ∧
      decode_ais line =
      (1, { init_ais_data with
            msg_type := extract_bits (convert_payload_to_binary payload) 0 6
            repeat_ind := extract_bits (convert_payload_to_binary payload) 6 2
            mmsi := extract_bits (convert_payload_to_binary payload) 8 30 }) ∧
      init_ais_data.nav_status = -1 ∧ init_ais_data.heading = 511 ∧
      init_ais_data.utc_sec = 60 ∧ init_ais_data.sog = .lit "0.0" ∧
      init_ais_data.cog = .lit "0.0" ∧ init_ais_data.has_position = 0 ∧
      init_ais_data.ship_name = [] ∧ init_ais_data.callsign = [] ∧
      init_ais_data.destination = [] ∧ init_ais_data.name_extension = [] := by
  refine ⟨decode_ais_in_buffers_fits line payload hp hcap, ?_, rfl, rfl, rfl, rfl, rfl, rfl, rfl,
    rfl, rfl, rfl⟩
  simp only [List.mem_cons, List.mem_singleton, List.not_mem_nil, or_false] at hty
  rw [decode_ais_valid_type line payload hp h38 (by omega) (by omega),
    decode_by_type_no_layout]
  dsimp only
  omega

theorem decode_ais_no_layout_witness :
    decode_ais_in_buffers "!AIVDM,1,1,,A,85M67F@,0*00".toList =
        some (decode_ais "!AIVDM,1,1,,A,85M67F@,0*00".toList) ∧
      decode_ais "!AIVDM,1,1,,A,85M67F@,0*00".toList =
      (1, { init_ais_data with
            msg_type := extract_bits (convert_payload_to_binary "85M67F@".toList) 0 6
            repeat_ind := extract_bits (convert_payload_to_binary "85M67F@".toList) 6 2
            mmsi := extract_bits (convert_payload_to_binary "85M67F@".toList) 8 30 }) ∧
      init_ais_data.nav_status = -1 ∧ init_ais_data.heading = 511 ∧
      init_ais_data.utc_sec = 60 ∧ init_ais_data.sog = .lit "0.0" ∧
      init_ais_data.cog = .lit "0.0" ∧ init_ais_data.has_position = 0 ∧
      init_ais_data.ship_name = [] ∧ init_ais_data.callsign = [] ∧
      init_ais_data.destination = [] ∧ init_ais_data.name_extension = [] :=
  decode_ais_no_layout "!AIVDM,1,1,,A,85M67F@,0*00".toList "85M67F@".toList
    (by decide) (by decide) (by decide) (by decide)

/-- C15 fails as worded: the line `!AIVDM,1,1,,A,6000...0,0*00` whose payload is
`'6'` followed by 999 times `'0'` is a type 6 line with 6000 bits, and the run
of `decode_ais` does not return success on it: copying the 1000 payload
characters into `payload[256]` writes past the end of the array. -/
theorem decode_ais_no_layout_capacity_counterexample :
    get_payload_from_nmea (over_long_line '6') = some (over_long_payload '6') ∧
      (over_long_payload '6').length = 1000 ∧
      (convert_payload_to_binary (over_long_payload '6')).length = 6000 ∧
      extract_bits (convert_payload_to_binary (over_long_payload '6')) 0 6 = 6 ∧
      decode_ais_in_buffers (over_long_line '6') = none := by
  have h := over_long_line_facts '6' (by decide) (by decide) (by decide)
  rw [show convert_ais_char '6' = 6 from by decide] at h
  exact h

/-- C16, as amended: for every type-24 line whose payload fits the array
`payload` of `decode_ais` (fewer than `MAX_PAYLOAD_LENGTH` = 256 characters) and
whose bitstream has at least 168 bits, the run of `decode_ais` returns, with
success; when the part number (unsigned bits `[38:2]`) is 0 it sets `ship_name`
from the text window `[40:20 chars]` and leaves `ship_type`, `callsign` and
`dim_a..dim_d` at their defaults (0, empty, 0); when the part number is 1 it
sets `ship_type` = bits `[40:8]`, `callsign` = text `[90:7 chars]`,
`dim_a..dim_d` = bits `[132:9]`, `[141:9]`, `[150:6]`, `[156:6]` and leaves
`ship_name` empty. -/
theorem decode_ais_static_report (line payload : List Char)
    (hp : get_payload_from_nmea line = some payload)
    (hcap : payload.length < MAX_PAYLOAD_LENGTH)
    (h168 : 168 ≤ (convert_payload_to_binary payload).length)
    (hty : extract_bits (convert_payload_to_binary payload) 0 6 = 24) :
    decode_ais_in_buffers line = some (decode_ais line) ∧
      (decode_ais line).1 = 1 ∧
      (extract_bits (convert_payload_to_binary payload) 38 2 = 0 →
        (decode_ais line).2.ship_name =
            extract_text (convert_payload_to_binary payload) 40 20 ∧
          (decode_ais line).2.ship_type = 0 ∧ (decode_ais line).2.callsign = [] ∧
          (decode_ais line).2.dim_a = 0 ∧ (decode_ais line).2.dim_b = 0 ∧
          (decode_ais line).2.dim_c = 0 ∧ (decode_ais line).2.dim_d = 0) ∧
      (extract_bits (convert_payload_to_binary payload) 38 2 = 1 →
        (decode_ais line).2.ship_type = extract_bits (convert_payload_to_binary payload) 40 8 ∧
          (decode_ais line).2.callsign =
            extract_text (convert_payload_to_binary payload) 90 7 ∧
          (decode_ais line).2.dim_a = extract_bits (convert_payload_to_binary payload) 132 9 ∧
          (decode_ais line).2.dim_b = extract_bits (convert_payload_to_binary payload) 141 9 ∧
          (decode_ais line).2.dim_c = extract_bits (convert_payload_to_binary payload) 150 6 ∧
          (decode_ais line).2.dim_d = extract_bits (convert_payload_to_binary payload) 156 6 ∧
          (decode_ais line).2.ship_name = []) := by
  refine ⟨decode_ais_in_buffers_fits line payload hp hcap, ?_⟩
  have hs := isBits_convert_payload payload
  have hl : (168 : Int) ≤ ((convert_payload_to_binary payload).length : Int) := by
    exact_mod_cast h168
  have hc : ∀ a n : Int, 0 ≤ a → 0 ≤ n → n ≤ 31 → a + n ≤ 168 →
      cast_int (extract_bits (convert_payload_to_binary payload) a n) =
        extract_bits (convert_payload_to_binary payload) a n :=
    fun a n ha hn hn31 hfit => cast_int_extract_bits _ hs a n ha hn hn31 (by omega)
  rw [decode_ais_valid_type line payload hp (by omega) (by omega) (by omega),
    decode_by_type_static_report _ _ hty hl]
  refine ⟨rfl, fun h0 => ?_, fun h1 => ?_⟩
  · rw [decode_static_report_part_a _ _ (by rw [hc 38 2 (by norm_num) (by norm_num)
      (by norm_num) (by norm_num), h0])]
    exact ⟨rfl, rfl, rfl, rfl, rfl, rfl, rfl⟩
  · rw [decode_static_report_part_b _ _ (by rw [hc 38 2 (by norm_num) (by norm_num)
      (by norm_num) (by norm_num), h1])]
    dsimp only
    rw [hc 40 8 (by norm_num) (by norm_num) (by norm_num) (by norm_num),
      hc 132 9 (by norm_num) (by norm_num) (by norm_num) (by norm_num),
      hc 141 9 (by norm_num) (by norm_num) (by norm_num) (by norm_num),
      hc 150 6 (by norm_num) (by norm_num) (by norm_num) (by norm_num),
      hc 156 6 (by norm_num) (by norm_num) (by norm_num) (by norm_num)]
    exact ⟨rfl, rfl, rfl, rfl, rfl, rfl, rfl⟩

theorem decode_ais_static_report_witness :
    (decode_ais "!AIVDM,1,1,,A,H42O55lti4hhhilD3nink000?050,0*00".toList).1 = 1 ∧
      (extract_bits (convert_payload_to_binary "H42O55lti4hhhilD3nink000?050".toList) 38 2 = 1 →
        (decode_ais "!AIVDM,1,1,,A,H42O55lti4hhhilD3nink000?050,0*00".toList).2.ship_type =
          extract_bits (convert_payload_to_binary "H42O55lti4hhhilD3nink000?050".toList) 40 8) := by
  have h := decode_ais_static_report "!AIVDM,1,1,,A,H42O55lti4hhhilD3nink000?050,0*00".toList
    "H42O55lti4hhhilD3nink000?050".toList (by decide) (by decide)
    (by set_option maxRecDepth 100000 in decide) (by set_option maxRecDepth 100000 in decide)
  exact ⟨h.2.1, fun h1 => (h.2.2.2 h1).1⟩

/-- C16 fails as worded: the line `!AIVDM,1,1,,A,H000...0,0*00` whose payload is
`'H'` followed by 999 times `'0'` is a type 24 line with 6000 bits, and the run
of `decode_ais` does not return on it with a record: copying the 1000 payload
characters into `payload[256]` writes past the end of the array. -/
theorem decode_ais_static_report_capacity_counterexample :
    get_payload_from_nmea (over_long_line 'H') = some (over_long_payload 'H') ∧
      (over_long_payload 'H').length = 1000 ∧
      (convert_payload_to_binary (over_long_payload 'H')).length = 6000 ∧
      extract_bits (convert_payload_to_binary (over_long_payload 'H')) 0 6 = 24 ∧
      decode_ais_in_buffers (over_long_line 'H') = none := by
  have h := over_long_line_facts 'H' (by decide) (by decide) (by decide)
  rw [show convert_ais_char 'H' = 24 from by decide] at h
  exact h

/-- C17: for every line on which `decode_ais` succeeds, `has_position` is 1 if
and only if the message type has a position layout, the bitstream meets that
type's minimum length, and the signed longitude window differs from its
sentinel: window `[61:28]` for types 1-3 and 9, `[79:28]` for 4 and 11,
`[57:28]` for 18 and 19, `[164:28]` for 21, each against `0x6791AC0`; window
`[40:18]` for type 17 and `[44:18]` for type 27, each against `0x1A838`.
Otherwise `has_position` is 0; no latitude window enters the condition. -/
theorem decode_ais_has_position_iff (line payload : List Char)
    (hp : get_payload_from_nmea line = some payload) (hok : (decode_ais line).1 = 1) :
    ((decode_ais line).2.has_position = 1 ↔
      ((((1 ≤ extract_bits (convert_payload_to_binary payload) 0 6 ∧
              extract_bits (convert_payload_to_binary payload) 0 6 ≤ 3) ∨
            extract_bits (convert_payload_to_binary payload) 0 6 = 9) ∧
          168 ≤ (convert_payload_to_binary payload).length ∧
          extract_signed_bits (convert_payload_to_binary payload) 61 28 ≠ 0x6791AC0) ∨
        ((extract_bits (convert_payload_to_binary payload) 0 6 = 4 ∨
            extract_bits (convert_payload_to_binary payload) 0 6 = 11) ∧
          168 ≤ (convert_payload_to_binary payload).length ∧
          extract_signed_bits (convert_payload_to_binary payload) 79 28 ≠ 0x6791AC0) ∨
        (extract_bits (convert_payload_to_binary payload) 0 6 = 18 ∧
          168 ≤ (convert_payload_to_binary payload).length ∧
          extract_signed_bits (convert_payload_to_binary payload) 57 28 ≠ 0x6791AC0) ∨
        (extract_bits (convert_payload_to_binary payload) 0 6 = 19 ∧
          312 ≤ (convert_payload_to_binary payload).length ∧
          extract_signed_bits (convert_payload_to_binary payload) 57 28 ≠ 0x6791AC0) ∨
        (extract_bits (convert_payload_to_binary payload) 0 6 = 21 ∧
          272 ≤ (convert_payload_to_binary payload).length ∧
          extract_signed_bits (convert_payload_to_binary payload) 164 28 ≠ 0x6791AC0) ∨
        (extract_bits (convert_payload_to_binary payload) 0 6 = 17 ∧
          80 ≤ (convert_payload_to_binary payload).length ∧
          extract_signed_bits (convert_payload_to_binary payload) 40 18 ≠ 0x1A838) ∨
        (extract_bits (convert_payload_to_binary payload) 0 6 = 27 ∧
          96 ≤ (convert_payload_to_binary payload).length ∧
          extract_signed_bits (convert_payload_to_binary payload) 44 18 ≠ 0x1A838))) ∧
      ((decode_ais line).2.has_position = 0 ∨ (decode_ais line).2.has_position = 1) := by
  have hs := isBits_convert_payload payload
  have h38 : 38 ≤ (convert_payload_to_binary payload).length := by
    by_contra hlen
    rw [decode_ais_short_stream line payload hp (by omega)] at hok
    simp at hok
  have hty : 1 ≤ extract_bits (convert_payload_to_binary payload) 0 6 ∧
      extract_bits (convert_payload_to_binary payload) 0 6 ≤ 27 := by
    by_contra hout
    rw [decode_ais_some line payload hp (by omega), read_header_eq _ hs h38,
      if_pos (by dsimp only; omega)] at hok
    simp at hok
  rw [decode_ais_valid_type line payload hp h38 hty.1 hty.2]
  obtain ⟨d, hd⟩ : ∃ d : AISData, d =
      { init_ais_data with
        msg_type := extract_bits (convert_payload_to_binary payload) 0 6
        repeat_ind := extract_bits (convert_payload_to_binary payload) 6 2
        mmsi := extract_bits (convert_payload_to_binary payload) 8 30 } := ⟨_, rfl⟩
  have hmt : d.msg_type = extract_bits (convert_payload_to_binary payload) 0 6 := by rw [hd]
  have hz : d.has_position = 0 := by rw [hd]; rfl
  rw [← hd]
  show ((decode_by_type (convert_payload_to_binary payload) d).has_position = 1 ↔ _) ∧
    ((decode_by_type (convert_payload_to_binary payload) d).has_position = 0 ∨
      (decode_by_type (convert_payload_to_binary payload) d).has_position = 1)
  rw [has_position_decode_by_type _ d hz, hmt]
  refine ⟨?_, has_position_flag _ _ _ _ _ _ _ _⟩
  have key := has_position_cases (extract_bits (convert_payload_to_binary payload) 0 6)
    (extract_signed_bits (convert_payload_to_binary payload) 61 28)
    (extract_signed_bits (convert_payload_to_binary payload) 79 28)
    (extract_signed_bits (convert_payload_to_binary payload) 57 28)
    (extract_signed_bits (convert_payload_to_binary payload) 164 28)
    (extract_signed_bits (convert_payload_to_binary payload) 40 18)
    (extract_signed_bits (convert_payload_to_binary payload) 44 18)
    ((convert_payload_to_binary payload).length : Int)
  rw [key]
  simp only [Nat.ofNat_le_cast]

theorem decode_ais_has_position_iff_witness :
    (decode_ais "!AIVDM,1,1,,A,38IFDN0Ohj7JvbN0fABtpbJ401w@,0*69".toList).2.has_position = 0 ∨
      (decode_ais "!AIVDM,1,1,,A,38IFDN0Ohj7JvbN0fABtpbJ401w@,0*69".toList).2.has_position = 1 :=
  (decode_ais_has_position_iff "!AIVDM,1,1,,A,38IFDN0Ohj7JvbN0fABtpbJ401w@,0*69".toList
    "38IFDN0Ohj7JvbN0fABtpbJ401w@".toList (by decide)
    (by set_option maxRecDepth 100000 in decide)).2

/-- C18: decoding `!AIVDM,1,1,,A,38IFDN0Ohj7JvbN0fABtpbJ401w@,0*69` succeeds
with message type 3 and a nonzero MMSI, and `has_position` is 1 exactly when the
28-bit signed longitude at bit 61 of its bitstream differs from `0x6791AC0`;
and for every line whose payload consists of 28 valid armor characters and
starts with `'1'`, `'2'` or `'3'`, `decode_ais` succeeds with `msg_type` equal to
the armor value of the first payload character. -/
theorem decode_ais_sample_sentence :
    ((decode_ais "!AIVDM,1,1,,A,38IFDN0Ohj7JvbN0fABtpbJ401w@,0*69".toList).1 = 1 ∧
      (decode_ais "!AIVDM,1,1,,A,38IFDN0Ohj7JvbN0fABtpbJ401w@,0*69".toList).2.msg_type = 3 ∧
      (decode_ais "!AIVDM,1,1,,A,38IFDN0Ohj7JvbN0fABtpbJ401w@,0*69".toList).2.mmsi ≠ 0 ∧
      ((decode_ais "!AIVDM,1,1,,A,38IFDN0Ohj7JvbN0fABtpbJ401w@,0*69".toList).2.has_position = 1 ↔
        extract_signed_bits
          (convert_payload_to_binary "38IFDN0Ohj7JvbN0fABtpbJ401w@".toList) 61 28 ≠
            0x6791AC0)) ∧
    (∀ (line : List Char) (c : Char) (rest : List Char),
      get_payload_from_nmea line = some (c :: rest) →
      (c :: rest).length = 28 →
      (∀ d ∈ c :: rest, (48 ≤ d.toNat ∧ d.toNat ≤ 87) ∨ (96 ≤ d.toNat ∧ d.toNat ≤ 119)) →
      (c = '1' ∨ c = '2' ∨ c = '3') →
      (decode_ais line).1 = 1 ∧ (decode_ais line).2.msg_type = convert_ais_char c) := by
  constructor
  · set_option maxRecDepth 100000 in decide
  · intro line c rest hp hlen hvalid hc
    have hr := convert_ais_char_range c (hvalid c (List.mem_cons_self _ _))
    have ht := extract_bits_first_char c rest hr.1 hr.2
    have hbits : (convert_payload_to_binary (c :: rest)).length = 168 := by
      rw [length_convert_payload, hlen]
    have hv : 1 ≤ convert_ais_char c ∧ convert_ais_char c ≤ 3 := by
      rcases hc with rfl | rfl | rfl <;> decide
    have hd := header_decode_by_type (convert_payload_to_binary (c :: rest))
      { init_ais_data with
        msg_type := extract_bits (convert_payload_to_binary (c :: rest)) 0 6
        repeat_ind := extract_bits (convert_payload_to_binary (c :: rest)) 6 2
        mmsi := extract_bits (convert_payload_to_binary (c :: rest)) 8 30 }
    simp only [header, Prod.mk.injEq] at hd
    rw [decode_ais_valid_type line (c :: rest) hp (by omega) (by omega) (by omega)]
    exact ⟨rfl, by rw [← ht]; exact hd.1⟩

theorem decode_ais_sample_sentence_witness :
    (decode_ais "!AIVDM,1,1,,A,15M67FC000G?ufbE`FepT@3n00Sa,0*5C".toList).1 = 1 ∧
      (decode_ais "!AIVDM,1,1,,A,15M67FC000G?ufbE`FepT@3n00Sa,0*5C".toList).2.msg_type =
        convert_ais_char '1' :=
  decode_ais_sample_sentence.2 "!AIVDM,1,1,,A,15M67FC000G?ufbE`FepT@3n00Sa,0*5C".toList '1'
    "5M67FC000G?ufbE`FepT@3n00Sa".toList (by decide) (by decide) (by decide)
    (Or.inl rfl)

/-- C19, as the code has it: decoding `!AIVDM,1,1,,A,,0*00` (empty payload
field) fails, and it fails at payload extraction: `get_payload_from_nmea`
returns no payload, so the record is the all-defaults record and the 38-bit
length check is not reached. -/
theorem decode_ais_empty_payload_field :
    (decode_ais "!AIVDM,1,1,,A,,0*00".toList).1 = 0 ∧
      get_payload_from_nmea "!AIVDM,1,1,,A,,0*00".toList = none ∧
      decode_ais "!AIVDM,1,1,,A,,0*00".toList = (0, init_ais_data) :=
  ⟨by decide, by decide, decode_ais_no_payload _ (by decide)⟩

/-- C19 as stated fails: on `!AIVDM,1,1,,A,,0*00` the payload is not extracted
as the empty string; payload extraction itself reports failure. -/
theorem decode_ais_empty_payload_field_counterexample :
    ¬ (get_payload_from_nmea "!AIVDM,1,1,,A,,0*00".toList = some []) ∧
      get_payload_from_nmea "!AIVDM,1,1,,A,,0*00".toList = none := by
  decide

/-- C20, as the code has it: when `decode_ais` returns failure, either the
failure is at payload extraction or at the 38-bit length check and the record
is the all-defaults record of `init_ais_data`, or the failure is at the type
range check (type outside `[1, 27]` on a bitstream of at least 38 bits) and the
record holds the three header fields read from the bitstream, with the
`init_ais_data` default in every other field. -/
theorem decode_ais_failure_record (line : List Char) (hfail : (decode_ais line).1 = 0) :
    ((get_payload_from_nmea line = none ∨
        ∃ payload, get_payload_from_nmea line = some payload ∧
          (convert_payload_to_binary payload).length < 38) ∧
      (decode_ais line).2 = init_ais_data) ∨
    (∃ payload, get_payload_from_nmea line = some payload ∧
      38 ≤ (convert_payload_to_binary payload).length ∧
      (extract_bits (convert_payload_to_binary payload) 0 6 < 1 ∨
        27 < extract_bits (convert_payload_to_binary payload) 0 6) ∧
      (decode_ais line).2 =
        { init_ais_data with
          msg_type := extract_bits (convert_payload_to_binary payload) 0 6
          repeat_ind := extract_bits (convert_payload_to_binary payload) 6 2
          mmsi := extract_bits (convert_payload_to_binary payload) 8 30 }) := by
  cases hp : get_payload_from_nmea line with
  | none =>
    left
    exact ⟨Or.inl rfl, by rw [decode_ais_no_payload line hp]⟩
  | some payload =>
    by_cases hlen : (convert_payload_to_binary payload).length < 38
    · left
      exact ⟨Or.inr ⟨payload, rfl, hlen⟩, by rw [decode_ais_short_stream line payload hp hlen]⟩
    · right
      have hs := isBits_convert_payload payload
      have h38 : 38 ≤ (convert_payload_to_binary payload).length := Nat.le_of_not_lt hlen
      have hrh := read_header_eq _ hs h38 init_ais_data
      rw [decode_ais_some line payload hp hlen, hrh] at hfail ⊢
      by_cases hty : extract_bits (convert_payload_to_binary payload) 0 6 < 1 ∨
          extract_bits (convert_payload_to_binary payload) 0 6 > 27
      · rw [if_pos hty]
        exact ⟨payload, rfl, h38, hty, rfl⟩
      · rw [if_neg hty] at hfail
        simp at hfail

theorem decode_ais_failure_record_witness :
    ((get_payload_from_nmea "!AIVDM,1,1,,A,w00000w,0*00".toList = none ∨
        ∃ payload, get_payload_from_nmea "!AIVDM,1,1,,A,w00000w,0*00".toList = some payload ∧
          (convert_payload_to_binary payload).length < 38) ∧
      (decode_ais "!AIVDM,1,1,,A,w00000w,0*00".toList).2 = init_ais_data) ∨
    (∃ payload, get_payload_from_nmea "!AIVDM,1,1,,A,w00000w,0*00".toList = some payload ∧
      38 ≤ (convert_payload_to_binary payload).length ∧
      (extract_bits (convert_payload_to_binary payload) 0 6 < 1 ∨
        27 < extract_bits (convert_payload_to_binary payload) 0 6) ∧
      (decode_ais "!AIVDM,1,1,,A,w00000w,0*00".toList).2 =
        { init_ais_data with
          msg_type := extract_bits (convert_payload_to_binary payload) 0 6
          repeat_ind := extract_bits (convert_payload_to_binary payload) 6 2
          mmsi := extract_bits (convert_payload_to_binary payload) 8 30 }) :=
  decode_ais_failure_record "!AIVDM,1,1,,A,w00000w,0*00".toList (by decide)

/-- C20 as stated fails: on `!AIVDM,1,1,,A,w00000w,0*00` (42 bits, type 63)
`decode_ais` returns failure and the record is not the all-defaults record:
its `msg_type` is 63 and its `mmsi` is 3. -/
theorem decode_ais_failure_record_counterexample :
    (decode_ais "!AIVDM,1,1,,A,w00000w,0*00".toList).1 = 0 ∧
      (decode_ais "!AIVDM,1,1,,A,w00000w,0*00".toList).2.msg_type = 63 ∧
      (decode_ais "!AIVDM,1,1,,A,w00000w,0*00".toList).2.mmsi = 3 ∧
      (decode_ais "!AIVDM,1,1,,A,w00000w,0*00".toList).2 ≠ init_ais_data := by
  refine ⟨by decide, by decide, by decide, fun h => ?_⟩
  have hm := congrArg AISData.msg_type h
  revert hm
  decide

/-! ## Dispatch of the remaining layouts -/

theorem decode_by_type_base_station (b : List Char) (d : AISData) (h : d.msg_type = 4)
    (hlen : (b.length : Int) ≥ 168) : decode_by_type b d = decode_base_station b d := by
  unfold decode_by_type
  iterate 1 rw [if_neg (by omega)]
  rw [if_pos ⟨h, hlen⟩]

theorem decode_by_type_static_voyage (b : List Char) (d : AISData) (h : d.msg_type = 5)
    (hlen : (b.length : Int) ≥ 424) : decode_by_type b d = decode_static_voyage b d := by
  unfold decode_by_type
  iterate 2 rw [if_neg (by omega)]
  rw [if_pos ⟨h, hlen⟩]

theorem decode_by_type_sar_aircraft (b : List Char) (d : AISData) (h : d.msg_type = 9)
    (hlen : (b.length : Int) ≥ 168) : decode_by_type b d = decode_sar_aircraft b d := by
  unfold decode_by_type
  iterate 3 rw [if_neg (by omega)]
  rw [if_pos ⟨h, hlen⟩]

theorem decode_by_type_utc_response (b : List Char) (d : AISData) (h : d.msg_type = 11)
    (hlen : (b.length : Int) ≥ 168) : decode_by_type b d = decode_base_station b d := by
  unfold decode_by_type
  iterate 4 rw [if_neg (by omega)]
  rw [if_pos ⟨h, hlen⟩]

theorem decode_by_type_dgnss (b : List Char) (d : AISData) (h : d.msg_type = 17)
    (hlen : (b.length : Int) ≥ 80) : decode_by_type b d = decode_dgnss b d := by
  unfold decode_by_type
  iterate 5 rw [if_neg (by omega)]
  rw [if_pos ⟨h, hlen⟩]

theorem decode_by_type_class_b (b : List Char) (d : AISData) (h : d.msg_type = 18)
    (hlen : (b.length : Int) ≥ 168) : decode_by_type b d = decode_class_b b d := by
  unfold decode_by_type
  iterate 6 rw [if_neg (by omega)]
  rw [if_pos ⟨h, hlen⟩]

theorem decode_by_type_class_b_extended (b : List Char) (d : AISData) (h : d.msg_type = 19)
    (hlen : (b.length : Int) ≥ 312) : decode_by_type b d = decode_class_b_extended b d := by
  unfold decode_by_type
  iterate 7 rw [if_neg (by omega)]
  rw [if_pos ⟨h, hlen⟩]

theorem decode_by_type_long_range (b : List Char) (d : AISData) (h : d.msg_type = 27)
    (hlen : (b.length : Int) ≥ 96) : decode_by_type b d = decode_long_range b d := by
  unfold decode_by_type
  iterate 10 rw [if_neg (by omega)]
  rw [if_pos ⟨h, hlen⟩]

theorem decode_by_type_aid_to_navigation (b : List Char) (d : AISData) (h : d.msg_type = 21)
    (hlen : (b.length : Int) ≥ 272) : decode_by_type b d = decode_aid_to_navigation b d := by
  unfold decode_by_type
  iterate 8 rw [if_neg (by omega)]
  rw [if_pos ⟨h, hlen⟩]

/-! ## UTC second across the layouts -/

theorem decode_class_a_utc_sec (s : List Char) (hs : IsBits s) (d : AISData)
    (h168 : 168 ≤ s.length) :
    0 ≤ (decode_class_a s d).utc_sec ∧ (decode_class_a s d).utc_sec ≤ 60 := by
  have hr := extract_bits_window s hs 137 6 (by omega)
  have hc := cast_int_extract_bits s hs 137 6 (by norm_num) (by norm_num) (by norm_num)
    (by exact_mod_cast (by omega : 137 + 6 ≤ s.length))
  simp only [Nat.cast_ofNat] at hr
  simp only [decode_class_a]
  split
  · omega
  · rw [hc]; omega

theorem decode_sar_aircraft_utc_sec (s : List Char) (hs : IsBits s) (d : AISData)
    (h168 : 168 ≤ s.length) :
    (decode_sar_aircraft s d).utc_sec = extract_bits s 128 6 := by
  have hc := cast_int_extract_bits s hs 128 6 (by norm_num) (by norm_num) (by norm_num)
    (by exact_mod_cast (by omega : 128 + 6 ≤ s.length))
  simp only [decode_sar_aircraft]
  exact hc

/-- C21 fails on the code: the type 9 layout stores the UTC second without the
clamp that the type 1-3 layout applies. On
`!AIVDM,1,1,,A,900000000000000000000ww00000,0*00` (type 9, 168 bits, raw value 63
at `[128:6]`) `decode_ais` succeeds with `utc_sec = 63`; on the type 1 line
`!AIVDM,1,1,,A,100000000000000000000www0000,0*00` (raw value 63 at `[137:6]`) it
succeeds with `utc_sec = 60`. -/
theorem decode_ais_utc_sec_unclamped :
    (convert_payload_to_binary "900000000000000000000ww00000".toList).length = 168 ∧
      extract_bits (convert_payload_to_binary "900000000000000000000ww00000".toList) 0 6 = 9 ∧
      extract_bits (convert_payload_to_binary "900000000000000000000ww00000".toList) 128 6 = 63 ∧
      (decode_ais "!AIVDM,1,1,,A,900000000000000000000ww00000,0*00".toList).1 = 1 ∧
      (decode_ais "!AIVDM,1,1,,A,900000000000000000000ww00000,0*00".toList).2.utc_sec = 63 ∧
      extract_bits (convert_payload_to_binary "100000000000000000000www0000".toList) 137 6 = 63 ∧
      (decode_ais "!AIVDM,1,1,,A,100000000000000000000www0000,0*00".toList).1 = 1 ∧
      (decode_ais "!AIVDM,1,1,,A,100000000000000000000www0000,0*00".toList).2.utc_sec = 60 := by
  set_option maxRecDepth 100000 in decide

/-! ## Rate of turn -/

theorem extract_signed_bits_range (s : List Char) (hs : IsBits s) (start length : Nat)
    (h1 : 1 ≤ length) (hfit : start + length ≤ s.length) :
    -(2 ^ (length - 1)) ≤ extract_signed_bits s start length ∧
      extract_signed_bits s start length < 2 ^ (length - 1) := by
  obtain ⟨-, u0, u1⟩ := extract_bits_window s hs start length hfit
  have hpow : (2 : Int) ^ length = 2 * 2 ^ (length - 1) := by
    rw [← pow_succ']; congr 1; omega
  have hpos : (0 : Int) < 2 ^ (length - 1) := by positivity
  rw [extract_signed_bits_in_bounds s hs start length h1 hfit]
  split <;> constructor <;> omega

/-- C22, as amended: for every type 1-3 line whose payload fits the array
`payload` of `decode_ais` (fewer than `MAX_PAYLOAD_LENGTH` = 256 characters) and
whose bitstream has at least 168 bits, the run of `decode_ais` returns and the
`rot` text is a function of the signed 8-bit raw value `r` at `[42:8]` alone
(`rot_text r`, with `-128 ≤ r ≤ 127`): `r = -128` gives `"-128.0"`, `r = -127`
gives `"-720.0"`, `r = 127` gives `"+127.0"`, `r = 0` gives `"+0.0"`, and every
other `r` gives a text that starts with `'+'` when `r > 0` and with `'-'` when
`r < 0`. -/
theorem decode_ais_rot (line payload : List Char)
    (hp : get_payload_from_nmea line = some payload)
    (hcap : payload.length < MAX_PAYLOAD_LENGTH)
    (h168 : 168 ≤ (convert_payload_to_binary payload).length)
    (hty : 1 ≤ extract_bits (convert_payload_to_binary payload) 0 6 ∧
      extract_bits (convert_payload_to_binary payload) 0 6 ≤ 3) :
    decode_ais_in_buffers line = some (decode_ais line) ∧
      (decode_ais line).2.rot =
        rot_text (extract_signed_bits (convert_payload_to_binary payload) 42 8) ∧
      -128 ≤ extract_signed_bits (convert_payload_to_binary payload) 42 8 ∧
      extract_signed_bits (convert_payload_to_binary payload) 42 8 ≤ 127 ∧
      rot_text (-128) = .lit "-128.0" ∧ rot_text (-127) = .lit "-720.0" ∧
      rot_text 127 = .lit "+127.0" ∧ rot_text 0 = .lit "+0.0" ∧
      (∀ r : Int, 0 < r → first_char (rot_text r) = some '+') ∧
      (∀ r : Int, r < 0 → first_char (rot_text r) = some '-') := by
  refine ⟨decode_ais_in_buffers_fits line payload hp hcap, ?_⟩
  have hs := isBits_convert_payload payload
  have hl : (168 : Int) ≤ ((convert_payload_to_binary payload).length : Int) := by
    exact_mod_cast h168
  have hr := extract_signed_bits_range _ hs 42 8 (by norm_num) (by omega)
  simp only [Nat.cast_ofNat] at hr
  norm_num at hr
  rw [decode_ais_valid_type line payload hp (by omega) (by omega) (by omega),
    decode_by_type_class_a _ _ hty hl]
  refine ⟨by simp only [decode_class_a], hr.1, by omega, by decide, by decide, by decide,
    by decide, fun r hpos => ?_, fun r hneg => ?_⟩
  · unfold rot_text
    rw [if_neg (by omega), if_neg (by omega)]
    by_cases h127 : r = 127
    · rw [if_pos h127]; rfl
    · rw [if_neg h127, if_neg (by omega), if_pos hpos]; rfl
  · unfold rot_text
    by_cases h128 : r = -128
    · rw [if_pos h128]; rfl
    · rw [if_neg h128]
      by_cases h127 : r = -127
      · rw [if_pos h127]; rfl
      · rw [if_neg h127, if_neg (by omega), if_neg (by omega), if_neg (by omega)]; rfl

theorem decode_ais_rot_witness :
    (decode_ais "!AIVDM,1,1,,A,38IFDN0Ohj7JvbN0fABtpbJ401w@,0*69".toList).2.rot =
      rot_text (extract_signed_bits
        (convert_payload_to_binary "38IFDN0Ohj7JvbN0fABtpbJ401w@".toList) 42 8) := by
  have h := decode_ais_rot "!AIVDM,1,1,,A,38IFDN0Ohj7JvbN0fABtpbJ401w@,0*69".toList
    "38IFDN0Ohj7JvbN0fABtpbJ401w@".toList (by decide) (by decide)
    (by set_option maxRecDepth 100000 in decide) (by set_option maxRecDepth 100000 in decide)
  exact h.2.1

/-- C22 fails as worded: the line `!AIVDM,1,1,,A,2000...0,0*00` whose payload is
`'2'` followed by 999 times `'0'` is a type 2 line with 6000 bits, and the run
of `decode_ais` leaves no `rot` text on it: copying the 1000 payload characters
into `payload[256]` writes past the end of the array. -/
theorem decode_ais_rot_capacity_counterexample :
    get_payload_from_nmea (over_long_line '2') = some (over_long_payload '2') ∧
      (over_long_payload '2').length = 1000 ∧
      (convert_payload_to_binary (over_long_payload '2')).length = 6000 ∧
      extract_bits (convert_payload_to_binary (over_long_payload '2')) 0 6 = 2 ∧
      decode_ais_in_buffers (over_long_line '2') = none := by
  have h := over_long_line_facts '2' (by decide) (by decide) (by decide)
  rw [show convert_ais_char '2' = 2 from by decide] at h
  exact h

/-! ## Speed over ground -/

/-- The speed text of the 10-bit layouts: the literal `"0.0"` for the raw value
`1023`, otherwise the call `sprintf("%.1f", s / 10.0)`, whose digits are produced
by the C library from a `double`. -/
theorem sog_text_cases (s : Int) :
    (s = 1023 → sog_text s = .lit "0.0") ∧ (s ≠ 1023 → sog_text s = .fixed1 s 10) := by
  unfold sog_text
  constructor
  · intro h; rw [if_pos h]
  · intro h; rw [if_neg h]

theorem decode_long_range_sog (b : List Char) (d : AISData) :
    (extract_bits b 79 6 = 63 → (decode_long_range b d).sog = .lit "0.0") ∧
      (extract_bits b 79 6 ≠ 63 →
        (decode_long_range b d).sog = .fixed1 (extract_bits b 79 6) 1) := by
  simp only [decode_long_range]
  constructor
  · intro h; rw [if_pos h]
  · intro h; rw [if_neg h]

/-! ## Independence of the record passed in -/

theorem init_ais_data_from_eq (data : AISData) : init_ais_data_from data = init_ais_data := rfl

theorem decode_ais_from_eq (data0 : AISData) (line : List Char) :
    decode_ais_from data0 line = decode_ais line := by
  simp only [decode_ais_from, decode_ais, init_ais_data_from_eq]

/-- C24, as amended: `decode_ais` is a function of the input line only at the
level of field values. For every line and every two initial contents of the
caller's record, the two runs return the same success flag and the same value
in each of the 35 fields (integers equal, character arrays equal as
NUL-terminated strings), namely the result of `decode_ais` on a fresh record. -/
theorem decode_ais_from_any_record (d1 d2 : AISData) (line : List Char) :
    decode_ais_from d1 line = decode_ais_from d2 line ∧
      decode_ais_from d1 line = decode_ais line := by
  rw [decode_ais_from_eq, decode_ais_from_eq]
  exact ⟨rfl, rfl⟩

/-- C24 fails as worded: the records are not byte-identical. On the sample
sentence (type 3, decoded with success) the array `ship_name` is written only
by `data->ship_name[0] = '\0'`, so a record whose `ship_name` held `"SHIP"` and a
record whose `ship_name` held zero bytes end with different bytes in that array,
though with the same (empty) string. -/
theorem decode_ais_stale_bytes_counterexample :
    (decode_ais "!AIVDM,1,1,,A,38IFDN0Ohj7JvbN0fABtpbJ401w@,0*69".toList).1 = 1 ∧
      ship_name_bytes ("SHIP".toList ++ List.replicate 124 nul)
          "!AIVDM,1,1,,A,38IFDN0Ohj7JvbN0fABtpbJ401w@,0*69".toList =
        nul :: 'H' :: 'I' :: 'P' :: List.replicate 124 nul ∧
      ship_name_bytes (List.replicate 128 nul)
          "!AIVDM,1,1,,A,38IFDN0Ohj7JvbN0fABtpbJ401w@,0*69".toList =
        List.replicate 128 nul ∧
      ship_name_bytes ("SHIP".toList ++ List.replicate 124 nul)
          "!AIVDM,1,1,,A,38IFDN0Ohj7JvbN0fABtpbJ401w@,0*69".toList ≠
        ship_name_bytes (List.replicate 128 nul)
          "!AIVDM,1,1,,A,38IFDN0Ohj7JvbN0fABtpbJ401w@,0*69".toList ∧
      c_string (ship_name_bytes ("SHIP".toList ++ List.replicate 124 nul)
          "!AIVDM,1,1,,A,38IFDN0Ohj7JvbN0fABtpbJ401w@,0*69".toList) =
        c_string (ship_name_bytes (List.replicate 128 nul)
          "!AIVDM,1,1,,A,38IFDN0Ohj7JvbN0fABtpbJ401w@,0*69".toList) := by
  set_option maxRecDepth 100000 in decide

/-! ## The bytes of `ship_name` against its string value -/

theorem text_char_ne_nul (c : Int) : text_char c ≠ nul := by
  unfold text_char
  generalize cast_int (if c < 32 then c + 64 else c) = a
  by_cases h : a ≥ 32 ∧ a ≤ 126
  · simp only [if_pos h]
    have h1 : 32 ≤ a.toNat := by omega
    have h2 : a.toNat ≤ 126 := by omega
    generalize a.toNat = n at h1 h2
    interval_cases n <;> decide
  · simp only [if_neg h]
    decide

theorem extract_text_loop_ne_nul (b : List Char) (start : Int) (n : Nat) (i : Int) :
    ∀ c ∈ extract_text_loop b start n i, c ≠ nul := by
  induction n generalizing i with
  | zero => intro c hc; simp [extract_text_loop] at hc
  | succ n ih =>
    intro c hc
    unfold extract_text_loop at hc
    simp only [] at hc
    split at hc
    · simp at hc
    · rcases List.mem_cons.1 hc with h | h
      · rw [h]; exact text_char_ne_nul _
      · exact ih _ c h

theorem c_string_append_nul (kept rest : List Char) (h : ∀ c ∈ kept, c ≠ nul) :
    c_string (kept ++ nul :: rest) = kept := by
  unfold c_string
  induction kept with
  | nil => simp
  | cons a l ih =>
    have ha : a ≠ nul := h a (List.mem_cons_self _ _)
    have hl : ∀ c ∈ l, c ≠ nul := fun c hc => h c (List.mem_cons_of_mem _ hc)
    show List.takeWhile _ (a :: (l ++ nul :: rest)) = a :: l
    rw [List.takeWhile_cons, if_pos (by simpa using ha), ih hl]

theorem c_string_extract_text_bytes (b : List Char) (start num_chars : Int)
    (output : List Char) :
    c_string (extract_text_bytes b start num_chars output) = extract_text b start num_chars := by
  unfold extract_text_bytes extract_text
  simp only [List.replicate_succ, List.append_assoc, List.cons_append]
  apply c_string_append_nul
  intro c hc
  exact extract_text_loop_ne_nul b start _ 0 c ((List.rdropWhile_prefix _ _).subset hc)

theorem c_string_set_nul (bytes : List Char) (h : bytes ≠ []) :
    c_string (bytes.set 0 nul) = [] := by
  cases bytes with
  | nil => exact absurd rfl h
  | cons a l => simp [c_string, List.set]

/-- The `ship_name` left by the `if / else if` chain, layout by layout. -/
theorem decode_by_type_ship_name (b : List Char) (d : AISData) :
    (decode_by_type b d).ship_name =
      if d.msg_type = 5 ∧ (b.length : Int) ≥ 424 then extract_text b 112 20
      else if d.msg_type = 19 ∧ (b.length : Int) ≥ 312 then extract_text b 143 20
      else if d.msg_type = 21 ∧ (b.length : Int) ≥ 272 then extract_text b 43 20
      else if d.msg_type = 24 ∧ (b.length : Int) ≥ 168 then
        if cast_int (extract_bits b 38 2) = 0 then extract_text b 40 20 else d.ship_name
      else d.ship_name := by
  by_cases g1 : (d.msg_type ≥ 1 ∧ d.msg_type ≤ 3) ∧ (b.length : Int) ≥ 168
  · rw [decode_by_type_class_a b d g1.1 g1.2]
    iterate 4 rw [if_neg (by omega)]
    simp only [decode_class_a]
  by_cases g2 : d.msg_type = 4 ∧ (b.length : Int) ≥ 168
  · rw [decode_by_type_base_station b d g2.1 g2.2]
    iterate 4 rw [if_neg (by omega)]
    simp only [decode_base_station]
  by_cases g3 : d.msg_type = 5 ∧ (b.length : Int) ≥ 424
  · rw [decode_by_type_static_voyage b d g3.1 g3.2, if_pos g3]
    simp only [decode_static_voyage]
  by_cases g4 : d.msg_type = 9 ∧ (b.length : Int) ≥ 168
  · rw [decode_by_type_sar_aircraft b d g4.1 g4.2]
    iterate 4 rw [if_neg (by omega)]
    simp only [decode_sar_aircraft]
  by_cases g5 : d.msg_type = 11 ∧ (b.length : Int) ≥ 168
  · rw [decode_by_type_utc_response b d g5.1 g5.2]
    iterate 4 rw [if_neg (by omega)]
    simp only [decode_base_station]
  by_cases g6 : d.msg_type = 17 ∧ (b.length : Int) ≥ 80
  · rw [decode_by_type_dgnss b d g6.1 g6.2]
    iterate 4 rw [if_neg (by omega)]
    simp only [decode_dgnss]
  by_cases g7 : d.msg_type = 18 ∧ (b.length : Int) ≥ 168
  · rw [decode_by_type_class_b b d g7.1 g7.2]
    iterate 4 rw [if_neg (by omega)]
    simp only [decode_class_b]
  by_cases g8 : d.msg_type = 19 ∧ (b.length : Int) ≥ 312
  · rw [decode_by_type_class_b_extended b d g8.1 g8.2, if_neg g3, if_pos g8]
    simp only [decode_class_b_extended]
  by_cases g9 : d.msg_type = 21 ∧ (b.length : Int) ≥ 272
  · rw [decode_by_type_aid_to_navigation b d g9.1 g9.2, if_neg g3, if_neg g8, if_pos g9]
    simp only [decode_aid_to_navigation]
  by_cases g10 : d.msg_type = 24 ∧ (b.length : Int) ≥ 168
  · rw [decode_by_type_static_report b d g10.1 g10.2, if_neg g3, if_neg g8, if_neg g9,
      if_pos g10]
    unfold decode_static_report
    simp only []
    by_cases hp0 : cast_int (extract_bits b 38 2) = 0
    · rw [if_pos hp0, if_pos hp0]
    · rw [if_neg hp0, if_neg hp0]
      split <;> rfl
  by_cases g11 : d.msg_type = 27 ∧ (b.length : Int) ≥ 96
  · rw [decode_by_type_long_range b d g11.1 g11.2]
    iterate 4 rw [if_neg (by omega)]
    simp only [decode_long_range]
  · rw [if_neg g3, if_neg g8, if_neg g9, if_neg g10]
    unfold decode_by_type
    rw [if_neg g1, if_neg g2, if_neg g3, if_neg g4, if_neg g5, if_neg g6, if_neg g7, if_neg g8,
      if_neg g9, if_neg g10, if_neg g11]

/-- The string held in the bytes of `ship_name` after `decode_ais` is the value
of the field `ship_name` of the decoded record, whatever the array held. -/
theorem c_string_ship_name_bytes (bytes0 : List Char) (h : bytes0 ≠ []) (line : List Char) :
    c_string (ship_name_bytes bytes0 line) = (decode_ais line).2.ship_name := by
  have h0 := c_string_set_nul bytes0 h
  unfold ship_name_bytes
  simp only []
  cases hp : get_payload_from_nmea line with
  | none =>
    rw [decode_ais_no_payload line hp]
    exact h0
  | some payload =>
    simp only []
    by_cases hlen : (convert_payload_to_binary payload).length < 38
    · rw [if_pos hlen, decode_ais_short_stream line payload hp hlen]
      exact h0
    · rw [if_neg hlen, decode_ais_some line payload hp hlen]
      have ht : (read_header (convert_payload_to_binary payload) init_ais_data).msg_type =
          cast_int (extract_bits (convert_payload_to_binary payload) 0 6) := rfl
      have hn : (read_header (convert_payload_to_binary payload) init_ais_data).ship_name = [] :=
        rfl
      rw [ht]
      by_cases hr : cast_int (extract_bits (convert_payload_to_binary payload) 0 6) < 1 ∨
          cast_int (extract_bits (convert_payload_to_binary payload) 0 6) > 27
      · rw [if_pos hr, if_pos hr]
        exact h0.trans hn.symm
      · rw [if_neg hr, if_neg hr]
        show _ = (decode_by_type _ _).ship_name
        rw [decode_by_type_ship_name, ht, hn]
        split
        · exact c_string_extract_text_bytes _ _ _ _
        split
        · exact c_string_extract_text_bytes _ _ _ _
        split
        · exact c_string_extract_text_bytes _ _ _ _
        split
        · split
          · exact c_string_extract_text_bytes _ _ _ _
          · exact h0
        · exact h0

/-! ## No read of `decode_ais` is out of bounds -/

theorem extract_bits_checked_none_iff (b : List Char) (start length : Int) :
    extract_bits_checked b start length = none ↔ start + length > (b.length : Int) := by
  unfold extract_bits_checked
  simp only []
  split <;> simp_all

theorem extract_bits_checked_getD (b : List Char) (start length : Int) :
    (extract_bits_checked b start length).getD (-1) = extract_bits b start length := by
  unfold extract_bits_checked extract_bits
  simp only []
  split <;> rfl

theorem extract_bits_checked_fits (b : List Char) (start length : Int)
    (h : start + length ≤ (b.length : Int)) :
    extract_bits_checked b start length = some (extract_bits b start length) := by
  unfold extract_bits_checked extract_bits
  simp only []
  rw [if_neg (by omega), if_neg (by omega)]

theorem extract_signed_bits_checked_getD (b : List Char) (start length : Int) :
    (extract_signed_bits_checked b start length).getD (-1) =
      extract_signed_bits b start length := by
  unfold extract_signed_bits_checked extract_signed_bits
  by_cases h : start + length ≤ (b.length : Int)
  · rw [extract_bits_checked_fits b start length h]
    simp only []
    split
    · rfl
    · split <;> rfl
  · have hn : extract_bits_checked b start length = none :=
      (extract_bits_checked_none_iff b start length).2 (by omega)
    have hm : extract_bits b start length = -1 := by
      unfold extract_bits; simp only []; rw [if_pos (by omega)]
    rw [hn, hm]
    rfl

theorem extract_signed_bits_checked_fits (b : List Char) (start length : Int)
    (h : start + length ≤ (b.length : Int)) :
    extract_signed_bits_checked b start length = some (extract_signed_bits b start length) := by
  unfold extract_signed_bits_checked extract_signed_bits
  rw [extract_bits_checked_fits b start length h]
  simp only []
  split
  · rfl
  · split <;> rfl

theorem extract_text_loop_checked_fits (b : List Char) (start : Int) (n : Nat) (i : Int)
    (h : start + (i + n) * 6 ≤ (b.length : Int)) :
    extract_text_loop_checked b start n i = some (extract_text_loop b start n i) := by
  induction n generalizing i with
  | zero => rfl
  | succ n ih =>
    unfold extract_text_loop_checked extract_text_loop
    have hfit : start + i * 6 + 6 ≤ (b.length : Int) := by push_cast at h; omega
    rw [extract_bits_checked_fits b _ 6 hfit]
    simp only []
    split
    · rfl
    · rw [ih (i + 1) (by push_cast at h; omega)]
      rfl

theorem extract_text_checked_fits (b : List Char) (start num_chars : Int)
    (h0 : 0 ≤ num_chars) (h : start + 6 * num_chars ≤ (b.length : Int)) :
    extract_text_checked b start num_chars = some (extract_text b start num_chars) := by
  unfold extract_text_checked extract_text
  rw [extract_text_loop_checked_fits b start num_chars.toNat 0
    (by rw [Int.toNat_of_nonneg h0]; omega)]
  rfl

theorem and_then_some {α β : Type} (v : α) (k : α → Option β) : and_then (some v) k = k v :=
  rfl

theorem decode_class_a_checked_eq (b : List Char) (d : AISData) (h : (b.length : Int) ≥ 168) :
    decode_class_a_checked b d = some (decode_class_a b d) := by
  unfold decode_class_a_checked
  simp (disch := omega) only [extract_bits_checked_fits, extract_signed_bits_checked_fits,
    and_then_some]
  rfl

theorem decode_base_station_checked_eq (b : List Char) (d : AISData)
    (h : (b.length : Int) ≥ 168) :
    decode_base_station_checked b d = some (decode_base_station b d) := by
  unfold decode_base_station_checked
  simp (disch := omega) only [extract_bits_checked_fits, extract_signed_bits_checked_fits,
    and_then_some]
  rfl

theorem decode_static_voyage_checked_eq (b : List Char) (d : AISData)
    (h : (b.length : Int) ≥ 424) :
    decode_static_voyage_checked b d = some (decode_static_voyage b d) := by
  unfold decode_static_voyage_checked
  simp (disch := omega) only [extract_bits_checked_fits, extract_text_checked_fits,
    and_then_some]
  rfl

theorem decode_sar_aircraft_checked_eq (b : List Char) (d : AISData)
    (h : (b.length : Int) ≥ 168) :
    decode_sar_aircraft_checked b d = some (decode_sar_aircraft b d) := by
  unfold decode_sar_aircraft_checked
  simp (disch := omega) only [extract_bits_checked_fits, extract_signed_bits_checked_fits,
    and_then_some]
  rfl

theorem decode_dgnss_checked_eq (b : List Char) (d : AISData) (h : (b.length : Int) ≥ 80) :
    decode_dgnss_checked b d = some (decode_dgnss b d) := by
  unfold decode_dgnss_checked
  simp (disch := omega) only [extract_signed_bits_checked_fits, and_then_some]
  rfl

theorem decode_class_b_checked_eq (b : List Char) (d : AISData) (h : (b.length : Int) ≥ 168) :
    decode_class_b_checked b d = some (decode_class_b b d) := by
  unfold decode_class_b_checked
  simp (disch := omega) only [extract_bits_checked_fits, extract_signed_bits_checked_fits,
    and_then_some]
  rfl

theorem decode_class_b_extended_checked_eq (b : List Char) (d : AISData)
    (h : (b.length : Int) ≥ 312) :
    decode_class_b_extended_checked b d = some (decode_class_b_extended b d) := by
  unfold decode_class_b_extended_checked
  simp (disch := omega) only [extract_bits_checked_fits, extract_signed_bits_checked_fits,
    extract_text_checked_fits, and_then_some]
  rfl

theorem decode_aid_to_navigation_checked_eq (b : List Char) (d : AISData)
    (h : (b.length : Int) ≥ 272) :
    decode_aid_to_navigation_checked b d = some (decode_aid_to_navigation b d) := by
  unfold decode_aid_to_navigation_checked
  simp (disch := omega) only [extract_bits_checked_fits, extract_signed_bits_checked_fits,
    extract_text_checked_fits, and_then_some]
  by_cases h360 : (b.length : Int) ≥ 360
  · rw [if_pos h360, and_then_some]
    simp only [decode_aid_to_navigation, if_pos h360]
  · rw [if_neg h360, and_then_some]
    simp only [decode_aid_to_navigation, if_neg h360]

theorem decode_static_report_checked_eq (b : List Char) (d : AISData)
    (h : (b.length : Int) ≥ 168) :
    decode_static_report_checked b d = some (decode_static_report b d) := by
  unfold decode_static_report_checked decode_static_report
  simp (disch := omega) only [extract_bits_checked_fits, extract_text_checked_fits,
    and_then_some]
  split
  · rfl
  · split <;> rfl

theorem decode_long_range_checked_eq (b : List Char) (d : AISData) (h : (b.length : Int) ≥ 96) :
    decode_long_range_checked b d = some (decode_long_range b d) := by
  unfold decode_long_range_checked
  simp (disch := omega) only [extract_bits_checked_fits, extract_signed_bits_checked_fits,
    and_then_some]
  rfl

theorem decode_by_type_checked_eq (b : List Char) (d : AISData) :
    decode_by_type_checked b d = some (decode_by_type b d) := by
  unfold decode_by_type_checked decode_by_type
  by_cases g1 : (d.msg_type ≥ 1 ∧ d.msg_type ≤ 3) ∧ (b.length : Int) ≥ 168
  · rw [if_pos g1, if_pos g1]; exact decode_class_a_checked_eq b d g1.2
  rw [if_neg g1, if_neg g1]
  by_cases g2 : d.msg_type = 4 ∧ (b.length : Int) ≥ 168
  · rw [if_pos g2, if_pos g2]; exact decode_base_station_checked_eq b d g2.2
  rw [if_neg g2, if_neg g2]
  by_cases g3 : d.msg_type = 5 ∧ (b.length : Int) ≥ 424
  · rw [if_pos g3, if_pos g3]; exact decode_static_voyage_checked_eq b d g3.2
  rw [if_neg g3, if_neg g3]
  by_cases g4 : d.msg_type = 9 ∧ (b.length : Int) ≥ 168
  · rw [if_pos g4, if_pos g4]; exact decode_sar_aircraft_checked_eq b d g4.2
  rw [if_neg g4, if_neg g4]
  by_cases g5 : d.msg_type = 11 ∧ (b.length : Int) ≥ 168
  · rw [if_pos g5, if_pos g5]; exact decode_base_station_checked_eq b d g5.2
  rw [if_neg g5, if_neg g5]
  by_cases g6 : d.msg_type = 17 ∧ (b.length : Int) ≥ 80
  · rw [if_pos g6, if_pos g6]; exact decode_dgnss_checked_eq b d g6.2
  rw [if_neg g6, if_neg g6]
  by_cases g7 : d.msg_type = 18 ∧ (b.length : Int) ≥ 168
  · rw [if_pos g7, if_pos g7]; exact decode_class_b_checked_eq b d g7.2
  rw [if_neg g7, if_neg g7]
  by_cases g8 : d.msg_type = 19 ∧ (b.length : Int) ≥ 312
  · rw [if_pos g8, if_pos g8]; exact decode_class_b_extended_checked_eq b d g8.2
  rw [if_neg g8, if_neg g8]
  by_cases g9 : d.msg_type = 21 ∧ (b.length : Int) ≥ 272
  · rw [if_pos g9, if_pos g9]; exact decode_aid_to_navigation_checked_eq b d g9.2
  rw [if_neg g9, if_neg g9]
  by_cases g10 : d.msg_type = 24 ∧ (b.length : Int) ≥ 168
  · rw [if_pos g10, if_pos g10]; exact decode_static_report_checked_eq b d g10.2
  rw [if_neg g10, if_neg g10]
  by_cases g11 : d.msg_type = 27 ∧ (b.length : Int) ≥ 96
  · rw [if_pos g11, if_pos g11]; exact decode_long_range_checked_eq b d g11.2
  rw [if_neg g11, if_neg g11]

theorem read_header_checked_eq (b : List Char) (d : AISData) (h : (b.length : Int) ≥ 38) :
    read_header_checked b d = some (read_header b d) := by
  unfold read_header_checked
  simp (disch := omega) only [extract_bits_checked_fits, and_then_some]
  rfl

/-- C25: no read of `decode_ais` is out of bounds. For every line, the run of
`decode_ais` over the checked reader, in which a read with
`start + length > bitstream length` ends the run with `none`, ends with `some`
of the flag and record that `decode_ais` returns; and whenever the
`if / else if` chain is entered with a bitstream and a record, every window read
by the layout that runs (through `extract_bits`, `extract_signed_bits` or
`extract_text`, the name extension of type 21 only from 360 bits on) fits in the
bitstream, so that the layout over the checked reader gives `some` of the record
the layout gives. -/
theorem decode_ais_reads_in_bounds (line : List Char) :
    decode_ais_checked line = some (decode_ais line) ∧
      (∀ (b : List Char) (d : AISData),
        decode_by_type_checked b d = some (decode_by_type b d)) ∧
      (∀ (b : List Char) (start length : Int),
        extract_bits_checked b start length = none ↔ start + length > (b.length : Int)) := by
  refine ⟨?_, decode_by_type_checked_eq, extract_bits_checked_none_iff⟩
  unfold decode_ais_checked decode_ais
  cases get_payload_from_nmea line with
  | none => rfl
  | some payload =>
    simp only []
    by_cases hlen : (convert_payload_to_binary payload).length < 38
    · rw [if_pos hlen, if_pos hlen]
    · rw [if_neg hlen, if_neg hlen,
        read_header_checked_eq _ _ (by exact_mod_cast Nat.le_of_not_lt hlen)]
      simp only []
      split
      · rfl
      · rw [decode_by_type_checked_eq]

/-! ## The minimal decoder and unsupported types -/

/-- C26 fails on the code: on `!AIVDM,1,1,,A,w00000w,0*00` (42 bits, type 63)
the minimal `decode_ais` returns success with `msg_type = 63`, while the
extended `decode_ais` returns failure on the same line. -/
theorem minimal_decode_ais_accepts_type_63 :
    get_payload_from_nmea "!AIVDM,1,1,,A,w00000w,0*00".toList = some "w00000w".toList ∧
      (convert_payload_to_binary "w00000w".toList).length = 42 ∧
      extract_bits (convert_payload_to_binary "w00000w".toList) 0 6 = 63 ∧
      (Minimal.decode_ais "!AIVDM,1,1,,A,w00000w,0*00".toList).1 = 1 ∧
      (Minimal.decode_ais "!AIVDM,1,1,,A,w00000w,0*00".toList).2.msg_type = 63 ∧
      (decode_ais "!AIVDM,1,1,,A,w00000w,0*00".toList).1 = 0 := by
  decide

/-! ## Hemisphere letters -/

theorem hem_value_iff (raw : Int) (neg pos v : String) (hne : neg ≠ pos)
    (hv : v = if raw < 0 then neg else pos) :
    (v = neg ↔ raw < 0) ∧ (v = pos ↔ 0 ≤ raw) := by
  by_cases hr : raw < 0
  · rw [hv, if_pos hr]
    exact ⟨⟨fun _ => hr, fun _ => rfl⟩, ⟨fun e => absurd e hne, fun e => absurd e (by omega)⟩⟩
  · rw [hv, if_neg hr]
    exact ⟨⟨fun e => absurd e.symm hne, fun e => absurd e hr⟩, ⟨fun _ => by omega, fun _ => rfl⟩⟩

theorem longitude_block_hem_value (old : NumText × String × Int) (raw sentinel : Int)
    (divisor : Nat) (hold : old.2.1 = "E") (hs : 0 ≤ sentinel) :
    (longitude_block old raw sentinel divisor).2.1 = if raw < 0 then "W" else "E" := by
  unfold longitude_block format_lat_lon
  by_cases h : raw ≠ sentinel
  · by_cases hr : raw ≥ 0
    · have hn : ¬ raw < 0 := by omega
      simp [h, hr, hn]
    · have hn : raw < 0 := by omega
      simp [h, hr, hn]
  · have hr : raw = sentinel := not_not.mp h
    have hn : ¬ raw < 0 := by omega
    subst hr
    simp [hold, hn]

theorem latitude_block_hem_value (old : NumText × String) (raw sentinel : Int)
    (divisor : Nat) (hold : old.2 = "N") (hs : 0 ≤ sentinel) :
    (latitude_block old raw sentinel divisor).2 = if raw < 0 then "S" else "N" := by
  unfold latitude_block format_lat_lon
  by_cases h : raw ≠ sentinel
  · by_cases hr : raw ≥ 0
    · have hn : ¬ raw < 0 := by omega
      simp [h, hr, hn]
    · have hn : raw < 0 := by omega
      simp [h, hr, hn]
  · have hr : raw = sentinel := not_not.mp h
    have hn : ¬ raw < 0 := by omega
    subst hr
    simp [hold, hn]

theorem longitude_block_hem (old : NumText × String × Int) (raw sentinel : Int) (divisor : Nat)
    (hold : old.2.1 = "E") (hs : 0 ≤ sentinel) :
    ((longitude_block old raw sentinel divisor).2.1 = "W" ↔ raw < 0) ∧
      ((longitude_block old raw sentinel divisor).2.1 = "E" ↔ 0 ≤ raw) :=
  hem_value_iff raw "W" "E" _ (by decide)
    (longitude_block_hem_value old raw sentinel divisor hold hs)

theorem latitude_block_hem (old : NumText × String) (raw sentinel : Int) (divisor : Nat)
    (hold : old.2 = "N") (hs : 0 ≤ sentinel) :
    ((latitude_block old raw sentinel divisor).2 = "S" ↔ raw < 0) ∧
      ((latitude_block old raw sentinel divisor).2 = "N" ↔ 0 ≤ raw) :=
  hem_value_iff raw "S" "N" _ (by decide)
    (latitude_block_hem_value old raw sentinel divisor hold hs)

/-- The two position blocks, run on a record that still has the default
letters, leave letters that follow the signs. -/
theorem hemispheres_of_blocks (d e : AISData) (lon_raw lat_raw slon slat : Int) (n : Nat)
    (hE : d.lon_hem = "E") (hN : d.lat_hem = "N") (h1 : 0 ≤ slon) (h2 : 0 ≤ slat)
    (hlon : e.lon_hem =
      (longitude_block (d.longitude, d.lon_hem, d.has_position) lon_raw slon n).2.1)
    (hlat : e.lat_hem = (latitude_block (d.latitude, d.lat_hem) lat_raw slat n).2) :
    hemispheres_follow_sign e lon_raw lat_raw := by
  unfold hemispheres_follow_sign
  rw [hlon, hlat]
  have a := longitude_block_hem (d.longitude, d.lon_hem, d.has_position) lon_raw slon n hE h1
  have b := latitude_block_hem (d.latitude, d.lat_hem) lat_raw slat n hN h2
  exact ⟨a.1, a.2, b.1, b.2⟩

/-- C27: for every successfully decoded message of a position-bearing type with
a long enough bitstream, the hemisphere letters follow the sign of the raw
signed coordinates: `lon_hem` is `"W"` if and only if the signed longitude raw
value is negative (otherwise `"E"`), and `lat_hem` is `"S"` if and only if the
signed latitude raw value is negative (otherwise `"N"`). The raw values are the
windows of the type's layout. -/
theorem decode_ais_hemispheres (line payload : List Char)
    (hp : get_payload_from_nmea line = some payload) :
    ((((1 ≤ extract_bits (convert_payload_to_binary payload) 0 6 ∧
            extract_bits (convert_payload_to_binary payload) 0 6 ≤ 3) ∨
          extract_bits (convert_payload_to_binary payload) 0 6 = 9) ∧
        168 ≤ (convert_payload_to_binary payload).length) →
      (decode_ais line).1 = 1 ∧
        hemispheres_follow_sign (decode_ais line).2
          (extract_signed_bits (convert_payload_to_binary payload) 61 28)
          (extract_signed_bits (convert_payload_to_binary payload) 89 27)) ∧
    (((extract_bits (convert_payload_to_binary payload) 0 6 = 4 ∨
          extract_bits (convert_payload_to_binary payload) 0 6 = 11) ∧
        168 ≤ (convert_payload_to_binary payload).length) →
      (decode_ais line).1 = 1 ∧
        hemispheres_follow_sign (decode_ais line).2
          (extract_signed_bits (convert_payload_to_binary payload) 79 28)
          (extract_signed_bits (convert_payload_to_binary payload) 107 27)) ∧
    (((extract_bits (convert_payload_to_binary payload) 0 6 = 18 ∧
          168 ≤ (convert_payload_to_binary payload).length) ∨
        (extract_bits (convert_payload_to_binary payload) 0 6 = 19 ∧
          312 ≤ (convert_payload_to_binary payload).length)) →
      (decode_ais line).1 = 1 ∧
        hemispheres_follow_sign (decode_ais line).2
          (extract_signed_bits (convert_payload_to_binary payload) 57 28)
          (extract_signed_bits (convert_payload_to_binary payload) 85 27)) ∧
    ((extract_bits (convert_payload_to_binary payload) 0 6 = 21 ∧
        272 ≤ (convert_payload_to_binary payload).length) →
      (decode_ais line).1 = 1 ∧
        hemispheres_follow_sign (decode_ais line).2
          (extract_signed_bits (convert_payload_to_binary payload) 164 28)
          (extract_signed_bits (convert_payload_to_binary payload) 192 27)) ∧
    ((extract_bits (convert_payload_to_binary payload) 0 6 = 17 ∧
        80 ≤ (convert_payload_to_binary payload).length) →
      (decode_ais line).1 = 1 ∧
        hemispheres_follow_sign (decode_ais line).2
          (extract_signed_bits (convert_payload_to_binary payload) 40 18)
          (extract_signed_bits (convert_payload_to_binary payload) 58 17)) ∧
    ((extract_bits (convert_payload_to_binary payload) 0 6 = 27 ∧
        96 ≤ (convert_payload_to_binary payload).length) →
      (decode_ais line).1 = 1 ∧
        hemispheres_follow_sign (decode_ais line).2
          (extract_signed_bits (convert_payload_to_binary payload) 44 18)
          (extract_signed_bits (convert_payload_to_binary payload) 62 17)) := by
  have hE : init_ais_data.lon_hem = "E" := rfl
  have hN : init_ais_data.lat_hem = "N" := rfl
  have hhi1 : (0 : Int) ≤ 0x6791AC0 := by norm_num
  have hhi2 : (0 : Int) ≤ 0x3412140 := by norm_num
  have hlo1 : (0 : Int) ≤ 0x1A838 := by norm_num
  have hlo2 : (0 : Int) ≤ 0xD548 := by norm_num
  refine ⟨?_, ?_, ?_, ?_, ?_, ?_⟩
  · rintro ⟨ht | ht, hlen⟩
    · rw [decode_ais_valid_type line payload hp (by omega) (by omega) (by omega),
        decode_by_type_class_a _ _ ht (by exact_mod_cast hlen)]
      exact ⟨rfl, hemispheres_of_blocks _ _ _ _ _ _ 600000 hE hN hhi1 hhi2
        (by simp only [decode_class_a]) (by simp only [decode_class_a])⟩
    · rw [decode_ais_valid_type line payload hp (by omega) (by omega) (by omega),
        decode_by_type_sar_aircraft _ _ ht (by exact_mod_cast hlen)]
      exact ⟨rfl, hemispheres_of_blocks _ _ _ _ _ _ 600000 hE hN hhi1 hhi2
        (by simp only [decode_sar_aircraft]) (by simp only [decode_sar_aircraft])⟩
  · rintro ⟨ht | ht, hlen⟩
    · rw [decode_ais_valid_type line payload hp (by omega) (by omega) (by omega),
        decode_by_type_base_station _ _ ht (by exact_mod_cast hlen)]
      exact ⟨rfl, hemispheres_of_blocks _ _ _ _ _ _ 600000 hE hN hhi1 hhi2
        (by simp only [decode_base_station]) (by simp only [decode_base_station])⟩
    · rw [decode_ais_valid_type line payload hp (by omega) (by omega) (by omega),
        decode_by_type_utc_response _ _ ht (by exact_mod_cast hlen)]
      exact ⟨rfl, hemispheres_of_blocks _ _ _ _ _ _ 600000 hE hN hhi1 hhi2
        (by simp only [decode_base_station]) (by simp only [decode_base_station])⟩
  · rintro (⟨ht, hlen⟩ | ⟨ht, hlen⟩)
    · rw [decode_ais_valid_type line payload hp (by omega) (by omega) (by omega),
        decode_by_type_class_b _ _ ht (by exact_mod_cast hlen)]
      exact ⟨rfl, hemispheres_of_blocks _ _ _ _ _ _ 600000 hE hN hhi1 hhi2
        (by simp only [decode_class_b]) (by simp only [decode_class_b])⟩
    · rw [decode_ais_valid_type line payload hp (by omega) (by omega) (by omega),
        decode_by_type_class_b_extended _ _ ht (by exact_mod_cast hlen)]
      exact ⟨rfl, hemispheres_of_blocks _ _ _ _ _ _ 600000 hE hN hhi1 hhi2
        (by simp only [decode_class_b_extended]) (by simp only [decode_class_b_extended])⟩
  · rintro ⟨ht, hlen⟩
    rw [decode_ais_valid_type line payload hp (by omega) (by omega) (by omega),
      decode_by_type_aid_to_navigation _ _ ht (by exact_mod_cast hlen)]
    exact ⟨rfl, hemispheres_of_blocks _ _ _ _ _ _ 600000 hE hN hhi1 hhi2
      (by simp only [decode_aid_to_navigation]) (by simp only [decode_aid_to_navigation])⟩
  · rintro ⟨ht, hlen⟩
    rw [decode_ais_valid_type line payload hp (by omega) (by omega) (by omega),
      decode_by_type_dgnss _ _ ht (by exact_mod_cast hlen)]
    exact ⟨rfl, hemispheres_of_blocks _ _ _ _ _ _ 600 hE hN hlo1 hlo2
      (by simp only [decode_dgnss]) (by simp only [decode_dgnss])⟩
  · rintro ⟨ht, hlen⟩
    rw [decode_ais_valid_type line payload hp (by omega) (by omega) (by omega),
      decode_by_type_long_range _ _ ht (by exact_mod_cast hlen)]
    exact ⟨rfl, hemispheres_of_blocks _ _ _ _ _ _ 600 hE hN hlo1 hlo2
      (by simp only [decode_long_range]) (by simp only [decode_long_range])⟩

theorem decode_ais_hemispheres_witness :
    (decode_ais "!AIVDM,1,1,,A,38IFDN0Ohj7JvbN0fABtpbJ401w@,0*69".toList).1 = 1 ∧
      hemispheres_follow_sign
        (decode_ais "!AIVDM,1,1,,A,38IFDN0Ohj7JvbN0fABtpbJ401w@,0*69".toList).2
        (extract_signed_bits (convert_payload_to_binary "38IFDN0Ohj7JvbN0fABtpbJ401w@".toList) 61 28)
        (extract_signed_bits (convert_payload_to_binary "38IFDN0Ohj7JvbN0fABtpbJ401w@".toList) 89 27) :=
  (decode_ais_hemispheres "!AIVDM,1,1,,A,38IFDN0Ohj7JvbN0fABtpbJ401w@,0*69".toList
    "38IFDN0Ohj7JvbN0fABtpbJ401w@".toList (by decide)).1
    ⟨Or.inl (by set_option maxRecDepth 100000 in decide),
      by set_option maxRecDepth 100000 in decide⟩

/-! ## Aid to navigation -/

/-- C28, as amended: for every type-21 line whose payload fits the array
`payload` of `decode_ais` (fewer than `MAX_PAYLOAD_LENGTH` = 256 characters) and
whose bitstream has at least 272 bits, the run of `decode_ais` returns, with
success; `name_extension` is the text decoded from `[272:14 chars]` when the
bitstream has at least 360 bits and is the empty string when the length is in
`[272, 359]`, while `aid_type` = bits `[38:5]`, `ship_name` = text
`[43:20 chars]`, `off_position` = bit `[259:1]` and `raim` = bit `[268:1]` are
set in both cases. -/
theorem decode_ais_aid_to_navigation (line payload : List Char)
    (hp : get_payload_from_nmea line = some payload)
    (hcap : payload.length < MAX_PAYLOAD_LENGTH)
    (h272 : 272 ≤ (convert_payload_to_binary payload).length)
    (hty : extract_bits (convert_payload_to_binary payload) 0 6 = 21) :
    decode_ais_in_buffers line = some (decode_ais line) ∧
      (decode_ais line).1 = 1 ∧
      (360 ≤ (convert_payload_to_binary payload).length →
        (decode_ais line).2.name_extension =
          extract_text (convert_payload_to_binary payload) 272 14) ∧
      ((convert_payload_to_binary payload).length ≤ 359 →
        (decode_ais line).2.name_extension = []) ∧
      (decode_ais line).2.aid_type = extract_bits (convert_payload_to_binary payload) 38 5 ∧
      (decode_ais line).2.ship_name = extract_text (convert_payload_to_binary payload) 43 20 ∧
      (decode_ais line).2.off_position =
        extract_bits (convert_payload_to_binary payload) 259 1 ∧
      (decode_ais line).2.raim = extract_bits (convert_payload_to_binary payload) 268 1 := by
  refine ⟨decode_ais_in_buffers_fits line payload hp hcap, ?_⟩
  have hs := isBits_convert_payload payload
  have hl : (272 : Int) ≤ ((convert_payload_to_binary payload).length : Int) := by
    exact_mod_cast h272
  have hc : ∀ a n : Int, 0 ≤ a → 0 ≤ n → n ≤ 31 → a + n ≤ 272 →
      cast_int (extract_bits (convert_payload_to_binary payload) a n) =
        extract_bits (convert_payload_to_binary payload) a n :=
    fun a n ha hn hn31 hfit => cast_int_extract_bits _ hs a n ha hn hn31 (by omega)
  rw [decode_ais_valid_type line payload hp (by omega) (by omega) (by omega),
    decode_by_type_aid_to_navigation _ _ hty hl]
  simp only [decode_aid_to_navigation]
  rw [hc 38 5 (by norm_num) (by norm_num) (by norm_num) (by norm_num),
    hc 259 1 (by norm_num) (by norm_num) (by norm_num) (by norm_num),
    hc 268 1 (by norm_num) (by norm_num) (by norm_num) (by norm_num)]
  refine ⟨trivial, fun h360 => ?_, fun h359 => ?_, rfl, trivial, rfl, rfl⟩
  · rw [if_pos (by omega)]
  · rw [if_neg (by omega)]
    rfl

theorem decode_ais_aid_to_navigation_witness :
    (decode_ais "!AIVDM,1,1,,B,E>jHC=c6:W2h22R`@1:WdP00000Opa@H?KTcP10888e?N0,4*3C".toList).1 = 1 ∧
      (decode_ais
          "!AIVDM,1,1,,B,E>jHC=c6:W2h22R`@1:WdP00000Opa@H?KTcP10888e?N0,4*3C".toList).2.aid_type =
        extract_bits
          (convert_payload_to_binary "E>jHC=c6:W2h22R`@1:WdP00000Opa@H?KTcP10888e?N0".toList)
          38 5 := by
  have h := decode_ais_aid_to_navigation
    "!AIVDM,1,1,,B,E>jHC=c6:W2h22R`@1:WdP00000Opa@H?KTcP10888e?N0,4*3C".toList
    "E>jHC=c6:W2h22R`@1:WdP00000Opa@H?KTcP10888e?N0".toList
    (by set_option maxRecDepth 100000 in decide) (by decide)
    (by set_option maxRecDepth 100000 in decide)
    (by set_option maxRecDepth 100000 in decide)
  exact ⟨h.2.1, h.2.2.2.2.1⟩

/-- C28 fails as worded: the line `!AIVDM,1,1,,A,E000...0,0*00` whose payload is
`'E'` followed by 999 times `'0'` is a type 21 line with 6000 bits, and the run
of `decode_ais` does not return success on it: copying the 1000 payload
characters into `payload[256]` writes past the end of the array. -/
theorem decode_ais_aid_to_navigation_capacity_counterexample :
    get_payload_from_nmea (over_long_line 'E') = some (over_long_payload 'E') ∧
      (over_long_payload 'E').length = 1000 ∧
      (convert_payload_to_binary (over_long_payload 'E')).length = 6000 ∧
      extract_bits (convert_payload_to_binary (over_long_payload 'E')) 0 6 = 21 ∧
      decode_ais_in_buffers (over_long_line 'E') = none := by
  have h := over_long_line_facts 'E' (by decide) (by decide) (by decide)
  rw [show convert_ais_char 'E' = 21 from by decide] at h
  exact h

/-! ## The minimal decoder against the extended one -/

theorem to_minimal_init : to_minimal init_ais_data = Minimal.init_ais_data := rfl

theorem to_minimal_read_header (b : List Char) (d : AISData) :
    to_minimal (read_header b d) = Minimal.read_header b (to_minimal d) := by
  simp only [to_minimal, read_header, Minimal.read_header]

theorem to_minimal_class_a (b : List Char) (d : AISData) :
    to_minimal (decode_class_a b d) = Minimal.decode_class_a b (to_minimal d) := by
  simp only [to_minimal, decode_class_a, Minimal.decode_class_a]

theorem to_minimal_base_station (b : List Char) (d : AISData) :
    to_minimal (decode_base_station b d) = Minimal.decode_base_station b (to_minimal d) := by
  simp only [to_minimal, decode_base_station, Minimal.decode_base_station]

theorem to_minimal_decode_by_type (b : List Char) (d : AISData)
    (h : 1 ≤ d.msg_type ∧ d.msg_type ≤ 4) :
    to_minimal (decode_by_type b d) = Minimal.decode_by_type b (to_minimal d) := by
  have hm : (to_minimal d).msg_type = d.msg_type := rfl
  unfold Minimal.decode_by_type
  rw [hm]
  by_cases g1 : (d.msg_type ≥ 1 ∧ d.msg_type ≤ 3) ∧ (b.length : Int) ≥ 168
  · rw [if_pos g1, decode_by_type_class_a b d g1.1 g1.2, to_minimal_class_a]
  · rw [if_neg g1]
    by_cases g2 : d.msg_type = 4 ∧ (b.length : Int) ≥ 168
    · rw [if_pos g2, decode_by_type_base_station b d g2.1 g2.2, to_minimal_base_station]
    · rw [if_neg g2]
      congr 1
      unfold decode_by_type
      iterate 11 rw [if_neg (by omega)]

theorem minimal_decode_ais_some (line payload : List Char)
    (hp : get_payload_from_nmea line = some payload)
    (hlen : ¬ (convert_payload_to_binary payload).length < 38) :
    Minimal.decode_ais line =
      (1, Minimal.decode_by_type (convert_payload_to_binary payload)
        (Minimal.read_header (convert_payload_to_binary payload) Minimal.init_ais_data)) := by
  simp only [Minimal.decode_ais, hp, hlen, if_false]

theorem minimal_decode_ais_short_stream (line payload : List Char)
    (hp : get_payload_from_nmea line = some payload)
    (hlen : (convert_payload_to_binary payload).length < 38) :
    Minimal.decode_ais line = (0, Minimal.init_ais_data) := by
  simp only [Minimal.decode_ais, hp, hlen, if_true]

/-- C29: the minimal decoder (`ais_decoder_C.c`) and the extended decoder
(`refined_ais_decoder_C.c`) agree on Class A and base-station messages: for
every line whose message type is in 1..4, both `decode_ais` functions return
the same success flag and all 18 fields of the minimal record equal the
same-named fields of the extended record. -/
theorem minimal_agrees_with_extended (line payload : List Char)
    (hp : get_payload_from_nmea line = some payload)
    (hty : 1 ≤ extract_bits (convert_payload_to_binary payload) 0 6 ∧
      extract_bits (convert_payload_to_binary payload) 0 6 ≤ 4) :
    (Minimal.decode_ais line).1 = (decode_ais line).1 ∧
      (Minimal.decode_ais line).2 = to_minimal (decode_ais line).2 := by
  by_cases hlen : (convert_payload_to_binary payload).length < 38
  · rw [minimal_decode_ais_short_stream line payload hp hlen,
      decode_ais_short_stream line payload hp hlen]
    exact ⟨rfl, rfl⟩
  · have hs := isBits_convert_payload payload
    have hh := header_read_header _ hs (Nat.le_of_not_lt hlen) init_ais_data
    simp only [header, Prod.mk.injEq] at hh
    have hok : ¬ ((read_header (convert_payload_to_binary payload) init_ais_data).msg_type < 1 ∨
        (read_header (convert_payload_to_binary payload) init_ais_data).msg_type > 27) := by
      rw [hh.1]; omega
    rw [minimal_decode_ais_some line payload hp hlen, decode_ais_some line payload hp hlen,
      if_neg hok]
    refine ⟨rfl, ?_⟩
    show _ = to_minimal (decode_by_type _ _)
    rw [to_minimal_decode_by_type _ _ (by rw [hh.1]; exact hty), to_minimal_read_header,
      to_minimal_init]

theorem minimal_agrees_with_extended_witness :
    (Minimal.decode_ais "!AIVDM,1,1,,A,38IFDN0Ohj7JvbN0fABtpbJ401w@,0*69".toList).1 =
        (decode_ais "!AIVDM,1,1,,A,38IFDN0Ohj7JvbN0fABtpbJ401w@,0*69".toList).1 ∧
      (Minimal.decode_ais "!AIVDM,1,1,,A,38IFDN0Ohj7JvbN0fABtpbJ401w@,0*69".toList).2 =
        to_minimal (decode_ais "!AIVDM,1,1,,A,38IFDN0Ohj7JvbN0fABtpbJ401w@,0*69".toList).2 :=
  minimal_agrees_with_extended "!AIVDM,1,1,,A,38IFDN0Ohj7JvbN0fABtpbJ401w@,0*69".toList
    "38IFDN0Ohj7JvbN0fABtpbJ401w@".toList (by decide)
    (by set_option maxRecDepth 100000 in decide)

/-! ## Adjacent windows -/

theorem foldl_shift_or_acc (l : List Char) (hl : IsBits l) (acc : Int) (hacc : 0 ≤ acc) :
    l.foldl shift_or acc = acc * 2 ^ l.length + l.foldl shift_or 0 := by
  rw [foldl_shift_or_sum l hl acc hacc, foldl_shift_or_sum l hl 0 le_rfl]
  ring

/-- C30: `extract_bits` is compositional over adjacent windows: on a bitstream,
for `start ≥ 0` and `a, b ≥ 0` with `a + b ≤ 63` and `start + a + b` at most the
stream length, `extract_bits s start (a + b)` is
`extract_bits s start a * 2 ^ b + extract_bits s (start + a) b`. -/
theorem extract_bits_adjacent_windows (s : List Char) (hs : IsBits s) (start a b : Nat)
    (_h63 : a + b ≤ 63) (hfit : start + a + b ≤ s.length) :
    extract_bits s start ((a + b : Nat) : Int) =
      extract_bits s start a * 2 ^ b + extract_bits s ((start + a : Nat) : Int) b := by
  have hc1 : ¬ ((start : Int) + ((a + b : Nat) : Int) > ((s.length : Nat) : Int)) := by
    push_cast; omega
  have hc2 : ¬ ((start : Int) + (a : Int) > ((s.length : Nat) : Int)) := by omega
  have hc3 : ¬ (((start + a : Nat) : Int) + (b : Int) > ((s.length : Nat) : Int)) := by
    push_cast; omega
  simp only [extract_bits, hc1, hc2, hc3, if_false, Int.toNat_ofNat]
  have hsplit : (s.drop start).take (a + b) =
      (s.drop start).take a ++ (s.drop (start + a)).take b := by
    rw [List.take_add, List.drop_drop]
  have hw1 := isBits_window hs start a
  have hw2 := isBits_window hs (start + a) b
  have hl2 := length_window s (start + a) b (by omega)
  have hnn := (foldl_shift_or_bounds _ hw1 0 le_rfl).1
  rw [hsplit, List.foldl_append, foldl_shift_or_acc _ hw2 _ (by simpa using hnn), hl2]

theorem extract_bits_adjacent_windows_witness :
    extract_bits ['1', '0', '1', '1', '0', '1'] (1 : Nat) ((2 + 3 : Nat) : Int) =
      extract_bits ['1', '0', '1', '1', '0', '1'] (1 : Nat) (2 : Nat) * 2 ^ 3 +
        extract_bits ['1', '0', '1', '1', '0', '1'] ((1 + 2 : Nat) : Int) (3 : Nat) :=
  extract_bits_adjacent_windows ['1', '0', '1', '1', '0', '1'] (by decide) 1 2 3 (by decide)
    (by decide)

/-! ## The armor alphabet -/

/-- C31: `convert_ais_char` restricted to the 64 valid armor characters (codes
48..87 and 96..119) is a bijection onto the 6-bit values 0..63: every such
character maps into `[0, 63]`, distinct characters map to distinct values, and
every value in 0..63 is the image of such a character. -/
theorem convert_ais_char_bijection :
    (∀ c : Char, is_armor_char c → 0 ≤ convert_ais_char c ∧ convert_ais_char c ≤ 63) ∧
      (∀ c d : Char, is_armor_char c → is_armor_char d →
        convert_ais_char c = convert_ais_char d → c = d) ∧
      (∀ v : Int, 0 ≤ v → v ≤ 63 → ∃ c : Char, is_armor_char c ∧ convert_ais_char c = v) := by
  refine ⟨fun c hc => ?_, fun c d hc hd h => ?_, fun v h0 h63 => ?_⟩
  · unfold is_armor_char at hc
    unfold convert_ais_char
    simp only
    split <;> omega
  · unfold is_armor_char at hc hd
    have ht : c.toNat = d.toNat := by
      unfold convert_ais_char at h
      simp only at h
      split at h <;> split at h <;> omega
    rw [← Char.ofNat_toNat c, ← Char.ofNat_toNat d, ht]
  · refine ⟨Char.ofNat (if v < 40 then v + 48 else v + 56).toNat, ?_⟩
    interval_cases v <;> decide

theorem convert_ais_char_bijection_witness :
    (0 ≤ convert_ais_char 'w' ∧ convert_ais_char 'w' ≤ 63) ∧
      (∃ c : Char, is_armor_char c ∧ convert_ais_char c = 40) :=
  ⟨convert_ais_char_bijection.1 'w' (by decide),
    convert_ais_char_bijection.2.2 40 (by decide) (by decide)⟩

/-! ## Invariants of the text field decoder -/

theorem six_bit_ascii_code (c : Int) (h0 : 0 ≤ c) (h64 : c < 64) :
    32 ≤ (six_bit_ascii c).toNat ∧ (six_bit_ascii c).toNat ≤ 95 := by
  interval_cases c <;> decide

theorem length_fitting_codes (s : List Char) (start num_chars : Nat) :
    (fitting_codes s start num_chars).length ≤ num_chars := by
  unfold fitting_codes
  rw [List.length_map]
  calc ((List.range num_chars).takeWhile _).length ≤ (List.range num_chars).length :=
        (List.takeWhile_sublist _).length_le
    _ = num_chars := List.length_range _

/-- One round of `extract_text_loop_strict` on a bitstream: the test on
`ascii_char` holds whenever the window is read. -/
theorem extract_text_loop_strict_eq (s : List Char) (hs : IsBits s) (start remaining k : Nat) :
    extract_text_loop_strict s start remaining k =
      some (extract_text_loop s start remaining k) := by
  induction remaining generalizing k with
  | zero => rfl
  | succ remaining ih =>
    have e1 : (((k + 1 : Nat) : Int)) = (k : Int) + 1 := by push_cast; rfl
    unfold extract_text_loop_strict extract_text_loop
    simp only []
    by_cases hfit : start + 6 * k + 6 ≤ s.length
    · have hr := extract_bits_range s hs ((start : Int) + (k : Int) * 6) 6 (by omega)
        (by norm_num) (by omega)
      have hne : extract_bits s ((start : Int) + (k : Int) * 6) 6 ≠ -1 := by omega
      have h64 : extract_bits s ((start : Int) + (k : Int) * 6) 6 < 64 := by
        have := hr.2; norm_num at this; exact this
      have h0 := hr.1
      generalize extract_bits s ((start : Int) + (k : Int) * 6) 6 = cb at hne h64 h0
      have hcast : cast_int (if cb < 32 then cb + 64 else cb) = if cb < 32 then cb + 64 else cb := by
        apply cast_int_of_range <;> split <;> omega
      have hp : (if cb < 32 then cb + 64 else cb) ≥ 32 ∧ (if cb < 32 then cb + 64 else cb) ≤ 126 := by
        constructor <;> split <;> omega
      rw [if_neg hne, if_neg hne, hcast, if_pos hp, ← e1, ih (k + 1)]
      unfold text_char
      simp only [hcast, if_pos hp, Option.map_some']
    · have hout := extract_bits_out_of_bounds s ((start : Int) + (k : Int) * 6) 6 (by omega)
      rw [hout, if_pos rfl, if_pos rfl]

theorem extract_text_strict_eq (s : List Char) (hs : IsBits s) (start num_chars : Nat) :
    extract_text_strict s start num_chars = some (extract_text s start num_chars) := by
  have h := extract_text_loop_strict_eq s hs start num_chars 0
  rw [Nat.cast_zero] at h
  unfold extract_text_strict extract_text
  rw [Int.toNat_ofNat, h]
  rfl

/-- C32: on a bitstream, for `start ≥ 0` and `num_chars ≥ 0`, the string
returned by `extract_text` has length at most `num_chars`, does not end in a
space, and every character of it has its code in `[32, 95]`; the branch that
substitutes a space for a non-printable character is never taken: the run of
`extract_text` in which that branch ends the run with `none` returns `some` of
the same string. -/
theorem extract_text_invariants (s : List Char) (hs : IsBits s) (start num_chars : Nat) :
    (extract_text s start num_chars).length ≤ num_chars ∧
      (extract_text s start num_chars).getLast? ≠ some ' ' ∧
      (∀ c ∈ extract_text s start num_chars, 32 ≤ c.toNat ∧ c.toNat ≤ 95) ∧
      extract_text_strict s start num_chars = some (extract_text s start num_chars) := by
  refine ⟨?_, ?_, ?_, extract_text_strict_eq s hs start num_chars⟩
  · rw [extract_text_eq s hs]
    calc (((fitting_codes s start num_chars).map six_bit_ascii).rdropWhile _).length
        ≤ ((fitting_codes s start num_chars).map six_bit_ascii).length :=
          (List.rdropWhile_prefix _ _).length_le
      _ = (fitting_codes s start num_chars).length := List.length_map _ _
      _ ≤ num_chars := length_fitting_codes s start num_chars
  · rw [extract_text_eq s hs]
    exact rdropWhile_spaces_getLast _
  · intro c hc
    rw [extract_text_eq s hs] at hc
    have hm := (List.rdropWhile_prefix _ _).subset hc
    obtain ⟨v, hv, rfl⟩ := List.mem_map.mp hm
    obtain ⟨v0, v64⟩ := fitting_codes_range s hs start num_chars v hv
    exact six_bit_ascii_code v v0 v64

theorem extract_text_invariants_witness :
    (extract_text "000001100000000010100000".toList 0 4).length ≤ 4 ∧
      (extract_text "000001100000000010100000".toList 0 4).getLast? ≠ some ' ' ∧
      (∀ c ∈ extract_text "000001100000000010100000".toList 0 4,
        32 ≤ c.toNat ∧ c.toNat ≤ 95) ∧
      extract_text_strict "000001100000000010100000".toList 0 4 =
        some (extract_text "000001100000000010100000".toList 0 4) :=
  extract_text_invariants "000001100000000010100000".toList (by decide) 0 4

end AIS
